import Mathlib

/-! # IREE execution provider: a shallow embedding

The development embeds the translate → compile → load → invoke pipeline of
`onnxruntime/core/providers/iree` and proves properties of it.

* `jit_compiler.{h,cc}`  : `iree_ep_jit`  (diagnostics, invocation, compiler output)
* `iree_ep_runtime.{h,cc}` : `iree_ep_rt` (runtime session, dispose callbacks, `Session::Call`)
* `iree_execution_provider.cc` : `IREEExecutionProvider.Compile`

Conventions.  A C pointer is an `Option Handle` (`none` is `nullptr`).  The
IREE compiler and runtime are foreign engines: what they answer is taken from
an oracle record (`CompilerApi`, `RuntimeApi`), what the code asks of them is
recorded, in call order, in a trace of `Effect`s.  Machine integers are `Nat`
or `Int` with explicit wrap-around where the source converts or multiplies.
Where the source hands a `std::string` or a path over as `c_str()`, the callee
is given `c_str` of it, the text up to its first NUL character.
-/

namespace onnxruntime

/-! ## Shared vocabulary -/

/-- An opaque foreign object address; a pointer is an `Option Handle`. -/
abbrev Handle := Nat

/-- The status codes of `common::Status` that this provider produces. -/
inductive StatusCode where
  | OK
  | RUNTIME_EXCEPTION
  | INVALID_GRAPH
deriving DecidableEq, Repr

/-- The host status value `common::Status` (category ONNXRUNTIME throughout). -/
structure Status where
  code : StatusCode
  message : String
deriving DecidableEq, Repr

/-- The `common::Status::OK()` value. -/
def Status.OK : Status := ⟨StatusCode.OK, ""⟩

/-- The `Status::IsOK` test. -/
def Status.IsOK (s : Status) : Bool := s.code == StatusCode.OK

/-- The `ORT_MAKE_STATUS(ONNXRUNTIME, code, parts...)` form: the parts are
concatenated, in order, into the message. -/
def ORT_MAKE_STATUS (code : StatusCode) (parts : List String) : Status :=
  ⟨code, String.join parts⟩

/-- The text a callee reads through the `const char*` that `c_str()` hands
over: a C string ends at its first NUL character, so of a `std::string` (or a
path) holding one only the part before it is seen. -/
def c_str (s : String) : String :=
  ⟨s.data.takeWhile (fun c => c != Char.ofNat 0)⟩

/-- A deferred cleanup action, `std::function<void()>`.  The only closure the
provider itself builds is the one returned by `CompilerOutput::Release`, which
captures the output pointer; any other action is identified by a tag. -/
inductive DisposeCallback where
  | destroyOutput (local_output : Option Handle)
  | action (tag : Nat)
deriving DecidableEq, Repr

/-- One observable request made to a foreign engine (or one callback run). -/
inductive Effect where
  | SessionSetFlags (flag : String)
  | LoadDialect (name : String)
  | InvocationCreate (module_name : String)
  | DefineFunction (func_name : String)
  | Pipeline
  | OutputOpenMembuffer (out_output : Option Handle)
  | OutputOpenFile (path : String) (out_output : Option Handle)
  | OutputVMBytecode (sink : Option Handle)
  | OutputMapMemory (output : Option Handle)
  | OutputDestroy (output : Handle)
  | InvocationDestroy
  | CompilerSessionDestroy
  | RuntimeSessionCreate (out_session : Option Handle)
  | RuntimeSessionRelease (session : Handle)
  | AppendBytecodeModuleFromFile (session : Option Handle) (path : String)
  | CallbackInvoked (cb : DisposeCallback)
deriving DecidableEq, Repr

/-! ## `iree_ep_jit` : jit_compiler.h / jit_compiler.cc -/

namespace iree_ep_jit

/-- The C enumeration of diagnostic severities; the callback may deliver any
integer value. -/
abbrev iree_compiler_diagnostic_severity_t := Nat

/-- Modelled from the spec: the four enumerators of
`iree_compiler_diagnostic_severity_t` are declared in
`iree/compiler/embedding_api.h`, which is not part of the sources; they are
the severities note, warning, error, remark, numbered from zero. -/
def IREE_COMPILER_DIAGNOSTIC_SEVERITY_NOTE : iree_compiler_diagnostic_severity_t := 0

/-- Modelled from the spec: see `IREE_COMPILER_DIAGNOSTIC_SEVERITY_NOTE`. -/
def IREE_COMPILER_DIAGNOSTIC_SEVERITY_WARNING : iree_compiler_diagnostic_severity_t := 1

/-- Modelled from the spec: see `IREE_COMPILER_DIAGNOSTIC_SEVERITY_NOTE`. -/
def IREE_COMPILER_DIAGNOSTIC_SEVERITY_ERROR : iree_compiler_diagnostic_severity_t := 2

/-- Modelled from the spec: see `IREE_COMPILER_DIAGNOSTIC_SEVERITY_NOTE`. -/
def IREE_COMPILER_DIAGNOSTIC_SEVERITY_REMARK : iree_compiler_diagnostic_severity_t := 3

/-- The `struct DiagnosticRecord` of jit_compiler.h. -/
structure DiagnosticRecord where
  severity : iree_compiler_diagnostic_severity_t
  message : String
deriving DecidableEq, Repr

/-- The `DiagnosticRecord::ToString(std::string& accum)` member
(jit_compiler.cc 246-264): a `switch` on the severity appends the tag, then
the message is appended. -/
def DiagnosticRecord.ToString (self : DiagnosticRecord) (accum : String) : String :=
  let accum :=
    if self.severity = IREE_COMPILER_DIAGNOSTIC_SEVERITY_NOTE then accum ++ "note: "
    else if self.severity = IREE_COMPILER_DIAGNOSTIC_SEVERITY_WARNING then accum ++ "warning: "
    else if self.severity = IREE_COMPILER_DIAGNOSTIC_SEVERITY_ERROR then accum ++ "error: "
    else if self.severity = IREE_COMPILER_DIAGNOSTIC_SEVERITY_REMARK then accum ++ "remark: "
    else accum ++ "<unknown severity>: "
  accum ++ self.message

/-- The `struct CompilerInvocation`: the functions defined so far in the
stolen module `module_op` (named `module_name`) and the diagnostic log. -/
structure CompilerInvocation where
  module_name : String
  functions : List String
  diagnostics : List DiagnosticRecord
deriving DecidableEq, Repr

/-- The diagnostics callback installed by the constructor (jit_compiler.cc
107-114): `self->diagnostics.emplace_back(DiagnosticRecord{severity, message})`. -/
def CompilerInvocation.diagnosticsCallback (self : CompilerInvocation)
    (severity : iree_compiler_diagnostic_severity_t) (message : String) : CompilerInvocation :=
  { self with diagnostics := self.diagnostics ++ [⟨severity, message⟩] }

/-- Delivery of a run of diagnostics, one callback each, in emission order. -/
def CompilerInvocation.emit (self : CompilerInvocation) (records : List DiagnosticRecord) :
    CompilerInvocation :=
  records.foldl (fun inv r => inv.diagnosticsCallback r.severity r.message) self

/-- The `CompilerInvocation::ConsumeDiagnostics` member (jit_compiler.cc
227-240): the returned string and the invocation afterwards. -/
def CompilerInvocation.ConsumeDiagnostics (self : CompilerInvocation) :
    String × CompilerInvocation :=
  if self.diagnostics.isEmpty then
    ("", self)
  else
    let accum := self.diagnostics.foldl
      (fun accum diag => diag.ToString (accum ++ "\n  ")) "\nDiagnostics:"
    (accum, { self with diagnostics := [] })

/-- An `iree_compiler_error_t*`: `none` is the null pointer (no error),
`some m` an error whose `ireeCompilerErrorGetMessage` text is `m`. -/
abbrev iree_compiler_error_t := Option String

/-- The `ErrorToStatus` function (jit_compiler.cc 53-62). -/
def ErrorToStatus (err : iree_compiler_error_t) ( message_prefix : String) : Status :=
  match err with
  | none => Status.OK
  | some message => ORT_MAKE_STATUS StatusCode.RUNTIME_EXCEPTION [ message_prefix ++ message]

/-- What the IREE compiler C API answers.  An output-opening call yields its
error together with the pointer it stores through `out_output`. -/
structure CompilerApi where
  SessionSetFlags : String → iree_compiler_error_t
  DialectIsNull : String → Bool
  Pipeline : List String → Bool × List DiagnosticRecord
  OutputOpenMembuffer : iree_compiler_error_t × Option Handle
  OutputOpenFile : String → iree_compiler_error_t × Option Handle
  OutputVMBytecode : Option Handle → iree_compiler_error_t
  OutputMapMemory : Option Handle → iree_compiler_error_t

/-- The `CompilerSession::SetFlag` member (jit_compiler.cc 95-101). -/
def CompilerSession.SetFlag (api : CompilerApi) (flag : String) (trace : List Effect) :
    Status × List Effect :=
  let trace := trace ++ [Effect.SessionSetFlags flag]
  match api.SessionSetFlags flag with
  | some err => (ErrorToStatus (some err) "Error setting IREE compiler flag: ", trace)
  | none => (Status.OK, trace)

/-- The `CompilerSession::Initialize` member (jit_compiler.cc 74-93): the three
dialects are loaded in turn, then the input type flag is set. -/
def CompilerSession.Initialize (api : CompilerApi) (trace : List Effect) :
    Status × List Effect :=
  let trace := trace ++ [Effect.LoadDialect "builtin"]
  if api.DialectIsNull "builtin" then
    (ORT_MAKE_STATUS StatusCode.RUNTIME_EXCEPTION
      ["Dialect 'builtin' not registered in the IREE compiler"], trace)
  else
    let trace := trace ++ [Effect.LoadDialect "func"]
    if api.DialectIsNull "func" then
      (ORT_MAKE_STATUS StatusCode.RUNTIME_EXCEPTION
        ["Dialect 'func' not registered in the IREE compiler"], trace)
    else
      let trace := trace ++ [Effect.LoadDialect "torch"]
      if api.DialectIsNull "torch" then
        (ORT_MAKE_STATUS StatusCode.RUNTIME_EXCEPTION
          ["Dialect 'torch' not registered in the IREE compiler " ++
           "(this could mean that IREE was not built with TORCH support enabled)"], trace)
      else
        CompilerSession.SetFlag api "--iree-input-type=onnx" trace

/-- The `CompilerInvocation` constructor (jit_compiler.cc 103-137): an empty
module carrying `sym_name = module_name`, an empty diagnostic log. -/
def CompilerInvocation.create (module_name : String) : CompilerInvocation :=
  ⟨module_name, [], []⟩

/-- One step of the ONNX importer (`torch_mlir_onnx`, whose sources are not
among the files): whether it failed, the text `model_info.error_message()`
holds afterwards, and the diagnostics the compiler emitted meanwhile. -/
structure ImportStep where
  failed : Bool
  error_message : String
  emitted : List DiagnosticRecord
deriving DecidableEq, Repr

/-- A subgraph view as `ImportSubgraph` sees it: how each importer step fares
on it, and the generic-form print of the function built from it. -/
structure GraphViewer where
  Initialize : ImportStep
  DefineFunction : ImportStep
  ImportAll : ImportStep
  Verify : ImportStep
  generic_form : String
deriving DecidableEq, Repr

/-- The `CompilerInvocation::ImportSubgraph` member (jit_compiler.cc 143-208). -/
def CompilerInvocation.ImportSubgraph (self : CompilerInvocation) (graph_view : GraphViewer)
    (func_name : String) (trace : List Effect) : Status × CompilerInvocation × List Effect :=
  let self := self.emit graph_view.Initialize.emitted
  if graph_view.Initialize.failed then
    (ORT_MAKE_STATUS StatusCode.INVALID_GRAPH [graph_view.Initialize.error_message], self, trace)
  else
    let trace := trace ++ [Effect.DefineFunction func_name]
    let self := self.emit graph_view.DefineFunction.emitted
    if graph_view.DefineFunction.failed then
      let consumed := self.ConsumeDiagnostics
      (ORT_MAKE_STATUS StatusCode.INVALID_GRAPH
        ["Failed to define entry function for graph: ",
         graph_view.DefineFunction.error_message, consumed.1], consumed.2, trace)
    else
      let self := { self with functions := self.functions ++ [func_name] }
      let self := self.emit graph_view.ImportAll.emitted
      if graph_view.ImportAll.failed then
        let consumed := self.ConsumeDiagnostics
        (ORT_MAKE_STATUS StatusCode.INVALID_GRAPH
          ["Failed to import nodes", ": ", graph_view.ImportAll.error_message, consumed.1],
          consumed.2, trace)
      else
        let self := self.emit graph_view.Verify.emitted
        if graph_view.Verify.failed then
          let consumed := self.ConsumeDiagnostics
          (ORT_MAKE_STATUS StatusCode.INVALID_GRAPH
            ["Imported ONNX IR failed to verify.", consumed.1,
             "\nUnverified MLIR module:\n", graph_view.generic_form], consumed.2, trace)
        else
          (Status.OK, self, trace)

set_option linter.unusedVariables false in
/-- The `CompilerInvocation::CompileAndOutputVMFB` member (jit_compiler.cc
210-225).  `ireeCompilerOutputOpenFile(vmfb_path.c_str(), &output)` stores
through the address of the by-value parameter, so from there on `output` is
what the open call put there; its error result is dropped. -/
def CompilerInvocation.CompileAndOutputVMFB (api : CompilerApi) (self : CompilerInvocation)
    (output : Option Handle) (vmfb_path : String) (trace : List Effect) :
    Status × CompilerInvocation × List Effect :=
  let ran := api.Pipeline self.functions
  let trace := trace ++ [Effect.Pipeline]
  let self := self.emit ran.2
  if !ran.1 then
    let consumed := self.ConsumeDiagnostics
    (ORT_MAKE_STATUS StatusCode.INVALID_GRAPH ["IREE compilation error.", consumed.1],
      consumed.2, trace)
  else
    let output := (api.OutputOpenFile (c_str vmfb_path)).2
    let trace := trace ++ [Effect.OutputOpenFile (c_str vmfb_path) output]
    let trace := trace ++ [Effect.OutputVMBytecode output]
    match api.OutputVMBytecode output with
    | some err => (ErrorToStatus (some err) "Failure emitting VM bytecode: ", self, trace)
    | none => (Status.OK, self, trace)

/-- The `struct CompilerOutput` of jit_compiler.h. -/
structure CompilerOutput where
  output : Option Handle
deriving DecidableEq, Repr

/-- The `CompilerOutput::~CompilerOutput` destructor (jit_compiler.h 36-40). -/
def CompilerOutput.destructor (self : CompilerOutput) (trace : List Effect) : List Effect :=
  match self.output with
  | some h => trace ++ [Effect.OutputDestroy h]
  | none => trace

/-- The `CompilerOutput::MapMemory` member (jit_compiler.cc 242-244). -/
def CompilerOutput.MapMemory (api : CompilerApi) (self : CompilerOutput)
    (trace : List Effect) : Status × List Effect :=
  (ErrorToStatus (api.OutputMapMemory self.output) "Failed to map compiler output memory: ",
    trace ++ [Effect.OutputMapMemory self.output])

/-- The `CompilerOutput::Release` member (jit_compiler.h 47-55): the callback
capturing the old pointer, and the wrapper afterwards. -/
def CompilerOutput.Release (self : CompilerOutput) : DisposeCallback × CompilerOutput :=
  let local_output := self.output
  (DisposeCallback.destroyOutput local_output, { self with output := none })

end iree_ep_jit

/-- Running a deferred cleanup action: the closure of `CompilerOutput::Release`
destroys its captured output when it is not null; another action has no effect
on the compiler or runtime objects followed here. -/
def DisposeCallback.run (cb : DisposeCallback) (trace : List Effect) : List Effect :=
  match cb with
  | DisposeCallback.destroyOutput (some h) => trace ++ [Effect.OutputDestroy h]
  | DisposeCallback.destroyOutput none => trace
  | DisposeCallback.action _ => trace

/-! ## `iree_ep_rt` : iree_ep_runtime.h / iree_ep_runtime.cc -/

namespace iree_ep_rt

/-- An `iree_status_t`: `none` is the OK status, `some m` a failing status
whose `iree::Status::ToString` text is `m`. -/
abbrev iree_status_t := Option String

/-- The `HandleFailingIREEStatus` function (iree_ep_runtime.cc 10-19), applied
to the text of a failing status. -/
def HandleFailingIREEStatus (buffer : String) : Status :=
  ORT_MAKE_STATUS StatusCode.RUNTIME_EXCEPTION ["IREE Runtime Error: ", buffer]

/-- The `HandleIREEStatus` inline function (iree_ep_runtime.h 19-25). -/
def HandleIREEStatus (iree_status : iree_status_t) : Status :=
  match iree_status with
  | none => Status.OK
  | some buffer => HandleFailingIREEStatus buffer

/-- Modelled from the spec: the enumeration `ONNXTensorElementDataType` is
declared in `onnxruntime_c_api.h`, which is not part of the sources.  The
enumerators are the host element types (8/16/32/64-bit integers, float16/32/64,
bfloat16, bool, complex64/128, string, undefined, the 8-bit float variants and
the 4-bit integers), listed in the order of their integer codes 0..22. -/
inductive ONNXTensorElementDataType where
  | UNDEFINED
  | FLOAT
  | UINT8
  | INT8
  | UINT16
  | INT16
  | INT32
  | INT64
  | STRING
  | BOOL
  | FLOAT16
  | DOUBLE
  | UINT32
  | UINT64
  | COMPLEX64
  | COMPLEX128
  | BFLOAT16
  | FLOAT8E4M3FN
  | FLOAT8E4M3FNUZ
  | FLOAT8E5M2
  | FLOAT8E5M2FNUZ
  | UINT4
  | INT4
deriving DecidableEq, Repr

/-- The integer code `static_cast<int>(et)` of a host element type. -/
def ONNXTensorElementDataType.code (et : ONNXTensorElementDataType) : Nat :=
  et.toCtorIdx

/-- Modelled from the spec: the runtime element types `iree_hal_element_type_t`
are declared in the IREE runtime headers, which are not part of the sources;
these are the sixteen values `ConvertOrtElementType` names. -/
inductive iree_hal_element_type_t where
  | NONE
  | FLOAT_32
  | UINT_8
  | SINT_8
  | UINT_16
  | SINT_16
  | SINT_32
  | SINT_64
  | BOOL_8
  | FLOAT_16
  | FLOAT_64
  | UINT_32
  | UINT_64
  | COMPLEX_FLOAT_64
  | COMPLEX_FLOAT_128
  | BFLOAT_16
deriving DecidableEq, Repr

/-- Modelled from the spec: `iree_hal_element_bit_count` is a macro of the IREE
runtime headers (not part of the sources); the bit width of a runtime element
type is the number its name ends in, and zero for `NONE`. -/
def iree_hal_element_bit_count : iree_hal_element_type_t → Nat
  | .NONE => 0
  | .FLOAT_32 => 32
  | .UINT_8 => 8
  | .SINT_8 => 8
  | .UINT_16 => 16
  | .SINT_16 => 16
  | .SINT_32 => 32
  | .SINT_64 => 64
  | .BOOL_8 => 8
  | .FLOAT_16 => 16
  | .FLOAT_64 => 64
  | .UINT_32 => 32
  | .UINT_64 => 64
  | .COMPLEX_FLOAT_64 => 64
  | .COMPLEX_FLOAT_128 => 128
  | .BFLOAT_16 => 16

/-- Modelled from the spec: `iree_hal_element_is_byte_aligned` is a macro of
the IREE runtime headers; a type is byte-aligned when its bit width is a
multiple of eight. -/
def iree_hal_element_is_byte_aligned (element_type : iree_hal_element_type_t) : Bool :=
  iree_hal_element_bit_count element_type % 8 == 0

/-- Modelled from the spec: `iree_hal_element_dense_byte_count` is a macro of
the IREE runtime headers; the bytes one densely packed element occupies, the
bit width rounded up to whole bytes. -/
def iree_hal_element_dense_byte_count (element_type : iree_hal_element_type_t) : Nat :=
  (iree_hal_element_bit_count element_type + 7) / 8

/-- The `ConvertOrtElementType` function (iree_ep_runtime.cc 107-143). -/
def ConvertOrtElementType (et : ONNXTensorElementDataType) : iree_hal_element_type_t :=
  match et with
  | .FLOAT => .FLOAT_32
  | .UINT8 => .UINT_8
  | .INT8 => .SINT_8
  | .UINT16 => .UINT_16
  | .INT16 => .SINT_16
  | .INT32 => .SINT_32
  | .INT64 => .SINT_64
  | .BOOL => .BOOL_8
  | .FLOAT16 => .FLOAT_16
  | .DOUBLE => .FLOAT_64
  | .UINT32 => .UINT_32
  | .UINT64 => .UINT_64
  | .COMPLEX64 => .COMPLEX_FLOAT_64
  | .COMPLEX128 => .COMPLEX_FLOAT_128
  | .BFLOAT16 => .BFLOAT_16
  | _ => .NONE

/-- The `OrtMemoryInfoDeviceType` enumeration (CPU, GPU and FPGA, as the
comment at iree_ep_runtime.cc 168 lists them). -/
inductive OrtMemoryInfoDeviceType where
  | CPU
  | GPU
  | FPGA
deriving DecidableEq, Repr

/-- A host value handed in by the kernel context, as read through the Ort API:
`IsTensor`, the memory's device type, the element type, `GetShape`,
`GetElementCount` and the bytes behind `GetTensorRawData`. -/
structure OrtValue where
  IsTensor : Bool
  DeviceType : OrtMemoryInfoDeviceType
  ElementType : ONNXTensorElementDataType
  Shape : List Int
  ElementCount : Nat
  RawData : List Nat
deriving DecidableEq, Repr

/-- The kernel context of one call: its inputs and its declared output count. -/
structure KernelContext where
  inputs : List OrtValue
  OutputCount : Nat
deriving DecidableEq, Repr

/-- A device buffer view: shape (`iree_hal_dim_t` is `size_t`), element type
and the bytes of the backing buffer. -/
structure BufferView where
  shape : List Nat
  element_type : iree_hal_element_type_t
  buffer : List Nat
deriving DecidableEq, Repr

/-- Modelled from the spec: `iree_hal_buffer_view_byte_length` belongs to the
IREE runtime; for the dense row-major layout it is the element count of the
shape times the dense byte count of the element type. -/
def iree_hal_buffer_view_byte_length (bv : BufferView) : Nat :=
  bv.shape.prod * iree_hal_element_dense_byte_count bv.element_type

/-- The conversion `int64_t → size_t` done by `std::copy(shape, dims)`. -/
def toSizeT (x : Int) : Nat := (x % (2 ^ 64 : Int)).toNat

/-- The conversion `size_t → int64_t` done by `std::copy(ret_dims, shape)`. -/
def toInt64 (d : Nat) : Int :=
  if d % 2 ^ 64 < 2 ^ 63 then ((d % 2 ^ 64 : Nat) : Int) else ((d % 2 ^ 64 : Nat) : Int) - 2 ^ 64

/-- What the IREE runtime C API answers. -/
structure RuntimeApi where
  session_create_with_device : iree_status_t × Option Handle
  session_append_bytecode_module_from_file : Option Handle → String → iree_status_t
  call_initialize_by_name : Option Handle → String → iree_status_t
  hal_device_id : String
  buffer_view_allocate_buffer_copy : BufferView → iree_status_t
  call_inputs_push_back_buffer_view : BufferView → iree_status_t
  call_invoke : String → List BufferView → iree_status_t × List BufferView
  buffer_map_read : BufferView → iree_status_t
  device_transfer_d2h : BufferView → iree_status_t
  output_is_tensor : Nat → Bool

/-- The `struct Session` of iree_ep_runtime.h: the session pointer and the
dispose callbacks, in registration order. -/
structure Session where
  session : Option Handle
  dispose_callbacks : List DisposeCallback
deriving DecidableEq, Repr

/-- The `Session::Session` constructor (iree_ep_runtime.cc 46-48, with the
member initializers of the header). -/
def Session.create : Session := ⟨none, []⟩

/-- The `Session::Initialize` member (iree_ep_runtime.cc 59-64). -/
def Session.Initialize (api : RuntimeApi) (self : Session) (trace : List Effect) :
    iree_status_t × Session × List Effect :=
  let made := api.session_create_with_device
  (made.1, { self with session := made.2 }, trace ++ [Effect.RuntimeSessionCreate made.2])

/-- The `Session::AppendBytecodeModule` member (iree_ep_runtime.cc 66-74). -/
def Session.AppendBytecodeModule (api : RuntimeApi) (self : Session) (vmfb_path : String)
    (dispose_callback : DisposeCallback) (trace : List Effect) :
    iree_status_t × Session × List Effect :=
  let self := { self with dispose_callbacks := self.dispose_callbacks ++ [dispose_callback] }
  (api.session_append_bytecode_module_from_file self.session (c_str vmfb_path), self,
    trace ++ [Effect.AppendBytecodeModuleFromFile self.session (c_str vmfb_path)])

/-- The loop `for (auto& cb : dispose_callbacks) cb();` of the destructor. -/
def Session.runDisposeCallbacks : List DisposeCallback → List Effect → List Effect
  | [], trace => trace
  | cb :: rest, trace =>
    Session.runDisposeCallbacks rest (cb.run (trace ++ [Effect.CallbackInvoked cb]))

/-- The `Session::~Session` destructor (iree_ep_runtime.cc 50-57). -/
def Session.destructor (self : Session) (trace : List Effect) : List Effect :=
  let trace :=
    match self.session with
    | some h => trace ++ [Effect.RuntimeSessionRelease h]
    | none => trace
  Session.runDisposeCallbacks self.dispose_callbacks trace

/-- How a call of `Session::Call` ends: it returns a status, or an
`ORT_ENFORCE` raises the host exception; `what` keeps the enforced condition
(or the message given with it). -/
inductive Outcome where
  | returned (status : Status)
  | threw (what : String)
deriving DecidableEq, Repr

/-- A call that did not return the OK status. -/
def Outcome.failed : Outcome → Bool
  | Outcome.returned status => !status.IsOK
  | Outcome.threw _ => true

/-- What one call has done so far: the buffer views allocated for inputs, the
call's input list, whether the invocation completed, the call's output list
(what is still to pop), the views popped, the host outputs requested through
`GetOutput(i, shape)` and those whose raw data has been filled. -/
structure CallState where
  allocated : List BufferView
  inputs : List BufferView
  invoked : Bool
  outputs : List BufferView
  popped : List BufferView
  created : List (Nat × List Int)
  written : List (Nat × List Nat)
deriving DecidableEq, Repr

/-- The state of a call just after `SynchronousCall call(session)`. -/
def CallState.initial : CallState := ⟨[], [], false, [], [], [], []⟩

/-- The buffer view that `iree_hal_buffer_view_allocate_buffer_copy` is asked
to build for one input (iree_ep_runtime.cc 178-208): the shape copied into
`dims`, the converted element type, and the byte span
`(raw_data, element_count * element_size_bytes)`, the product taken in
`size_t`. -/
def inputBufferView (input_tensor : OrtValue) : BufferView :=
  let element_type := ConvertOrtElementType input_tensor.ElementType
  let element_size_bytes := iree_hal_element_dense_byte_count element_type
  let dims := input_tensor.Shape.map toSizeT
  let element_count := input_tensor.ElementCount
  ⟨dims, element_type, input_tensor.RawData.take ((element_count * element_size_bytes) % 2 ^ 64)⟩

/-- The input loop of `Session::Call` (iree_ep_runtime.cc 164-213), from the
inputs still to process; `none` means the loop ran to its end. -/
def marshalInputs (api : RuntimeApi) : List OrtValue → CallState → Option Outcome × CallState
  | [], st => (none, st)
  | input_tensor :: rest, st =>
    if !input_tensor.IsTensor then
      (some (Outcome.threw "input_tensor.IsTensor()"), st)
    else if input_tensor.DeviceType ≠ OrtMemoryInfoDeviceType.CPU then
      (some (Outcome.threw "ort_device_type == OrtMemoryInfoDeviceType_CPU"), st)
    else
      let element_type := ConvertOrtElementType input_tensor.ElementType
      if element_type = iree_hal_element_type_t.NONE then
        (some (Outcome.threw
          ("Unsupported element type " ++ toString input_tensor.ElementType.code)), st)
      else if !iree_hal_element_is_byte_aligned element_type then
        (some (Outcome.threw "iree_hal_element_is_byte_aligned(element_type)"), st)
      else
        let arg := inputBufferView input_tensor
        match api.buffer_view_allocate_buffer_copy arg with
        | some err => (some (Outcome.returned (HandleIREEStatus (some err))), st)
        | none =>
          let st := { st with allocated := st.allocated ++ [arg] }
          match api.call_inputs_push_back_buffer_view arg with
          | some err => (some (Outcome.returned (HandleIREEStatus (some err))), st)
          | none => marshalInputs api rest { st with inputs := st.inputs ++ [arg] }

/-- The output loop of `Session::Call` (iree_ep_runtime.cc 226-253): `count`
iterations remain and the next output index is `i`.  Popping from an empty
output list is the failing pop.  In the branch for the device `hip` the
function returns OK right after the transfer (line 248). -/
def marshalOutputs (api : RuntimeApi) (device_str : String) :
    Nat → Nat → CallState → Outcome × CallState
  | 0, _, st => (Outcome.returned Status.OK, st)
  | count + 1, i, st =>
    match st.outputs with
    | [] => (Outcome.returned (HandleIREEStatus (some "OUT_OF_RANGE")), st)
    | ret :: remaining =>
      let st := { st with outputs := remaining, popped := st.popped ++ [ret] }
      let shape := ret.shape.map toInt64
      let st := { st with created := st.created ++ [(i, shape)] }
      if !api.output_is_tensor i then
        (Outcome.threw "output_tensor.IsTensor()", st)
      else if device_str = "hip" then
        match api.device_transfer_d2h ret with
        | some err => (Outcome.returned (HandleIREEStatus (some err)), st)
        | none =>
          (Outcome.returned Status.OK,
            { st with written := st.written ++
                [(i, ret.buffer.take (iree_hal_buffer_view_byte_length ret))] })
      else
        match api.buffer_map_read ret with
        | some err => (Outcome.returned (HandleIREEStatus (some err)), st)
        | none =>
          marshalOutputs api device_str count (i + 1)
            { st with written := st.written ++
                [(i, ret.buffer.take (iree_hal_buffer_view_byte_length ret))] }

/-- The `Session::Call` member (iree_ep_runtime.cc 147-256): lookup of the
entry point, the input loop, the invocation, the output loop.  The accessors of
the Ort C++ API (`GetInput`, `GetOutput`, ...) are taken to succeed. -/
def Session.Call (api : RuntimeApi) (self : Session) (entrypoint_name : String)
    (context : KernelContext) : Outcome × CallState :=
  match api.call_initialize_by_name self.session entrypoint_name with
  | some err => (Outcome.returned (HandleIREEStatus (some err)), CallState.initial)
  | none =>
    match marshalInputs api context.inputs CallState.initial with
    | (some outcome, st) => (outcome, st)
    | (none, st) =>
      match api.call_invoke entrypoint_name st.inputs with
      | (some err, _) => (Outcome.returned (HandleIREEStatus (some err)), st)
      | (none, produced) =>
        marshalOutputs api api.hal_device_id context.OutputCount 0
          { st with invoked := true, outputs := produced }

end iree_ep_rt

/-! ## `IREEExecutionProvider` : iree_execution_provider.cc -/

/-- The provider options `ProviderOptions`, a string-keyed map, kept as an
association list with at most the first binding of a key visible. -/
abbrev ProviderOptions := List (String × String)

/-- The lookup `info_.find(key)`; `none` stands for `info_.end()`. -/
def ProviderOptions.find (info_ : ProviderOptions) (key : String) : Option String :=
  List.lookup key info_

/-- The indexing `info_[key]`: the value stored under the key, a default
constructed (empty) value being inserted first when the key is absent. -/
def ProviderOptions.index (info_ : ProviderOptions) (key : String) : String × ProviderOptions :=
  match List.lookup key info_ with
  | some value => (value, info_)
  | none => ("", info_ ++ [(key, "")])

/-- One element of `fused_nodes_and_graphs`: the filtered graph view and the
name of the fused node. -/
structure FusedNodeAndGraph where
  filtered_graph : iree_ep_jit.GraphViewer
  fused_node_name : String
deriving DecidableEq, Repr

/-- The `NodeComputeInfo` built by `CreateNodeComputeFunc`: what its
`compute_func` closure captured by value, the entry name and the shared
session.  (`create_state_func` returns 0 and `release_state_func` does nothing.) -/
structure NodeComputeInfo where
  entrypoint_name : String
  session : iree_ep_rt.Session
deriving DecidableEq, Repr

namespace IREEExecutionProvider

/-- The `IREEExecutionProvider::CreateNodeComputeFunc` member
(iree_execution_provider.cc 162-179). -/
def CreateNodeComputeFunc (entrypoint_name : String) (session : iree_ep_rt.Session) :
    NodeComputeInfo :=
  ⟨entrypoint_name, session⟩

/-- The import loop of `Compile` (iree_execution_provider.cc 121-133): each
fused node is imported under its own name, and the fully qualified name
`module_name` + "." + `func_name` is pushed onto `entrypoint_names`. -/
def importSubgraphs (module_name : String) :
    List FusedNodeAndGraph → iree_ep_jit.CompilerInvocation → List String → List Effect →
      Status × iree_ep_jit.CompilerInvocation × List String × List Effect
  | [], inv, entrypoint_names, trace => (Status.OK, inv, entrypoint_names, trace)
  | fused_node_graph :: rest, inv, entrypoint_names, trace =>
    let func_name := fused_node_graph.fused_node_name
    let imported := inv.ImportSubgraph fused_node_graph.filtered_graph func_name trace
    if !imported.1.IsOK then
      (imported.1, imported.2.1, entrypoint_names, imported.2.2)
    else
      let fq_name := (module_name ++ ".") ++ func_name
      importSubgraphs module_name rest imported.2.1 (entrypoint_names ++ [fq_name]) imported.2.2

/-- The final loop of `Compile` (iree_execution_provider.cc 155-157). -/
def pushComputeFuncs (rt_session : iree_ep_rt.Session) :
    List String → List NodeComputeInfo → List NodeComputeInfo
  | [], node_compute_funcs => node_compute_funcs
  | entrypoint_name :: rest, node_compute_funcs =>
    pushComputeFuncs rt_session rest
      (node_compute_funcs ++ [CreateNodeComputeFunc entrypoint_name rt_session])

/-- What `Compile` leaves behind: the returned status, the option map, the
caller's `node_compute_funcs` vector and the requests made, in order. -/
structure CompileResult where
  status : Status
  info_ : ProviderOptions
  node_compute_funcs : List NodeComputeInfo
  trace : List Effect
deriving DecidableEq, Repr

/-- Leaving the scope of `Compile`: the locals constructed so far are destroyed
in reverse order of declaration.  The runtime session is held by a shared
pointer, so it is destroyed here only when no compute function captured it. -/
def scopeExit (rt_session : Option iree_ep_rt.Session) (captured : Bool)
    (vmfb_output : Option iree_ep_jit.CompilerOutput) (inv_constructed : Bool)
    (trace : List Effect) : List Effect :=
  let trace :=
    match rt_session with
    | some s => if captured then trace else s.destructor trace
    | none => trace
  let trace :=
    match vmfb_output with
    | some o => o.destructor trace
    | none => trace
  let trace := if inv_constructed then trace ++ [Effect.InvocationDestroy] else trace
  trace ++ [Effect.CompilerSessionDestroy]

/-- The composition of `device_flag` in `Compile` (iree_execution_provider.cc
105-111): the flag text and the option map afterwards. -/
def targetBackendFlag (info_ : ProviderOptions) : String × ProviderOptions :=
  let device_flag := "--iree-hal-target-backends="
  if info_.find "hal_target_device" = none then
    (device_flag ++ "llvm-cpu", info_)
  else
    let indexed := info_.index "hal_target_device"
    (device_flag ++ indexed.1, indexed.2)

/-- The `IREEExecutionProvider::Compile` member (iree_execution_provider.cc
99-160).  The call sites at lines 140 and 152 name neither the path that the
definitions of `CompileAndOutputVMFB` and `AppendBytecodeModule` take; it is
the parameter `vmfb_path` here.  `SetFlag` and the invocation's constructor
take a `const char*`: they are given `device_flag.c_str()` and
`module_name.c_str()`. -/
def Compile (capi : iree_ep_jit.CompilerApi) (rapi : iree_ep_rt.RuntimeApi)
    (info_ : ProviderOptions) (vmfb_path : String)
    (fused_nodes_and_graphs : List FusedNodeAndGraph)
    (node_compute_funcs : List NodeComputeInfo) : CompileResult :=
  let trace : List Effect := []
  let chosen := targetBackendFlag info_
  let device_flag := chosen.1
  let info_ := chosen.2
  let flagged := iree_ep_jit.CompilerSession.SetFlag capi (c_str device_flag) trace
  if !flagged.1.IsOK then
    ⟨flagged.1, info_, node_compute_funcs, scopeExit none false none false flagged.2⟩
  else
    let initialized := iree_ep_jit.CompilerSession.Initialize capi flagged.2
    if !initialized.1.IsOK then
      ⟨initialized.1, info_, node_compute_funcs, scopeExit none false none false initialized.2⟩
    else
      let module_name := "ort"
      let inv := iree_ep_jit.CompilerInvocation.create (c_str module_name)
      let trace := initialized.2 ++ [Effect.InvocationCreate (c_str module_name)]
      let imported := importSubgraphs module_name fused_nodes_and_graphs inv [] trace
      if !imported.1.IsOK then
        ⟨imported.1, info_, node_compute_funcs, scopeExit none false none true imported.2.2.2⟩
      else
        let inv := imported.2.1
        let entrypoint_names := imported.2.2.1
        let opened := capi.OutputOpenMembuffer
        let vmfb_output : iree_ep_jit.CompilerOutput := ⟨opened.2⟩
        let trace := imported.2.2.2 ++ [Effect.OutputOpenMembuffer opened.2]
        match opened.1 with
        | some err =>
          ⟨iree_ep_jit.ErrorToStatus (some err) "Failure opening compiler output buffer: ",
            info_, node_compute_funcs, scopeExit none false (some vmfb_output) true trace⟩
        | none =>
          let compiled := inv.CompileAndOutputVMFB capi vmfb_output.output vmfb_path trace
          if !compiled.1.IsOK then
            ⟨compiled.1, info_, node_compute_funcs,
              scopeExit none false (some vmfb_output) true compiled.2.2⟩
          else
            let mapped := vmfb_output.MapMemory capi compiled.2.2
            if !mapped.1.IsOK then
              ⟨mapped.1, info_, node_compute_funcs,
                scopeExit none false (some vmfb_output) true mapped.2⟩
            else
              let rt_session := iree_ep_rt.Session.create
              let started := rt_session.Initialize rapi mapped.2
              if !(iree_ep_rt.HandleIREEStatus started.1).IsOK then
                ⟨iree_ep_rt.HandleIREEStatus started.1, info_, node_compute_funcs,
                  scopeExit (some started.2.1) false (some vmfb_output) true started.2.2⟩
              else
                let released := vmfb_output.Release
                let appended :=
                  started.2.1.AppendBytecodeModule rapi vmfb_path released.1 started.2.2
                if !(iree_ep_rt.HandleIREEStatus appended.1).IsOK then
                  ⟨iree_ep_rt.HandleIREEStatus appended.1, info_, node_compute_funcs,
                    scopeExit (some appended.2.1) false (some released.2) true appended.2.2⟩
                else
                  ⟨Status.OK, info_,
                    pushComputeFuncs appended.2.1 entrypoint_names node_compute_funcs,
                    scopeExit (some appended.2.1) (!entrypoint_names.isEmpty)
                      (some released.2) true appended.2.2⟩

end IREEExecutionProvider

/-! ## Vocabulary of the statements -/

namespace iree_ep_jit

/-- The severity tag as the specification words it: "note: ", "warning: ",
"error: ", "remark: " for the four severities, "<unknown severity>: " for any
other value. -/
def severityLabel : iree_compiler_diagnostic_severity_t → String
  | 0 => "note: "
  | 1 => "warning: "
  | 2 => "error: "
  | 3 => "remark: "
  | _ => "<unknown severity>: "

/-- The text the specification gives for a run of records: for each record, in
order, a new line, two blanks, the severity tag, the message. -/
def formatRecords : List DiagnosticRecord → String
  | [] => ""
  | r :: rest => "\n  " ++ severityLabel r.severity ++ r.message ++ formatRecords rest

/-- Whether any importer step fails on a graph view. -/
def GraphViewer.importFails (g : GraphViewer) : Bool :=
  g.Initialize.failed || g.DefineFunction.failed || g.ImportAll.failed || g.Verify.failed

/-- A compiler on which every request succeeds: the memory buffer opens as
output 1, a file opens as output 2, the pipeline emits nothing. -/
def agreeableCompiler : CompilerApi where
  SessionSetFlags := fun _ => none
  DialectIsNull := fun _ => false
  Pipeline := fun _ => (true, [])
  OutputOpenMembuffer := (none, some 1)
  OutputOpenFile := fun _ => (none, some 2)
  OutputVMBytecode := fun _ => none
  OutputMapMemory := fun _ => none

/-- A graph view on which every importer step succeeds silently. -/
def soundGraph : GraphViewer :=
  ⟨⟨false, "", []⟩, ⟨false, "", []⟩, ⟨false, "", []⟩, ⟨false, "", []⟩, ""⟩

/-- A graph view whose node import fails with the message `why`. -/
def brokenGraph (why : String) : GraphViewer :=
  ⟨⟨false, "", []⟩, ⟨false, "", []⟩, ⟨true, why, []⟩, ⟨false, "", []⟩, ""⟩

end iree_ep_jit

/-- The requests `Compile` makes before it reaches the compilation pipeline,
and the two destructions that close its scope. -/
def Effect.beforePipeline : Effect → Bool
  | Effect.SessionSetFlags _ => true
  | Effect.LoadDialect _ => true
  | Effect.InvocationCreate _ => true
  | Effect.DefineFunction _ => true
  | Effect.InvocationDestroy => true
  | Effect.CompilerSessionDestroy => true
  | _ => false

/-- The callbacks a trace shows as run, in order. -/
def invokedCallbacks (trace : List Effect) : List DisposeCallback :=
  trace.filterMap fun e =>
    match e with
    | Effect.CallbackInvoked cb => some cb
    | _ => none

/-- The sinks a trace shows as having received VM bytecode, in order. -/
def bytecodeSinks (trace : List Effect) : List (Option Handle) :=
  trace.filterMap fun e =>
    match e with
    | Effect.OutputVMBytecode sink => some sink
    | _ => none

namespace iree_ep_rt

/-- A run of `AppendBytecodeModule` calls on one session, in order. -/
def Session.appendAll (api : RuntimeApi) :
    List (String × DisposeCallback) → Session → List Effect → Session × List Effect
  | [], self, trace => (self, trace)
  | (vmfb_path, cb) :: rest, self, trace =>
    let appended := self.AppendBytecodeModule api vmfb_path cb trace
    Session.appendAll api rest appended.2.1 appended.2.2

/-- Whether a call gets as far as its output loop: the lookup, the whole input
loop and the invocation succeed. -/
def Session.reachesOutputs (api : RuntimeApi) (self : Session) (entrypoint_name : String)
    (context : KernelContext) : Bool :=
  match api.call_initialize_by_name self.session entrypoint_name with
  | some _ => false
  | none =>
    match marshalInputs api context.inputs CallState.initial with
    | (some _, _) => false
    | (none, st) => (api.call_invoke entrypoint_name st.inputs).1.isNone

/-- A runtime on which every request succeeds and whose entry points hand
their inputs back as outputs; `device_id` is what the device reports. -/
def echoRuntime (device_id : String) : RuntimeApi where
  session_create_with_device := (none, some 10)
  session_append_bytecode_module_from_file := fun _ _ => none
  call_initialize_by_name := fun _ _ => none
  hal_device_id := device_id
  buffer_view_allocate_buffer_copy := fun _ => none
  call_inputs_push_back_buffer_view := fun _ => none
  call_invoke := fun _ inputs => (none, inputs)
  buffer_map_read := fun _ => none
  device_transfer_d2h := fun _ => none
  output_is_tensor := fun _ => true

/-- A host tensor: one float32 element, shape [1], on the CPU. -/
def floatTensor (b0 b1 b2 b3 : Nat) : OrtValue :=
  ⟨true, OrtMemoryInfoDeviceType.CPU, ONNXTensorElementDataType.FLOAT, [1], 1, [b0, b1, b2, b3]⟩

/-- A host tensor of the string element type, shape [1], on the CPU. -/
def stringTensor : OrtValue :=
  ⟨true, OrtMemoryInfoDeviceType.CPU, ONNXTensorElementDataType.STRING, [1], 1, []⟩

/-- An initialized session with no module callbacks. -/
def liveSession : Session := ⟨some 10, []⟩

end iree_ep_rt

namespace iree_ep_rt

/-- Modelled from the spec: the size in bytes of one element of a host tensor
is fixed by the host framework, whose headers are not part of the sources; it
is the width the type's name states (8/16/32/64-bit integers, float16/32/64,
bfloat16, one byte for bool, complex64/128), and no size is given to the
types without a dense fixed-width layout here (zero stands for that). -/
def hostElementSize : ONNXTensorElementDataType → Nat
  | .FLOAT => 4
  | .UINT8 => 1
  | .INT8 => 1
  | .UINT16 => 2
  | .INT16 => 2
  | .INT32 => 4
  | .INT64 => 8
  | .BOOL => 1
  | .FLOAT16 => 2
  | .DOUBLE => 8
  | .UINT32 => 4
  | .UINT64 => 8
  | .COMPLEX64 => 8
  | .COMPLEX128 => 16
  | .BFLOAT16 => 2
  | _ => 0

/-- The fifteen host element types the specification lists as supported. -/
def supportedElementTypes : List ONNXTensorElementDataType :=
  [.FLOAT, .UINT8, .INT8, .UINT16, .INT16, .INT32, .INT64, .BOOL, .FLOAT16, .DOUBLE,
   .UINT32, .UINT64, .COMPLEX64, .COMPLEX128, .BFLOAT16]

/-- A host tensor of float32, shape [1], resident on the GPU. -/
def gpuTensor : OrtValue :=
  ⟨true, OrtMemoryInfoDeviceType.GPU, ONNXTensorElementDataType.FLOAT, [1], 1, [0, 0, 0, 0]⟩

/-- The runtime `api` with a different answer to `iree_runtime_call_invoke`. -/
def RuntimeApi.withInvoke (api : RuntimeApi)
    (call_invoke : String → List BufferView → iree_status_t × List BufferView) : RuntimeApi :=
  { api with call_invoke := call_invoke }

/-- A runtime like `echoRuntime` whose sessions hold no entry point at all:
every lookup by name fails with NOT_FOUND. -/
def emptyRuntime (device_id : String) : RuntimeApi :=
  { echoRuntime device_id with call_initialize_by_name := fun _ _ => some "NOT_FOUND" }

end iree_ep_rt

namespace iree_ep_rt

/-- The buffer views the invocation of a call produces: what
`iree_runtime_call_invoke` leaves in the call's output list, given the inputs
the input loop pushed. -/
def Session.produced (api : RuntimeApi) (entrypoint_name : String) (context : KernelContext) :
    List BufferView :=
  (api.call_invoke entrypoint_name
    (marshalInputs api context.inputs CallState.initial).2.inputs).2

end iree_ep_rt

namespace iree_ep_jit

/-- A graph view that imports, the verifier emitting one warning on the way. -/
def warnedGraph : GraphViewer :=
  ⟨⟨false, "", []⟩, ⟨false, "", []⟩, ⟨false, "", []⟩, ⟨false, "", [⟨1, "unused value"⟩]⟩, ""⟩

/-- A graph view whose graph-info initialization fails with the message `why`. -/
def unreadableGraph (why : String) : GraphViewer :=
  ⟨⟨true, why, []⟩, ⟨false, "", []⟩, ⟨false, "", []⟩, ⟨false, "", []⟩, ""⟩

end iree_ep_jit

namespace iree_ep_jit

/-- The text `ConsumeDiagnostics` returns for a log holding the records `log`. -/
def diagnosticsText (log : List DiagnosticRecord) : String :=
  (CompilerInvocation.ConsumeDiagnostics ⟨"", [], log⟩).1

end iree_ep_jit

/-- The compiler outputs a trace shows as destroyed
(`ireeCompilerOutputDestroy`), in order. -/
def outputDestroys (trace : List Effect) : List Handle :=
  trace.filterMap fun e =>
    match e with
    | Effect.OutputDestroy output => some output
    | _ => none

namespace IREEExecutionProvider

/-- The host dropping compute functions it was handed: their closures hold the
last shared references to one runtime session, which is destroyed then, once. -/
def dropComputeFuncs (added : List NodeComputeInfo) (trace : List Effect) : List Effect :=
  match added with
  | [] => trace
  | info :: _ => info.session.destructor trace

/-- A whole life of a compile request: `Compile`, then the host dropping the
compute functions this request appended to `node_compute_funcs`. -/
def compileThenTeardown (capi : iree_ep_jit.CompilerApi) (rapi : iree_ep_rt.RuntimeApi)
    (info_ : ProviderOptions) (vmfb_path : String)
    (fused_nodes_and_graphs : List FusedNodeAndGraph)
    (node_compute_funcs : List NodeComputeInfo) : List Effect :=
  let result := Compile capi rapi info_ vmfb_path fused_nodes_and_graphs node_compute_funcs
  dropComputeFuncs (result.node_compute_funcs.drop node_compute_funcs.length) result.trace

end IREEExecutionProvider

namespace iree_ep_rt

/-- A runtime like `echoRuntime` on which loading a module fails. -/
def unloadableRuntime (device_id : String) : RuntimeApi :=
  { echoRuntime device_id with
    session_append_bytecode_module_from_file := fun _ _ => some "INVALID_ARGUMENT" }

end iree_ep_rt

namespace iree_ep_jit

/-- A compiler like `agreeableCompiler` whose pipeline rejects every module. -/
def rejectingCompiler : CompilerApi :=
  { agreeableCompiler with Pipeline := fun _ => (false, [⟨2, "failed to legalize"⟩]) }

end iree_ep_jit

/-- The module loads a trace shows as requested
(`iree_runtime_session_append_bytecode_module_from_file`), in order: the
session and the path of each.  `Compile` makes this request in the statement
that evaluates `vmfb_output.Release()`. -/
def moduleLoads (trace : List Effect) : List (Option Handle × String) :=
  trace.filterMap fun e =>
    match e with
    | Effect.AppendBytecodeModuleFromFile session path => some (session, path)
    | _ => none

namespace iree_ep_rt

/-- A host tensor: two float32 elements, shape [2], on the CPU. -/
def floatPair : OrtValue :=
  ⟨true, OrtMemoryInfoDeviceType.CPU, ONNXTensorElementDataType.FLOAT, [2], 2,
    [1, 2, 3, 4, 5, 6, 7, 8]⟩

end iree_ep_rt

/-! ## Theorems -/

/-! ### C strings -/

theorem c_str_ort : c_str "ort" = "ort" := by decide

theorem c_str_of_nul_free (s : String) (h : Char.ofNat 0 ∉ s.data) : c_str s = s := by
  unfold c_str
  have : s.data.takeWhile (fun c => c != Char.ofNat 0) = s.data := by
    rw [List.takeWhile_eq_self_iff]
    intro c hc
    simp only [bne_iff_ne, ne_eq]
    rintro rfl
    exact h hc
  rw [this]

theorem c_str_append (a b : String) (ha : Char.ofNat 0 ∉ a.data) :
    c_str (a ++ b) = a ++ c_str b := by
  unfold c_str
  apply String.ext
  simp only [String.data_append]
  rw [List.takeWhile_append_of_pos]
  intro c hc
  simp only [bne_iff_ne, ne_eq]
  rintro rfl
  exact ha hc

theorem c_str_nul_free (s : String) : Char.ofNat 0 ∉ (c_str s).data := by
  unfold c_str
  intro h
  have := List.mem_takeWhile_imp h
  simp at this

/-! ### Session::Call: the two loops -/

namespace iree_ep_rt

theorem marshalInputs_keeps_outputs (api : RuntimeApi) (inputs : List OrtValue)
    (st : CallState) :
    (marshalInputs api inputs st).2.created = st.created ∧
      (marshalInputs api inputs st).2.written = st.written ∧
      (marshalInputs api inputs st).2.popped = st.popped := by
  induction inputs generalizing st with
  | nil => simp [marshalInputs]
  | cons t rest ih =>
    simp only [marshalInputs]
    split_ifs
    · simp
    · simp
    · simp
    · simp
    · split
      · simp
      · split
        · simp
        · rw [(ih _).1, (ih _).2.1, (ih _).2.2]
          simp

theorem marshalInputs_stopped_failed (api : RuntimeApi) (inputs : List OrtValue)
    (st : CallState) (o : Outcome) (h : (marshalInputs api inputs st).1 = some o) :
    o.failed = true := by
  induction inputs generalizing st with
  | nil => simp [marshalInputs] at h
  | cons t rest ih =>
    simp only [marshalInputs] at h
    split_ifs at h
    · simp at h; subst h; rfl
    · simp at h; subst h; rfl
    · simp at h; subst h; rfl
    · simp at h; subst h; rfl
    · split at h
      · simp at h; subst h; rfl
      · split at h
        · simp at h; subst h; rfl
        · exact ih _ h

theorem marshalOutputs_invariant (api : RuntimeApi) (device_str : String) :
    ∀ (count i : Nat) (st : CallState), st.popped.length = i →
      st.created.map Prod.fst = List.range i → st.written.map Prod.fst = List.range i →
      ((marshalOutputs api device_str count i st).2.created.map Prod.fst =
          List.range (marshalOutputs api device_str count i st).2.popped.length ∧
        (marshalOutputs api device_str count i st).2.written.map Prod.fst =
          List.range (marshalOutputs api device_str count i st).2.written.length ∧
        (marshalOutputs api device_str count i st).2.written.length ≤
          (marshalOutputs api device_str count i st).2.popped.length ∧
        (marshalOutputs api device_str count i st).2.popped.length ≤
          (marshalOutputs api device_str count i st).2.written.length + 1 ∧
        ((marshalOutputs api device_str count i st).1.failed = true →
          (marshalOutputs api device_str count i st).2.written.length < i + count)) := by
  intro count
  induction count with
  | zero =>
    intro i st hp hc hw
    have hwl : st.written.length = i := by
      have := congrArg List.length hw
      simpa using this
    simp only [marshalOutputs]
    refine ⟨by rw [hp]; exact hc, by rw [hwl]; exact hw, by omega, by omega, ?_⟩
    intro hf
    simp [Outcome.failed, Status.OK, Status.IsOK] at hf
  | succ count ih =>
    intro i st hp hc hw
    have hwl : st.written.length = i := by
      have := congrArg List.length hw
      simpa using this
    unfold marshalOutputs
    split
    · simp only []
      refine ⟨by rw [hp]; exact hc, by rw [hwl]; exact hw, by omega, by omega, ?_⟩
      intro _
      omega
    · rename_i ret remaining hout
      simp only []
      split
      · refine ⟨?_, ?_, ?_, ?_, ?_⟩
        · simp [hp, hc, List.range_succ]
        · simp [hwl, hw]
        · simp [hp, hwl]
        · simp [hp, hwl]
        · intro _
          simp [hwl]
      · split
        · split
          · refine ⟨?_, ?_, ?_, ?_, ?_⟩
            · simp [hp, hc, List.range_succ]
            · simp [hwl, hw]
            · simp [hp, hwl]
            · simp [hp, hwl]
            · intro _
              simp [hwl]
          · refine ⟨?_, ?_, ?_, ?_, ?_⟩
            · simp [hp, hc, List.range_succ]
            · simp [hwl, hw, List.range_succ]
            · simp [hp, hwl]
            · simp [hp, hwl]
            · intro hf
              simp [Outcome.failed, Status.OK, Status.IsOK] at hf
        · split
          · refine ⟨?_, ?_, ?_, ?_, ?_⟩
            · simp [hp, hc, List.range_succ]
            · simp [hwl, hw]
            · simp [hp, hwl]
            · simp [hp, hwl]
            · intro _
              simp [hwl]
          · have step := ih (i + 1)
              { allocated := st.allocated, inputs := st.inputs, invoked := st.invoked,
                outputs := remaining, popped := st.popped ++ [ret],
                created := st.created ++ [(i, ret.shape.map toInt64)],
                written := st.written ++
                  [(i, ret.buffer.take (iree_hal_buffer_view_byte_length ret))] }
              (by simp [hp]) (by simp [hc, List.range_succ]) (by simp [hw, List.range_succ])
            refine ⟨step.1, step.2.1, step.2.2.1, step.2.2.2.1, ?_⟩
            intro hf
            have := step.2.2.2.2 hf
            omega

end iree_ep_rt

/-! ### Session::Call: all outputs, or one on `hip` (C1) -/

namespace iree_ep_rt

theorem handled_failure_ne_ok (err : String) :
    Outcome.returned (HandleIREEStatus (some err)) ≠ Outcome.returned Status.OK := by
  simp [HandleIREEStatus, HandleFailingIREEStatus, ORT_MAKE_STATUS, Status.OK]

/-- The output loop on a device other than `hip`: when it returns OK it has
popped exactly `count` buffer views, the first `count` of the call's output
list in order, and has requested and written one host output for each, under
the indices `i, i+1, ..`, with the view's converted shape and its bytes. -/
theorem marshalOutputs_processes_all (api : RuntimeApi) (device_str : String)
    (hdev : device_str ≠ "hip") :
    ∀ (count i : Nat) (st : CallState),
      (marshalOutputs api device_str count i st).1 = Outcome.returned Status.OK →
      ∃ views : List BufferView, views.length = count ∧
        st.outputs = views ++ (marshalOutputs api device_str count i st).2.outputs ∧
        (marshalOutputs api device_str count i st).2.popped = st.popped ++ views ∧
        (marshalOutputs api device_str count i st).2.created =
          st.created ++ (views.enumFrom i).map (fun p => (p.1, p.2.shape.map toInt64)) ∧
        (marshalOutputs api device_str count i st).2.written =
          st.written ++ (views.enumFrom i).map
            (fun p => (p.1, p.2.buffer.take (iree_hal_buffer_view_byte_length p.2))) := by
  intro count
  induction count with
  | zero =>
    intro i st _
    exact ⟨[], rfl, by simp [marshalOutputs], by simp [marshalOutputs],
      by simp [marshalOutputs], by simp [marshalOutputs]⟩
  | succ count ih =>
    intro i st hok
    unfold marshalOutputs at hok ⊢
    cases hout : st.outputs with
    | nil =>
      rw [hout] at hok
      exact absurd hok (handled_failure_ne_ok _)
    | cons ret remaining =>
      rw [hout] at hok
      simp only [] at hok ⊢
      by_cases htensor : api.output_is_tensor i = true
      · simp only [htensor, Bool.not_true, Bool.false_eq_true, if_false, hdev] at hok ⊢
        cases hread : api.buffer_map_read ret with
        | some err =>
          rw [hread] at hok
          exact absurd hok (handled_failure_ne_ok _)
        | none =>
          rw [hread] at hok
          simp only [] at hok ⊢
          obtain ⟨views, hlen, houts, hpop, hcre, hwri⟩ := ih (i + 1) _ hok
          refine ⟨ret :: views, by simp [hlen], ?_, ?_, ?_, ?_⟩
          · simpa using houts
          · rw [hpop]; simp
          · rw [hcre]; simp [List.enumFrom_cons]
          · rw [hwri]; simp [List.enumFrom_cons]
      · simp only [htensor, Bool.not_false, if_true] at hok
        cases hok

/-- On a device other than `hip`, a call that returns OK has popped exactly as
many buffer views as the context declares outputs, and host output `i` was
requested with the shape of the `i`-th popped view and filled with its bytes. -/
theorem call_processes_all_outputs (api : RuntimeApi) (self : Session)
    (entrypoint_name : String) (context : KernelContext)
    (hdev : api.hal_device_id ≠ "hip")
    (hok : (Session.Call api self entrypoint_name context).1 = Outcome.returned Status.OK) :
    (Session.Call api self entrypoint_name context).2.popped.length = context.OutputCount ∧
      (Session.Call api self entrypoint_name context).2.created =
        (Session.Call api self entrypoint_name context).2.popped.enum.map
          (fun p => (p.1, p.2.shape.map toInt64)) ∧
      (Session.Call api self entrypoint_name context).2.written =
        (Session.Call api self entrypoint_name context).2.popped.enum.map
          (fun p => (p.1, p.2.buffer.take (iree_hal_buffer_view_byte_length p.2))) := by
  unfold Session.Call at hok ⊢
  cases hlook : api.call_initialize_by_name self.session entrypoint_name with
  | some err =>
    rw [hlook] at hok
    exact absurd hok (handled_failure_ne_ok _)
  | none =>
    simp only [hlook] at hok ⊢
    have keep := marshalInputs_keeps_outputs api context.inputs CallState.initial
    cases hmi : marshalInputs api context.inputs CallState.initial with
    | mk stopped st =>
      rw [hmi] at keep hok
      simp only [CallState.initial] at keep
      cases stopped with
      | some o =>
        have hfailed := marshalInputs_stopped_failed api context.inputs CallState.initial o
          (by rw [hmi])
        simp only at hok
        rw [hok] at hfailed
        simp [Outcome.failed, Status.OK, Status.IsOK] at hfailed
      | none =>
        simp only at hok ⊢
        cases hinv : api.call_invoke entrypoint_name st.inputs with
        | mk status produced =>
          rw [hinv] at hok
          cases status with
          | some err => exact absurd hok (handled_failure_ne_ok _)
          | none =>
            simp only at hok ⊢
            obtain ⟨views, hlen, _, hpop, hcre, hwri⟩ :=
              marshalOutputs_processes_all api api.hal_device_id hdev context.OutputCount 0
                { st with invoked := true, outputs := produced } hok
            simp only [keep.1, keep.2.1, keep.2.2, List.nil_append] at hpop hcre hwri ⊢
            rw [hpop, hcre, hwri]
            exact ⟨hlen, rfl, rfl⟩

/-- On the device `hip` the output loop pops at most one buffer view, whatever
the number of outputs it is asked for. -/
theorem marshalOutputs_hip_single (api : RuntimeApi) (count i : Nat) (st : CallState) :
    (marshalOutputs api "hip" count i st).2.popped.length ≤ st.popped.length + 1 := by
  cases count with
  | zero => simp [marshalOutputs]
  | succ count =>
    unfold marshalOutputs
    cases st.outputs with
    | nil => simp
    | cons ret remaining =>
      simp only []
      split_ifs
      · simp
      · split <;> simp

/-- C1: on the device `hip`, a call whose context declares two outputs and
whose entry point produces two buffer views returns OK after the first output:
one view is popped, host output 0 alone is requested and written, and the
second view is left in the call's output list.  On any other device the same
call pops both views and writes host outputs 0 and 1. -/
theorem call_on_hip_stops_after_first_output :
    (Session.Call (echoRuntime "hip") liveSession "ort.f"
        ⟨[floatTensor 1 2 3 4, floatTensor 5 6 7 8], 2⟩).1 = Outcome.returned Status.OK ∧
      (Session.Call (echoRuntime "hip") liveSession "ort.f"
        ⟨[floatTensor 1 2 3 4, floatTensor 5 6 7 8], 2⟩).2.popped.length = 1 ∧
      (Session.Call (echoRuntime "hip") liveSession "ort.f"
        ⟨[floatTensor 1 2 3 4, floatTensor 5 6 7 8], 2⟩).2.created = [(0, [1])] ∧
      (Session.Call (echoRuntime "hip") liveSession "ort.f"
        ⟨[floatTensor 1 2 3 4, floatTensor 5 6 7 8], 2⟩).2.written = [(0, [1, 2, 3, 4])] ∧
      (Session.Call (echoRuntime "hip") liveSession "ort.f"
        ⟨[floatTensor 1 2 3 4, floatTensor 5 6 7 8], 2⟩).2.outputs.length = 1 ∧
      (Session.Call (echoRuntime "local-task") liveSession "ort.f"
        ⟨[floatTensor 1 2 3 4, floatTensor 5 6 7 8], 2⟩).1 = Outcome.returned Status.OK ∧
      (Session.Call (echoRuntime "local-task") liveSession "ort.f"
        ⟨[floatTensor 1 2 3 4, floatTensor 5 6 7 8], 2⟩).2.written =
          [(0, [1, 2, 3, 4]), (1, [5, 6, 7, 8])] := by
  decide

end iree_ep_rt

/-! ### Session::Call: host outputs of a failed call (C2) -/

namespace iree_ep_rt

/-- C2, as stated, fails: on a device other than `hip` the context declares two
outputs and the entry point produces one buffer view; the second pop fails, the
call returns a failure, and host output 0 has been requested and written. -/
theorem failed_call_keeps_partial_outputs :
    (Session.Call (echoRuntime "local-task") liveSession "ort.f"
        ⟨[floatTensor 1 2 3 4], 2⟩).1.failed = true ∧
      (Session.Call (echoRuntime "local-task") liveSession "ort.f"
        ⟨[floatTensor 1 2 3 4], 2⟩).2.created = [(0, [1])] ∧
      (Session.Call (echoRuntime "local-task") liveSession "ort.f"
        ⟨[floatTensor 1 2 3 4], 2⟩).2.written = [(0, [1, 2, 3, 4])] := by
  decide

/-- C2, amended: a call that fails before its output loop (failed lookup, an
input rejected or not allocated or not pushed, failed invocation) has
requested and written no host output.  A call that fails inside the output
loop has requested host outputs 0..p-1 for the p buffer views popped so far
and has written outputs 0..w-1 with w = p or w = p - 1, and w is less than the
declared output count. -/
theorem failed_call_host_outputs (api : RuntimeApi) (self : Session)
    (entrypoint_name : String) (context : KernelContext)
    (hfail : (Session.Call api self entrypoint_name context).1.failed = true) :
    (Session.reachesOutputs api self entrypoint_name context = false →
        (Session.Call api self entrypoint_name context).2.created = [] ∧
        (Session.Call api self entrypoint_name context).2.written = []) ∧
      (Session.Call api self entrypoint_name context).2.created.map Prod.fst =
        List.range (Session.Call api self entrypoint_name context).2.popped.length ∧
      (Session.Call api self entrypoint_name context).2.written.map Prod.fst =
        List.range (Session.Call api self entrypoint_name context).2.written.length ∧
      (Session.Call api self entrypoint_name context).2.written.length ≤
        (Session.Call api self entrypoint_name context).2.popped.length ∧
      (Session.Call api self entrypoint_name context).2.popped.length ≤
        (Session.Call api self entrypoint_name context).2.written.length + 1 ∧
      (Session.reachesOutputs api self entrypoint_name context = true →
        (Session.Call api self entrypoint_name context).2.written.length <
          context.OutputCount) := by
  unfold Session.reachesOutputs
  unfold Session.Call at hfail ⊢
  cases hlook : api.call_initialize_by_name self.session entrypoint_name with
  | some err => simp [CallState.initial]
  | none =>
    simp only [hlook] at hfail ⊢
    have keep := marshalInputs_keeps_outputs api context.inputs CallState.initial
    cases hmi : marshalInputs api context.inputs CallState.initial with
    | mk stopped st =>
      rw [hmi] at keep hfail
      simp only [CallState.initial] at keep
      cases stopped with
      | some o => simp [keep.1, keep.2.1, keep.2.2]
      | none =>
        simp only at hfail ⊢
        cases hinv : api.call_invoke entrypoint_name st.inputs with
        | mk status produced =>
          rw [hinv] at hfail
          cases status with
          | some err => simp [keep.1, keep.2.1, keep.2.2]
          | none =>
            simp only at hfail ⊢
            have inv := marshalOutputs_invariant api api.hal_device_id context.OutputCount 0
              { st with invoked := true, outputs := produced }
              (by simp [keep.2.2]) (by simp [keep.1]) (by simp [keep.2.1])
            refine ⟨by simp, inv.1, inv.2.1, inv.2.2.1, inv.2.2.2.1, ?_⟩
            intro _
            have := inv.2.2.2.2 hfail
            omega

/-- C2, amended, at a concrete call: a string input is rejected before the
output loop and no host output exists afterwards. -/
theorem failed_call_host_outputs_witness :
    (Session.Call (echoRuntime "local-task") liveSession "ort.f"
        ⟨[stringTensor], 1⟩).1.failed = true ∧
      (Session.Call (echoRuntime "local-task") liveSession "ort.f"
        ⟨[stringTensor], 1⟩).2.created = [] ∧
      (Session.Call (echoRuntime "local-task") liveSession "ort.f"
        ⟨[stringTensor], 1⟩).2.written = [] :=
  ⟨by decide,
    (failed_call_host_outputs (echoRuntime "local-task") liveSession "ort.f"
      ⟨[stringTensor], 1⟩ (by decide)).1 (by decide)⟩

end iree_ep_rt

/-! ### CompileAndOutputVMFB: the sink written (C3) -/

namespace iree_ep_jit

theorem bytecodeSinks_append (t u : List Effect) :
    bytecodeSinks (t ++ u) = bytecodeSinks t ++ bytecodeSinks u := by
  simp [bytecodeSinks, List.filterMap_append]

/-- C3, as stated, fails: the caller passes the memory-buffer output 1, the
pipeline succeeds, the call returns OK, and the one sink that receives the VM
bytecode is output 2, the file opened inside `CompileAndOutputVMFB`; output 1
receives nothing. -/
theorem compileAndOutputVMFB_bypasses_caller_sink :
    ((CompilerInvocation.create "ort").CompileAndOutputVMFB agreeableCompiler
        agreeableCompiler.OutputOpenMembuffer.2 "/tmp/ort.vmfb" []).1 = Status.OK ∧
      agreeableCompiler.OutputOpenMembuffer.2 = some 1 ∧
      bytecodeSinks ((CompilerInvocation.create "ort").CompileAndOutputVMFB agreeableCompiler
        agreeableCompiler.OutputOpenMembuffer.2 "/tmp/ort.vmfb" []).2.2 = [some 2] ∧
      some 1 ∉ bytecodeSinks ((CompilerInvocation.create "ort").CompileAndOutputVMFB
        agreeableCompiler agreeableCompiler.OutputOpenMembuffer.2 "/tmp/ort.vmfb" []).2.2 := by
  decide

/-- C3, amended: when the pipeline succeeds, `CompileAndOutputVMFB` opens a
file output at `vmfb_path`, and what the open call stores replaces the
function's copy of the caller's output pointer; the VM bytecode is emitted
once, into that stored output and into no other sink.  Result, invocation and
requests are the same whatever output the caller passed in, and the caller's
output receives nothing whenever the output the open call stored is another
object than it. -/
theorem compileAndOutputVMFB_emits_to_file (api : CompilerApi) (self : CompilerInvocation)
    (output : Option Handle) (vmfb_path : String) (trace : List Effect)
    (hpipeline : (api.Pipeline self.functions).1 = true) :
    (self.CompileAndOutputVMFB api output vmfb_path trace).2.2 =
        trace ++ [Effect.Pipeline,
          Effect.OutputOpenFile (c_str vmfb_path) (api.OutputOpenFile (c_str vmfb_path)).2,
          Effect.OutputVMBytecode (api.OutputOpenFile (c_str vmfb_path)).2] ∧
      bytecodeSinks (self.CompileAndOutputVMFB api output vmfb_path trace).2.2 =
        bytecodeSinks trace ++ [(api.OutputOpenFile (c_str vmfb_path)).2] ∧
      (∀ other : Option Handle,
        self.CompileAndOutputVMFB api other vmfb_path trace =
          self.CompileAndOutputVMFB api output vmfb_path trace) ∧
      ((api.OutputOpenFile (c_str vmfb_path)).2 ≠ output →
        output ∉ bytecodeSinks (self.CompileAndOutputVMFB api output vmfb_path []).2.2) := by
  have htrace : ∀ t : List Effect, (self.CompileAndOutputVMFB api output vmfb_path t).2.2 =
      t ++ [Effect.Pipeline,
        Effect.OutputOpenFile (c_str vmfb_path) (api.OutputOpenFile (c_str vmfb_path)).2,
        Effect.OutputVMBytecode (api.OutputOpenFile (c_str vmfb_path)).2] := by
    intro t
    unfold CompilerInvocation.CompileAndOutputVMFB
    simp only [hpipeline, Bool.not_true, Bool.false_eq_true, if_false]
    split <;> simp
  refine ⟨htrace trace, ?_, ?_, ?_⟩
  · rw [htrace, bytecodeSinks_append]
    simp [bytecodeSinks]
  · intro other
    rfl
  · intro hfresh hmem
    rw [htrace] at hmem
    simp [bytecodeSinks] at hmem
    exact hfresh hmem.symm

/-- C3, amended, at a concrete call: the caller passes output 1, the file
opens as output 2, the bytecode goes to output 2 and output 1 receives
nothing. -/
theorem compileAndOutputVMFB_emits_to_file_witness :
    (agreeableCompiler.Pipeline (CompilerInvocation.create "ort").functions).1 = true ∧
      bytecodeSinks ((CompilerInvocation.create "ort").CompileAndOutputVMFB agreeableCompiler
        (some 1) "/tmp/ort.vmfb" []).2.2 =
        bytecodeSinks [] ++ [(agreeableCompiler.OutputOpenFile (c_str "/tmp/ort.vmfb")).2] ∧
      some 1 ∉ bytecodeSinks ((CompilerInvocation.create "ort").CompileAndOutputVMFB
        agreeableCompiler (some 1) "/tmp/ort.vmfb" []).2.2 :=
  ⟨by decide,
    (compileAndOutputVMFB_emits_to_file agreeableCompiler (CompilerInvocation.create "ort")
      (some 1) "/tmp/ort.vmfb" [] (by decide)).2.1,
    (compileAndOutputVMFB_emits_to_file agreeableCompiler (CompilerInvocation.create "ort")
      (some 1) "/tmp/ort.vmfb" [] (by decide)).2.2.2 (by decide)⟩

end iree_ep_jit

/-! ### Session::Call: allocations before an unsupported input (C4) -/

namespace iree_ep_rt

theorem marshalInputs_unsupported (api : RuntimeApi) :
    ∀ (inputs : List OrtValue) (st : CallState) (k : Nat) (t : OrtValue),
      inputs[k]? = some t →
      ConvertOrtElementType t.ElementType = iree_hal_element_type_t.NONE →
      (∃ o, (marshalInputs api inputs st).1 = some o) ∧
        ∃ pre, pre <+: (inputs.take k).map inputBufferView ∧
          (marshalInputs api inputs st).2.allocated = st.allocated ++ pre := by
  intro inputs
  induction inputs with
  | nil =>
    intro st k t hk
    simp at hk
  | cons t0 rest ih =>
    intro st k t hk hnone
    simp only [marshalInputs]
    split_ifs with h1 h2 h3 h4
    · exact ⟨⟨_, rfl⟩, [], List.nil_prefix, by simp⟩
    · exact ⟨⟨_, rfl⟩, [], List.nil_prefix, by simp⟩
    · exact ⟨⟨_, rfl⟩, [], List.nil_prefix, by simp⟩
    · exact ⟨⟨_, rfl⟩, [], List.nil_prefix, by simp⟩
    · cases k with
      | zero =>
        simp at hk
        subst hk
        exact absurd hnone h3
      | succ k =>
        simp only [List.getElem?_cons_succ] at hk
        split
        · exact ⟨⟨_, rfl⟩, [], List.nil_prefix, by simp⟩
        · split
          · refine ⟨⟨_, rfl⟩, [inputBufferView t0], ?_, by simp⟩
            simp [List.take_succ_cons, List.prefix_cons_inj, List.nil_prefix]
          · obtain ⟨hstop, pre, hpre, halloc⟩ :=
              ih { st with allocated := st.allocated ++ [inputBufferView t0],
                           inputs := st.inputs ++ [inputBufferView t0] } k t hk hnone
            refine ⟨hstop, inputBufferView t0 :: pre, ?_, ?_⟩
            · simpa [List.take_succ_cons, List.prefix_cons_inj] using hpre
            · rw [halloc]
              simp

/-- C4, as stated, fails: the second input has the string element type, the
call fails, and one device buffer view (for the first input) was allocated
during the call. -/
theorem unsupported_second_input_after_allocation :
    ConvertOrtElementType stringTensor.ElementType = iree_hal_element_type_t.NONE ∧
      (Session.Call (echoRuntime "local-task") liveSession "ort.f"
        ⟨[floatTensor 1 2 3 4, stringTensor], 1⟩).1.failed = true ∧
      (Session.Call (echoRuntime "local-task") liveSession "ort.f"
        ⟨[floatTensor 1 2 3 4, stringTensor], 1⟩).2.allocated =
          [inputBufferView (floatTensor 1 2 3 4)] := by
  decide

/-- C4, amended: when the input at position `k` has an element type that
`ConvertOrtElementType` maps to NONE, the call fails, and the device buffer
views allocated during the call are, in order, views of inputs before
position `k` only: none is allocated for the input at `k` or for a later one,
at most `k` are allocated, and none at all when `k` is 0. -/
theorem unsupported_input_allocations (api : RuntimeApi) (self : Session)
    (entrypoint_name : String) (context : KernelContext) (k : Nat) (t : OrtValue)
    (hk : context.inputs[k]? = some t)
    (hnone : ConvertOrtElementType t.ElementType = iree_hal_element_type_t.NONE) :
    (Session.Call api self entrypoint_name context).1.failed = true ∧
      (Session.Call api self entrypoint_name context).2.allocated <+:
        (context.inputs.take k).map inputBufferView ∧
      (Session.Call api self entrypoint_name context).2.allocated.length ≤ k ∧
      (k = 0 → (Session.Call api self entrypoint_name context).2.allocated = []) := by
  have core : (Session.Call api self entrypoint_name context).1.failed = true ∧
      (Session.Call api self entrypoint_name context).2.allocated <+:
        (context.inputs.take k).map inputBufferView := by
    unfold Session.Call
    cases hlook : api.call_initialize_by_name self.session entrypoint_name with
    | some err => exact ⟨rfl, List.nil_prefix⟩
    | none =>
      simp only
      obtain ⟨⟨o, ho⟩, pre, hpre, halloc⟩ :=
        marshalInputs_unsupported api context.inputs CallState.initial k t hk hnone
      have hfailed := marshalInputs_stopped_failed api context.inputs CallState.initial o ho
      cases hmi : marshalInputs api context.inputs CallState.initial with
      | mk stopped st =>
        rw [hmi] at ho halloc
        simp only at ho halloc
        subst ho
        simp only
        refine ⟨hfailed, ?_⟩
        rw [halloc]
        simpa [CallState.initial] using hpre
  have hlen := core.2.length_le
  have hk' : k ≤ context.inputs.length := by
    have := (List.getElem?_eq_some_iff.mp hk).1
    omega
  simp only [List.length_map, List.length_take] at hlen
  refine ⟨core.1, core.2, by omega, ?_⟩
  intro hzero
  subst hzero
  simpa using core.2

/-- C4, amended, at a concrete call: the string input comes second, one view
(of the first input) is allocated and none of the string input. -/
theorem unsupported_input_allocations_witness :
    (Session.Call (echoRuntime "local-task") liveSession "ort.f"
        ⟨[floatTensor 1 2 3 4, stringTensor], 1⟩).1.failed = true ∧
      (Session.Call (echoRuntime "local-task") liveSession "ort.f"
        ⟨[floatTensor 1 2 3 4, stringTensor], 1⟩).2.allocated.length ≤ 1 :=
  ⟨(unsupported_input_allocations (echoRuntime "local-task") liveSession "ort.f"
      ⟨[floatTensor 1 2 3 4, stringTensor], 1⟩ 1 stringTensor (by decide) (by decide)).1,
    (unsupported_input_allocations (echoRuntime "local-task") liveSession "ort.f"
      ⟨[floatTensor 1 2 3 4, stringTensor], 1⟩ 1 stringTensor (by decide) (by decide)).2.2.1⟩

end iree_ep_rt

/-! ### Compile: a failing import (C5) -/

namespace iree_ep_jit

theorem importSubgraph_ok (inv : CompilerInvocation) (g : GraphViewer) (func_name : String)
    (trace : List Effect) :
    (inv.ImportSubgraph g func_name trace).1.IsOK = !g.importFails := by
  unfold CompilerInvocation.ImportSubgraph GraphViewer.importFails
  cases h1 : g.Initialize.failed <;> cases h2 : g.DefineFunction.failed <;>
    cases h3 : g.ImportAll.failed <;> cases h4 : g.Verify.failed <;>
    simp [Status.OK, Status.IsOK, ORT_MAKE_STATUS]

theorem importSubgraph_trace_free (inv : CompilerInvocation) (g : GraphViewer)
    (func_name : String) (trace : List Effect) :
    (inv.ImportSubgraph g func_name trace).1 = (inv.ImportSubgraph g func_name []).1 ∧
      (inv.ImportSubgraph g func_name trace).2.1 = (inv.ImportSubgraph g func_name []).2.1 := by
  unfold CompilerInvocation.ImportSubgraph
  cases h1 : g.Initialize.failed <;> cases h2 : g.DefineFunction.failed <;>
    cases h3 : g.ImportAll.failed <;> cases h4 : g.Verify.failed <;> simp

theorem importSubgraph_trace (inv : CompilerInvocation) (g : GraphViewer)
    (func_name : String) (trace : List Effect) :
    (inv.ImportSubgraph g func_name trace).2.2 =
      trace ++ (if g.Initialize.failed then [] else [Effect.DefineFunction func_name]) := by
  unfold CompilerInvocation.ImportSubgraph
  cases h1 : g.Initialize.failed <;> cases h2 : g.DefineFunction.failed <;>
    cases h3 : g.ImportAll.failed <;> cases h4 : g.Verify.failed <;> simp

theorem importSubgraph_ok_trace (inv : CompilerInvocation) (g : GraphViewer)
    (func_name : String) (trace : List Effect)
    (hok : (inv.ImportSubgraph g func_name trace).1.IsOK = true) :
    (inv.ImportSubgraph g func_name trace).2.2 = trace ++ [Effect.DefineFunction func_name] := by
  rw [importSubgraph_ok] at hok
  rw [importSubgraph_trace]
  have : g.Initialize.failed = false := by
    unfold GraphViewer.importFails at hok
    cases h : g.Initialize.failed
    · rfl
    · simp [h] at hok
  simp [this]

end iree_ep_jit

namespace IREEExecutionProvider

open iree_ep_jit

theorem importSubgraphs_fails (m : String) :
    ∀ (fused : List FusedNodeAndGraph) (inv : CompilerInvocation) (names : List String)
      (t : List Effect) (k : Nat) (f : FusedNodeAndGraph),
      fused[k]? = some f → f.filtered_graph.importFails = true →
      (importSubgraphs m fused inv names t).1.IsOK = false := by
  intro fused
  induction fused with
  | nil =>
    intro inv names t k f hk
    simp at hk
  | cons f0 rest ih =>
    intro inv names t k f hk hfail
    simp only [importSubgraphs]
    split_ifs with h0
    · simpa using h0
    · cases k with
      | zero =>
        simp at hk
        subst hk
        rw [importSubgraph_ok, hfail] at h0
        simp at h0
      | succ k =>
        simp only [List.getElem?_cons_succ] at hk
        exact ih _ _ _ k f hk hfail

theorem importSubgraphs_trace (m : String) :
    ∀ (fused : List FusedNodeAndGraph) (inv : CompilerInvocation) (names : List String)
      (t : List Effect),
      ∃ fs : List String,
        (importSubgraphs m fused inv names t).2.2.2 = t ++ fs.map Effect.DefineFunction := by
  intro fused
  induction fused with
  | nil =>
    intro inv names t
    exact ⟨[], by simp [importSubgraphs]⟩
  | cons f0 rest ih =>
    intro inv names t
    simp only [importSubgraphs]
    split_ifs with h0
    · rw [importSubgraph_trace]
      by_cases hi : f0.filtered_graph.Initialize.failed = true
      · exact ⟨[], by simp [hi]⟩
      · exact ⟨[f0.fused_node_name], by simp [hi]⟩
    · have hok : (inv.ImportSubgraph f0.filtered_graph f0.fused_node_name t).1.IsOK = true := by
        simpa using h0
      obtain ⟨fs, hfs⟩ := ih (inv.ImportSubgraph f0.filtered_graph f0.fused_node_name t).2.1
        (names ++ [(m ++ ".") ++ f0.fused_node_name])
        (inv.ImportSubgraph f0.filtered_graph f0.fused_node_name t).2.2
      refine ⟨f0.fused_node_name :: fs, ?_⟩
      rw [hfs, importSubgraph_ok_trace _ _ _ _ hok]
      simp

theorem importSubgraphs_ok (m : String) :
    ∀ (fused : List FusedNodeAndGraph) (inv : CompilerInvocation) (names : List String)
      (t : List Effect),
      (importSubgraphs m fused inv names t).1.IsOK = true →
      (importSubgraphs m fused inv names t).2.2.1 =
          names ++ fused.map (fun f => (m ++ ".") ++ f.fused_node_name) ∧
        (importSubgraphs m fused inv names t).2.2.2 =
          t ++ fused.map (fun f => Effect.DefineFunction f.fused_node_name) := by
  intro fused
  induction fused with
  | nil =>
    intro inv names t _
    simp [importSubgraphs]
  | cons f0 rest ih =>
    intro inv names t hok
    simp only [importSubgraphs] at hok ⊢
    split_ifs at hok ⊢ with h0
    · simp only [Bool.not_eq_true'] at h0
      rw [h0] at hok
      simp at hok
    · have hok0 : (inv.ImportSubgraph f0.filtered_graph f0.fused_node_name t).1.IsOK = true := by
        simpa using h0
      have step := ih _ _ _ hok
      rw [step.1, step.2, importSubgraph_ok_trace _ _ _ _ hok0]
      simp

theorem importSubgraphs_trace_free (m : String) :
    ∀ (fused : List FusedNodeAndGraph) (inv : CompilerInvocation) (names : List String)
      (t : List Effect),
      (importSubgraphs m fused inv names t).1 = (importSubgraphs m fused inv names []).1 ∧
        (importSubgraphs m fused inv names t).2.1 =
          (importSubgraphs m fused inv names []).2.1 := by
  intro fused
  induction fused with
  | nil =>
    intro inv names t
    simp [importSubgraphs]
  | cons f0 rest ih =>
    intro inv names t
    have free := importSubgraph_trace_free inv f0.filtered_graph f0.fused_node_name t
    simp only [importSubgraphs]
    rw [free.1, free.2]
    split_ifs with h0
    · exact ⟨rfl, rfl⟩
    · have l := ih (inv.ImportSubgraph f0.filtered_graph f0.fused_node_name []).2.1
        (names ++ [(m ++ ".") ++ f0.fused_node_name])
        (inv.ImportSubgraph f0.filtered_graph f0.fused_node_name t).2.2
      have r := ih (inv.ImportSubgraph f0.filtered_graph f0.fused_node_name []).2.1
        (names ++ [(m ++ ".") ++ f0.fused_node_name])
        (inv.ImportSubgraph f0.filtered_graph f0.fused_node_name []).2.2
      exact ⟨l.1.trans r.1.symm, l.2.trans r.2.symm⟩

theorem importSubgraphs_first_failure (m : String) :
    ∀ (fused : List FusedNodeAndGraph) (inv : CompilerInvocation) (names : List String)
      (t : List Effect) (k : Nat) (f : FusedNodeAndGraph),
      fused[k]? = some f →
      (∀ (j : Nat) (f0 : FusedNodeAndGraph), j < k → fused[j]? = some f0 →
        f0.filtered_graph.importFails = false) →
      f.filtered_graph.importFails = true →
      (importSubgraphs m fused inv names t).1 =
        ((importSubgraphs m (fused.take k) inv names []).2.1.ImportSubgraph
          f.filtered_graph f.fused_node_name []).1 := by
  intro fused
  induction fused with
  | nil =>
    intro inv names t k f hk
    simp at hk
  | cons f0 rest ih =>
    intro inv names t k f hk hbefore hfail
    cases k with
    | zero =>
      simp at hk
      subst hk
      simp only [importSubgraphs, List.take_zero]
      rw [importSubgraph_ok, hfail]
      simp only [Bool.not_true, Bool.not_false, if_true]
      exact (importSubgraph_trace_free inv _ _ t).1
    | succ k =>
      simp only [List.getElem?_cons_succ] at hk
      have h0 : f0.filtered_graph.importFails = false :=
        hbefore 0 f0 (Nat.succ_pos k) (by simp)
      have hrest : ∀ (j : Nat) (f1 : FusedNodeAndGraph), j < k → rest[j]? = some f1 →
          f1.filtered_graph.importFails = false := by
        intro j f1 hj hf1
        exact hbefore (j + 1) f1 (by omega) (by simpa using hf1)
      simp only [importSubgraphs, List.take_succ_cons]
      rw [importSubgraph_ok, importSubgraph_ok, h0]
      simp only [Bool.not_false, Bool.not_true, Bool.false_eq_true, if_false]
      rw [ih _ _ _ k f hk hrest hfail,
        (importSubgraph_trace_free inv f0.filtered_graph f0.fused_node_name t).2,
        (importSubgraphs_trace_free m (rest.take k) _ _
          (inv.ImportSubgraph f0.filtered_graph f0.fused_node_name []).2.2).2]

theorem setFlag_before (api : CompilerApi) (flag : String) (t : List Effect)
    (ht : ∀ e ∈ t, e.beforePipeline = true) :
    ∀ e ∈ (CompilerSession.SetFlag api flag t).2, e.beforePipeline = true := by
  intro e he
  unfold CompilerSession.SetFlag at he
  have hmem : e ∈ t ++ [Effect.SessionSetFlags flag] := by
    cases h : api.SessionSetFlags flag <;> simpa [h] using he
  rcases List.mem_append.mp hmem with h | h
  · exact ht e h
  · simp at h
    subst h
    rfl

theorem initialize_before (api : CompilerApi) (t : List Effect)
    (ht : ∀ e ∈ t, e.beforePipeline = true) :
    ∀ e ∈ (CompilerSession.Initialize api t).2, e.beforePipeline = true := by
  have h1 : ∀ e ∈ t ++ [Effect.LoadDialect "builtin"], e.beforePipeline = true := by
    intro e he
    rcases List.mem_append.mp he with h | h
    · exact ht e h
    · simp at h; subst h; rfl
  have h2 : ∀ e ∈ t ++ [Effect.LoadDialect "builtin"] ++ [Effect.LoadDialect "func"],
      e.beforePipeline = true := by
    intro e he
    rcases List.mem_append.mp he with h | h
    · exact h1 e h
    · simp at h; subst h; rfl
  have h3 : ∀ e ∈ t ++ [Effect.LoadDialect "builtin"] ++ [Effect.LoadDialect "func"] ++
      [Effect.LoadDialect "torch"], e.beforePipeline = true := by
    intro e he
    rcases List.mem_append.mp he with h | h
    · exact h2 e h
    · simp at h; subst h; rfl
  unfold CompilerSession.Initialize
  simp only []
  split_ifs
  · exact h1
  · exact h2
  · exact h3
  · exact setFlag_before api _ _ h3

theorem scopeExit_before (inv_constructed : Bool) (t : List Effect)
    (ht : ∀ e ∈ t, e.beforePipeline = true) :
    ∀ e ∈ scopeExit none false none inv_constructed t, e.beforePipeline = true := by
  intro e he
  unfold scopeExit at he
  cases inv_constructed
  · simp at he
    rcases he with h | h
    · exact ht e h
    · subst h; rfl
  · simp at he
    rcases he with h | h | h
    · exact ht e h
    · subst h; rfl
    · subst h; rfl

theorem compile_import_failure (capi : CompilerApi) (rapi : iree_ep_rt.RuntimeApi)
    (info_ : ProviderOptions) (vmfb_path : String) (fused : List FusedNodeAndGraph)
    (node_compute_funcs : List NodeComputeInfo) (k : Nat) (f : FusedNodeAndGraph)
    (hk : fused[k]? = some f) (hfail : f.filtered_graph.importFails = true) :
    (Compile capi rapi info_ vmfb_path fused node_compute_funcs).status.IsOK = false ∧
      (∀ e ∈ (Compile capi rapi info_ vmfb_path fused node_compute_funcs).trace,
        e.beforePipeline = true) ∧
      (Compile capi rapi info_ vmfb_path fused node_compute_funcs).node_compute_funcs =
        node_compute_funcs ∧
      ((CompilerSession.SetFlag capi (c_str (targetBackendFlag info_).1) []).1.IsOK = true →
        (CompilerSession.Initialize capi
          (CompilerSession.SetFlag capi (c_str (targetBackendFlag info_).1) []).2).1.IsOK = true →
        (Compile capi rapi info_ vmfb_path fused node_compute_funcs).status =
          (importSubgraphs "ort" fused (CompilerInvocation.create "ort") [] []).1) := by
  have hnil : ∀ e ∈ ([] : List Effect), e.beforePipeline = true := by simp
  have hflagT := setFlag_before capi (c_str (targetBackendFlag info_).1) [] hnil
  have hinitT := initialize_before capi _ hflagT
  unfold Compile
  simp only [c_str_ort]
  by_cases hflag : (CompilerSession.SetFlag capi (c_str (targetBackendFlag info_).1) []).1.IsOK = true
  · by_cases hinit : (CompilerSession.Initialize capi
        (CompilerSession.SetFlag capi (c_str (targetBackendFlag info_).1) []).2).1.IsOK = true
    · have himp := importSubgraphs_fails "ort" fused (CompilerInvocation.create "ort") []
        ((CompilerSession.Initialize capi
          (CompilerSession.SetFlag capi (c_str (targetBackendFlag info_).1) []).2).2 ++
          [Effect.InvocationCreate "ort"]) k f hk hfail
      simp only [hflag, hinit, himp, Bool.not_true, Bool.not_false, Bool.false_eq_true,
        if_false, if_true]
      refine ⟨trivial, ?_, trivial, ?_⟩
      · apply scopeExit_before
        obtain ⟨fs, hfs⟩ := importSubgraphs_trace "ort" fused (CompilerInvocation.create "ort")
          [] ((CompilerSession.Initialize capi
            (CompilerSession.SetFlag capi (c_str (targetBackendFlag info_).1) []).2).2 ++
            [Effect.InvocationCreate "ort"])
        rw [hfs]
        intro e he
        simp only [List.mem_append, List.mem_singleton, List.mem_map] at he
        rcases he with (h | h) | ⟨name, _, h⟩
        · exact hinitT e h
        · subst h; rfl
        · subst h; rfl
      · intro _ _
        exact (importSubgraphs_trace_free "ort" fused _ _ _).1
    · have hinit' : (CompilerSession.Initialize capi
          (CompilerSession.SetFlag capi (c_str (targetBackendFlag info_).1) []).2).1.IsOK = false := by
        simpa using hinit
      simp only [hflag, hinit', Bool.not_true, Bool.not_false, Bool.false_eq_true,
        if_false, if_true]
      refine ⟨trivial, scopeExit_before _ _ hinitT, trivial, ?_⟩
      intro _ h
      simp at h
  · have hflag' : (CompilerSession.SetFlag capi (c_str (targetBackendFlag info_).1) []).1.IsOK = false := by
      simpa using hflag
    simp only [hflag', Bool.not_false, if_true]
    refine ⟨trivial, scopeExit_before _ _ hflagT, trivial, ?_⟩
    intro h
    simp at h

/-- C5: when `ImportSubgraph` fails on the subgraph at some position `k`,
`Compile` returns a failure, its trace holds neither the pipeline run nor the
creation of a runtime session (every request in it is a flag, a dialect load,
the creation of the invocation, a function definition or one of the two closing
destructions), and `node_compute_funcs` is what it was; when
moreover the compiler setup succeeded and `k` is the first failing position,
the status returned is the one `ImportSubgraph` gives for subgraph `k` on the
invocation as the imports before `k` left it. -/
theorem compile_aborts_on_import_failure (capi : CompilerApi) (rapi : iree_ep_rt.RuntimeApi)
    (info_ : ProviderOptions) (vmfb_path : String) (fused : List FusedNodeAndGraph)
    (node_compute_funcs : List NodeComputeInfo) (k : Nat) (f : FusedNodeAndGraph)
    (hk : fused[k]? = some f)
    (hfail : ∃ (inv : CompilerInvocation) (trace : List Effect),
      (inv.ImportSubgraph f.filtered_graph f.fused_node_name trace).1.IsOK = false) :
    (Compile capi rapi info_ vmfb_path fused node_compute_funcs).status.IsOK = false ∧
      Effect.Pipeline ∉ (Compile capi rapi info_ vmfb_path fused node_compute_funcs).trace ∧
      (∀ h, Effect.RuntimeSessionCreate h ∉
        (Compile capi rapi info_ vmfb_path fused node_compute_funcs).trace) ∧
      (∀ e ∈ (Compile capi rapi info_ vmfb_path fused node_compute_funcs).trace,
        e.beforePipeline = true) ∧
      (Compile capi rapi info_ vmfb_path fused node_compute_funcs).node_compute_funcs =
        node_compute_funcs ∧
      ((CompilerSession.SetFlag capi (c_str (targetBackendFlag info_).1) []).1.IsOK = true →
        (CompilerSession.Initialize capi
          (CompilerSession.SetFlag capi (c_str (targetBackendFlag info_).1) []).2).1.IsOK = true →
        (∀ (j : Nat) (f0 : FusedNodeAndGraph), j < k → fused[j]? = some f0 →
          ∀ (inv : CompilerInvocation) (trace : List Effect),
            (inv.ImportSubgraph f0.filtered_graph f0.fused_node_name trace).1.IsOK = true) →
        (Compile capi rapi info_ vmfb_path fused node_compute_funcs).status =
          ((importSubgraphs "ort" (fused.take k) (CompilerInvocation.create "ort") [] []).2.1
            |>.ImportSubgraph f.filtered_graph f.fused_node_name []).1) := by
  obtain ⟨inv0, trace0, hbad⟩ := hfail
  have hfails : f.filtered_graph.importFails = true := by
    rw [importSubgraph_ok] at hbad
    simpa using hbad
  obtain ⟨hstatus, hbefore, hfuncs, hsame⟩ :=
    compile_import_failure capi rapi info_ vmfb_path fused node_compute_funcs k f hk hfails
  refine ⟨hstatus, ?_, ?_, hbefore, hfuncs, ?_⟩
  · intro hmem
    have := hbefore _ hmem
    simp [Effect.beforePipeline] at this
  · intro h hmem
    have := hbefore _ hmem
    simp [Effect.beforePipeline] at this
  · intro hflag hinit hfirst
    rw [hsame hflag hinit]
    apply importSubgraphs_first_failure "ort" fused _ _ _ k f hk _ hfails
    intro j f0 hj hf0
    have := hfirst j f0 hj hf0 (CompilerInvocation.create "ort") []
    rw [importSubgraph_ok] at this
    simpa using this

/-- C5 at a concrete request: the first subgraph imports, the second fails in
node import; `Compile` returns that import error and produces no entry point. -/
theorem compile_aborts_on_import_failure_witness :
    (Compile agreeableCompiler (iree_ep_rt.echoRuntime "local-task") [] "/tmp/ort.vmfb"
        [⟨soundGraph, "a"⟩, ⟨brokenGraph "bad node", "b"⟩] []).status.IsOK = false ∧
      (Compile agreeableCompiler (iree_ep_rt.echoRuntime "local-task") [] "/tmp/ort.vmfb"
        [⟨soundGraph, "a"⟩, ⟨brokenGraph "bad node", "b"⟩] []).node_compute_funcs = [] :=
  ⟨(compile_aborts_on_import_failure agreeableCompiler (iree_ep_rt.echoRuntime "local-task") []
      "/tmp/ort.vmfb" [⟨soundGraph, "a"⟩, ⟨brokenGraph "bad node", "b"⟩] [] 1
      ⟨brokenGraph "bad node", "b"⟩ (by decide)
      ⟨CompilerInvocation.create "ort", [], by decide⟩).1,
    (compile_aborts_on_import_failure agreeableCompiler (iree_ep_rt.echoRuntime "local-task") []
      "/tmp/ort.vmfb" [⟨soundGraph, "a"⟩, ⟨brokenGraph "bad node", "b"⟩] [] 1
      ⟨brokenGraph "bad node", "b"⟩ (by decide)
      ⟨CompilerInvocation.create "ort", [], by decide⟩).2.2.2.2.1⟩

end IREEExecutionProvider

/-! ### Compile: the entry points of a successful request (C6) -/

namespace iree_ep_rt

end iree_ep_rt

namespace iree_ep_jit

end iree_ep_jit

namespace IREEExecutionProvider

open iree_ep_jit

theorem pushComputeFuncs_eq (s : iree_ep_rt.Session) (names : List String)
    (funcs : List NodeComputeInfo) :
    pushComputeFuncs s names funcs =
      funcs ++ names.map (fun name => CreateNodeComputeFunc name s) := by
  induction names generalizing funcs with
  | nil => simp [pushComputeFuncs]
  | cons name rest ih =>
    simp only [pushComputeFuncs]
    rw [ih]
    simp

end IREEExecutionProvider

/-! ### ConsumeDiagnostics (C7, C8) -/

namespace iree_ep_jit

theorem emit_diagnostics (records : List DiagnosticRecord) (inv : CompilerInvocation) :
    (inv.emit records).diagnostics = inv.diagnostics ++ records := by
  induction records generalizing inv with
  | nil => simp [CompilerInvocation.emit]
  | cons r rest ih =>
    have step := ih (inv.diagnosticsCallback r.severity r.message)
    simp only [CompilerInvocation.emit, List.foldl_cons] at step ⊢
    rw [step]
    simp [CompilerInvocation.diagnosticsCallback]

theorem consume_log_empty (inv : CompilerInvocation) :
    (inv.ConsumeDiagnostics).2.diagnostics = [] := by
  unfold CompilerInvocation.ConsumeDiagnostics
  split
  · rename_i h
    simpa using h
  · rfl

theorem toString_label (r : DiagnosticRecord) (accum : String) :
    r.ToString accum = accum ++ severityLabel r.severity ++ r.message := by
  obtain ⟨severity, message⟩ := r
  match severity with
  | 0 => rfl
  | 1 => rfl
  | 2 => rfl
  | 3 => rfl
  | n + 4 =>
    simp [DiagnosticRecord.ToString, severityLabel, IREE_COMPILER_DIAGNOSTIC_SEVERITY_NOTE,
      IREE_COMPILER_DIAGNOSTIC_SEVERITY_WARNING, IREE_COMPILER_DIAGNOSTIC_SEVERITY_ERROR,
      IREE_COMPILER_DIAGNOSTIC_SEVERITY_REMARK]

theorem foldl_toString (records : List DiagnosticRecord) (accum : String) :
    records.foldl (fun accum diag => diag.ToString (accum ++ "\n  ")) accum =
      accum ++ formatRecords records := by
  induction records generalizing accum with
  | nil => simp [formatRecords]
  | cons r rest ih =>
    simp only [List.foldl_cons, formatRecords]
    rw [ih, toString_label]
    simp only [String.append_assoc]

theorem consume_text (inv : CompilerInvocation) {r : DiagnosticRecord}
    {rest : List DiagnosticRecord} (hlog : inv.diagnostics = r :: rest) :
    (inv.ConsumeDiagnostics).1 = "\nDiagnostics:" ++ formatRecords (r :: rest) := by
  unfold CompilerInvocation.ConsumeDiagnostics
  rw [hlog]
  simp only [List.isEmpty_cons, Bool.false_eq_true, if_false]
  exact foldl_toString (r :: rest) "\nDiagnostics:"

/-- C7: whatever the diagnostic log holds, after one `ConsumeDiagnostics` the
log is empty, and a second call made right after returns the empty string and
leaves the log empty (the invocation is returned unchanged). -/
theorem consumeDiagnostics_drains (inv : CompilerInvocation) :
    (inv.ConsumeDiagnostics).2.diagnostics = [] ∧
      ((inv.ConsumeDiagnostics).2.ConsumeDiagnostics).1 = "" ∧
      ((inv.ConsumeDiagnostics).2.ConsumeDiagnostics).2.diagnostics = [] ∧
      ((inv.ConsumeDiagnostics).2.ConsumeDiagnostics).2 = (inv.ConsumeDiagnostics).2 := by
  have h := consume_log_empty inv
  refine ⟨h, ?_, ?_, ?_⟩ <;>
    simp [CompilerInvocation.ConsumeDiagnostics.eq_1 (inv.ConsumeDiagnostics).2, h]

/-- C8: on an empty log `ConsumeDiagnostics` returns the empty string and
changes nothing; after a drain, when the callback has delivered the records
`r :: rest` in that order, the log holds exactly these records in that order
and `ConsumeDiagnostics` returns "\nDiagnostics:" followed, for each record in
order, by "\n  ", the severity tag and the message. -/
theorem consumeDiagnostics_format (module_name : String) (functions : List String)
    (inv : CompilerInvocation) (r : DiagnosticRecord) (rest : List DiagnosticRecord) :
    CompilerInvocation.ConsumeDiagnostics ⟨module_name, functions, []⟩ =
        ("", ⟨module_name, functions, []⟩) ∧
      ((inv.ConsumeDiagnostics).2.emit (r :: rest)).diagnostics = r :: rest ∧
      (((inv.ConsumeDiagnostics).2.emit (r :: rest)).ConsumeDiagnostics).1 =
        "\nDiagnostics:" ++ formatRecords (r :: rest) := by
  have hlog : ((inv.ConsumeDiagnostics).2.emit (r :: rest)).diagnostics = r :: rest := by
    rw [emit_diagnostics, consume_log_empty]
    rfl
  exact ⟨rfl, hlog, consume_text _ hlog⟩

end iree_ep_jit

/-! ### Dispose callbacks (C9, C10) -/

theorem invokedCallbacks_append (t u : List Effect) :
    invokedCallbacks (t ++ u) = invokedCallbacks t ++ invokedCallbacks u := by
  simp [invokedCallbacks, List.filterMap_append]

theorem invokedCallbacks_run (cb : DisposeCallback) (t : List Effect) :
    invokedCallbacks (cb.run t) = invokedCallbacks t := by
  cases cb with
  | destroyOutput local_output =>
    cases local_output <;> simp [DisposeCallback.run, invokedCallbacks, List.filterMap_append]
  | action tag => rfl

namespace iree_ep_rt

theorem runDisposeCallbacks_invoked (cbs : List DisposeCallback) (t : List Effect) :
    invokedCallbacks (Session.runDisposeCallbacks cbs t) = invokedCallbacks t ++ cbs := by
  induction cbs generalizing t with
  | nil => simp [Session.runDisposeCallbacks]
  | cons cb rest ih =>
    simp only [Session.runDisposeCallbacks]
    rw [ih, invokedCallbacks_run, invokedCallbacks_append]
    simp [invokedCallbacks]

theorem destructor_invoked (s : Session) :
    invokedCallbacks (s.destructor []) = s.dispose_callbacks := by
  unfold Session.destructor
  rw [runDisposeCallbacks_invoked]
  cases s.session <;> simp [invokedCallbacks]

theorem appendAll_callbacks (api : RuntimeApi) (regs : List (String × DisposeCallback))
    (s : Session) (t : List Effect) :
    (Session.appendAll api regs s t).1.dispose_callbacks =
      s.dispose_callbacks ++ regs.map Prod.snd := by
  induction regs generalizing s t with
  | nil => simp [Session.appendAll]
  | cons reg rest ih =>
    obtain ⟨vmfb_path, cb⟩ := reg
    simp only [Session.appendAll]
    rw [ih]
    simp [Session.AppendBytecodeModule]

/-- C9: on a session that was constructed, then initialized or not (with
whatever result the runtime gave, a null session handle included), and on
which `AppendBytecodeModule` registered the callbacks of `regs` in order
(each load succeeding or failing), the destructor runs exactly the registered
callbacks, each once, in registration order; the same holds for any session
pointer `p` and any callback list. -/
theorem session_teardown_runs_callbacks (api : RuntimeApi) (started : Bool)
    (regs : List (String × DisposeCallback)) (p : Option Handle)
    (cbs : List DisposeCallback) :
    invokedCallbacks
        (Session.destructor
          (Session.appendAll api regs
            (if started then (Session.create.Initialize api []).2.1 else Session.create)
            []).1 []) = regs.map Prod.snd ∧
      invokedCallbacks (Session.destructor ⟨p, cbs⟩ []) = cbs := by
  refine ⟨?_, destructor_invoked ⟨p, cbs⟩⟩
  rw [destructor_invoked, appendAll_callbacks]
  cases started <;> simp [Session.create, Session.Initialize]

/-- C10: `AppendBytecodeModule` leaves the dispose-callback list equal to the
earlier list followed by the supplied callback, whatever status the module
load returns (the returned status is the load's own, the load being asked
for the file at `vmfb_path.c_str()`). -/
theorem appendBytecodeModule_registers (api : RuntimeApi) (self : Session)
    (vmfb_path : String) (dispose_callback : DisposeCallback) (trace : List Effect) :
    (self.AppendBytecodeModule api vmfb_path dispose_callback trace).2.1.dispose_callbacks =
        self.dispose_callbacks ++ [dispose_callback] ∧
      (self.AppendBytecodeModule api vmfb_path dispose_callback trace).1 =
        api.session_append_bytecode_module_from_file self.session (c_str vmfb_path) := by
  exact ⟨rfl, rfl⟩

end iree_ep_rt

/-! ### ConvertOrtElementType (C11) -/

namespace iree_ep_rt

/-- C11: `ConvertOrtElementType` sends float32, float64, float16 and bfloat16
to FLOAT_32, FLOAT_64, FLOAT_16 and BFLOAT_16, the signed and unsigned
8/16/32/64-bit integers to SINT_n and UINT_n, bool to BOOL_8, complex64 and
complex128 to COMPLEX_FLOAT_64 and COMPLEX_FLOAT_128; it sends a host type to
NONE exactly when the type is not one of these fifteen (undefined, string, the
four 8-bit floats, the two 4-bit integers); and on the fifteen it is injective. -/
theorem convertOrtElementType_table :
    (ConvertOrtElementType .FLOAT = .FLOAT_32 ∧ ConvertOrtElementType .DOUBLE = .FLOAT_64 ∧
      ConvertOrtElementType .FLOAT16 = .FLOAT_16 ∧ ConvertOrtElementType .BFLOAT16 = .BFLOAT_16 ∧
      ConvertOrtElementType .INT8 = .SINT_8 ∧ ConvertOrtElementType .INT16 = .SINT_16 ∧
      ConvertOrtElementType .INT32 = .SINT_32 ∧ ConvertOrtElementType .INT64 = .SINT_64 ∧
      ConvertOrtElementType .UINT8 = .UINT_8 ∧ ConvertOrtElementType .UINT16 = .UINT_16 ∧
      ConvertOrtElementType .UINT32 = .UINT_32 ∧ ConvertOrtElementType .UINT64 = .UINT_64 ∧
      ConvertOrtElementType .BOOL = .BOOL_8 ∧
      ConvertOrtElementType .COMPLEX64 = .COMPLEX_FLOAT_64 ∧
      ConvertOrtElementType .COMPLEX128 = .COMPLEX_FLOAT_128) ∧
    supportedElementTypes.length = 15 ∧
    (∀ et : ONNXTensorElementDataType,
      ConvertOrtElementType et = iree_hal_element_type_t.NONE ↔ et ∉ supportedElementTypes) ∧
    (ConvertOrtElementType .UNDEFINED = .NONE ∧ ConvertOrtElementType .STRING = .NONE ∧
      ConvertOrtElementType .FLOAT8E4M3FN = .NONE ∧
      ConvertOrtElementType .FLOAT8E4M3FNUZ = .NONE ∧
      ConvertOrtElementType .FLOAT8E5M2 = .NONE ∧
      ConvertOrtElementType .FLOAT8E5M2FNUZ = .NONE ∧
      ConvertOrtElementType .UINT4 = .NONE ∧ ConvertOrtElementType .INT4 = .NONE) ∧
    (∀ a b : ONNXTensorElementDataType, a ∈ supportedElementTypes →
      b ∈ supportedElementTypes → ConvertOrtElementType a = ConvertOrtElementType b →
      a = b) := by
  refine ⟨by decide, by decide, ?_, by decide, ?_⟩
  · intro et
    cases et <;> decide
  · intro a b
    cases a <;> cases b <;> decide

end iree_ep_rt

/-! ### Session::Call: a failing lookup (C12) -/

namespace iree_ep_rt

/-- C12: when the lookup of the entry name fails, `Session::Call` returns the
failure made from the lookup's status, and nothing else has happened: the call
state is the initial one (no buffer view allocated, no input pushed, no
invocation, no host output requested or written), and the result is the same
whatever the kernel context holds and whatever the invocation would answer. -/
theorem call_lookup_failure (api : RuntimeApi) (self : Session) (entrypoint_name : String)
    (context : KernelContext) (err : String)
    (hlookup : api.call_initialize_by_name self.session entrypoint_name = some err) :
    Session.Call api self entrypoint_name context =
        (Outcome.returned (HandleFailingIREEStatus err), CallState.initial) ∧
      (Session.Call api self entrypoint_name context).1.failed = true ∧
      (Session.Call api self entrypoint_name context).2.allocated = [] ∧
      (Session.Call api self entrypoint_name context).2.inputs = [] ∧
      (Session.Call api self entrypoint_name context).2.invoked = false ∧
      (Session.Call api self entrypoint_name context).2.created = [] ∧
      (Session.Call api self entrypoint_name context).2.written = [] ∧
      (∀ other : KernelContext,
        Session.Call api self entrypoint_name other =
          Session.Call api self entrypoint_name context) ∧
      (∀ call_invoke,
        Session.Call (api.withInvoke call_invoke) self entrypoint_name context =
          Session.Call api self entrypoint_name context) := by
  have hcall : ∀ c : KernelContext, Session.Call api self entrypoint_name c =
      (Outcome.returned (HandleFailingIREEStatus err), CallState.initial) := by
    intro c
    unfold Session.Call
    rw [hlookup]
    rfl
  refine ⟨hcall context, ?_, ?_, ?_, ?_, ?_, ?_, ?_, ?_⟩
  · rw [hcall]; rfl
  · rw [hcall]; rfl
  · rw [hcall]; rfl
  · rw [hcall]; rfl
  · rw [hcall]; rfl
  · rw [hcall]; rfl
  · intro other
    rw [hcall, hcall]
  · intro call_invoke
    rw [hcall]
    unfold Session.Call
    have : (api.withInvoke call_invoke).call_initialize_by_name self.session entrypoint_name =
        some err := hlookup
    rw [this]
    rfl

/-- C12 at a concrete call: the session holds no entry point, the call for
"ort.missing" fails and requests no host output. -/
theorem call_lookup_failure_witness :
    (Session.Call (emptyRuntime "local-task") liveSession "ort.missing"
        ⟨[floatTensor 1 2 3 4], 1⟩).1.failed = true ∧
      (Session.Call (emptyRuntime "local-task") liveSession "ort.missing"
        ⟨[floatTensor 1 2 3 4], 1⟩).2.created = [] :=
  ⟨(call_lookup_failure (emptyRuntime "local-task") liveSession "ort.missing"
      ⟨[floatTensor 1 2 3 4], 1⟩ "NOT_FOUND" (by decide)).2.1,
    (call_lookup_failure (emptyRuntime "local-task") liveSession "ort.missing"
      ⟨[floatTensor 1 2 3 4], 1⟩ "NOT_FOUND" (by decide)).2.2.2.2.2.1⟩

end iree_ep_rt

/-! ### Session::Call: an input that is not on the host (C13) -/

namespace iree_ep_rt

theorem marshalInputs_withInvoke (api : RuntimeApi)
    (call_invoke : String → List BufferView → iree_status_t × List BufferView)
    (inputs : List OrtValue) (st : CallState) :
    marshalInputs (api.withInvoke call_invoke) inputs st = marshalInputs api inputs st := by
  induction inputs generalizing st with
  | nil => rfl
  | cons t rest ih =>
    simp only [marshalInputs, RuntimeApi.withInvoke] at ih ⊢
    split_ifs
    · rfl
    · rfl
    · rfl
    · rfl
    · split
      · rfl
      · split
        · rfl
        · exact ih _

theorem marshalInputs_keeps_invoked (api : RuntimeApi) (inputs : List OrtValue)
    (st : CallState) :
    (marshalInputs api inputs st).2.invoked = st.invoked := by
  induction inputs generalizing st with
  | nil => rfl
  | cons t rest ih =>
    simp only [marshalInputs]
    split_ifs
    · rfl
    · rfl
    · rfl
    · rfl
    · split
      · rfl
      · split
        · rfl
        · rw [ih]

theorem marshalInputs_off_host (api : RuntimeApi) :
    ∀ (inputs : List OrtValue) (st : CallState) (k : Nat) (t : OrtValue),
      inputs[k]? = some t → t.DeviceType ≠ OrtMemoryInfoDeviceType.CPU →
      (∃ o, (marshalInputs api inputs st).1 = some o) ∧
        ∃ pre, pre <+: (inputs.take k).map inputBufferView ∧
          (marshalInputs api inputs st).2.allocated = st.allocated ++ pre := by
  intro inputs
  induction inputs with
  | nil =>
    intro st k t hk
    simp at hk
  | cons t0 rest ih =>
    intro st k t hk hdev
    simp only [marshalInputs]
    split_ifs with h1 h2 h3 h4
    · exact ⟨⟨_, rfl⟩, [], List.nil_prefix, by simp⟩
    · exact ⟨⟨_, rfl⟩, [], List.nil_prefix, by simp⟩
    · exact ⟨⟨_, rfl⟩, [], List.nil_prefix, by simp⟩
    · exact ⟨⟨_, rfl⟩, [], List.nil_prefix, by simp⟩
    · cases k with
      | zero =>
        simp at hk
        subst hk
        exact absurd hdev h2
      | succ k =>
        simp only [List.getElem?_cons_succ] at hk
        split
        · exact ⟨⟨_, rfl⟩, [], List.nil_prefix, by simp⟩
        · split
          · refine ⟨⟨_, rfl⟩, [inputBufferView t0], ?_, by simp⟩
            simp [List.take_succ_cons, List.prefix_cons_inj, List.nil_prefix]
          · obtain ⟨hstop, pre, hpre, halloc⟩ :=
              ih { st with allocated := st.allocated ++ [inputBufferView t0],
                           inputs := st.inputs ++ [inputBufferView t0] } k t hk hdev
            refine ⟨hstop, inputBufferView t0 :: pre, ?_, ?_⟩
            · simpa [List.take_succ_cons, List.prefix_cons_inj] using hpre
            · rw [halloc]
              simp

/-- C13: when the input at position `k` is not in host memory (its device type
is not CPU), the call fails; the entry point is never invoked (the invocation
has not completed and the result does not depend on what the invocation would
answer); the buffer views allocated are views of inputs before position `k`
only, none for the input at `k`; and no host output is requested. -/
theorem call_rejects_device_input (api : RuntimeApi) (self : Session)
    (entrypoint_name : String) (context : KernelContext) (k : Nat) (t : OrtValue)
    (hk : context.inputs[k]? = some t)
    (hdev : t.DeviceType ≠ OrtMemoryInfoDeviceType.CPU) :
    (Session.Call api self entrypoint_name context).1.failed = true ∧
      (Session.Call api self entrypoint_name context).2.invoked = false ∧
      (∀ call_invoke,
        Session.Call (api.withInvoke call_invoke) self entrypoint_name context =
          Session.Call api self entrypoint_name context) ∧
      (Session.Call api self entrypoint_name context).2.allocated <+:
        (context.inputs.take k).map inputBufferView ∧
      (Session.Call api self entrypoint_name context).2.allocated.length ≤ k ∧
      (Session.Call api self entrypoint_name context).2.created = [] := by
  obtain ⟨⟨o, ho⟩, pre, hpre, halloc⟩ :=
    marshalInputs_off_host api context.inputs CallState.initial k t hk hdev
  have hfailed := marshalInputs_stopped_failed api context.inputs CallState.initial o ho
  have hinvoked := marshalInputs_keeps_invoked api context.inputs CallState.initial
  have hkeep := marshalInputs_keeps_outputs api context.inputs CallState.initial
  have hsame := marshalInputs_withInvoke api
  have hprefix : (Session.Call api self entrypoint_name context).2.allocated <+:
      (context.inputs.take k).map inputBufferView := by
    unfold Session.Call
    cases hlook : api.call_initialize_by_name self.session entrypoint_name with
    | some err => exact List.nil_prefix
    | none =>
      simp only
      cases hmi : marshalInputs api context.inputs CallState.initial with
      | mk stopped st =>
        rw [hmi] at ho halloc
        simp only at ho halloc
        subst ho
        simp only
        rw [halloc]
        simpa [CallState.initial] using hpre
  have hlen := hprefix.length_le
  have hk' : k ≤ context.inputs.length := by
    have := (List.getElem?_eq_some_iff.mp hk).1
    omega
  simp only [List.length_map, List.length_take] at hlen
  refine ⟨?_, ?_, ?_, hprefix, by omega, ?_⟩
  · unfold Session.Call
    cases hlook : api.call_initialize_by_name self.session entrypoint_name with
    | some err => rfl
    | none =>
      simp only
      cases hmi : marshalInputs api context.inputs CallState.initial with
      | mk stopped st =>
        rw [hmi] at ho
        simp only at ho
        subst ho
        exact hfailed
  · unfold Session.Call
    cases hlook : api.call_initialize_by_name self.session entrypoint_name with
    | some err => rfl
    | none =>
      simp only
      cases hmi : marshalInputs api context.inputs CallState.initial with
      | mk stopped st =>
        rw [hmi] at ho hinvoked
        simp only at ho hinvoked
        subst ho
        simpa [CallState.initial] using hinvoked
  · intro call_invoke
    unfold Session.Call
    have hl : (api.withInvoke call_invoke).call_initialize_by_name self.session
        entrypoint_name = api.call_initialize_by_name self.session entrypoint_name := rfl
    rw [hl, hsame]
    cases hlook : api.call_initialize_by_name self.session entrypoint_name with
    | some err => rfl
    | none =>
      simp only
      cases hmi : marshalInputs api context.inputs CallState.initial with
      | mk stopped st =>
        rw [hmi] at ho
        simp only at ho
        subst ho
        rfl
  · unfold Session.Call
    cases hlook : api.call_initialize_by_name self.session entrypoint_name with
    | some err => rfl
    | none =>
      simp only
      cases hmi : marshalInputs api context.inputs CallState.initial with
      | mk stopped st =>
        rw [hmi] at ho hkeep
        simp only at ho hkeep
        subst ho
        simpa [CallState.initial] using hkeep.1

/-- C13 at a concrete call: the second input lives on the GPU; the call fails,
is not invoked, and one buffer view (of the first input) was allocated. -/
theorem call_rejects_device_input_witness :
    (Session.Call (echoRuntime "local-task") liveSession "ort.f"
        ⟨[floatTensor 1 2 3 4, gpuTensor], 1⟩).1.failed = true ∧
      (Session.Call (echoRuntime "local-task") liveSession "ort.f"
        ⟨[floatTensor 1 2 3 4, gpuTensor], 1⟩).2.invoked = false ∧
      (Session.Call (echoRuntime "local-task") liveSession "ort.f"
        ⟨[floatTensor 1 2 3 4, gpuTensor], 1⟩).2.allocated.length ≤ 1 :=
  ⟨(call_rejects_device_input (echoRuntime "local-task") liveSession "ort.f"
      ⟨[floatTensor 1 2 3 4, gpuTensor], 1⟩ 1 gpuTensor (by decide) (by decide)).1,
    (call_rejects_device_input (echoRuntime "local-task") liveSession "ort.f"
      ⟨[floatTensor 1 2 3 4, gpuTensor], 1⟩ 1 gpuTensor (by decide) (by decide)).2.1,
    (call_rejects_device_input (echoRuntime "local-task") liveSession "ort.f"
      ⟨[floatTensor 1 2 3 4, gpuTensor], 1⟩ 1 gpuTensor (by decide) (by decide)).2.2.2.2.1⟩

end iree_ep_rt

/-! ### Element sizes of the supported types (C19) -/

namespace iree_ep_rt

theorem element_byte_aligned (t : ONNXTensorElementDataType) :
    iree_hal_element_is_byte_aligned (ConvertOrtElementType t) = true := by
  cases t <;> rfl

theorem element_dense_byte_count (t : ONNXTensorElementDataType) :
    iree_hal_element_dense_byte_count (ConvertOrtElementType t) = hostElementSize t := by
  cases t <;> rfl

theorem marshalInputs_alignment_holds (api : RuntimeApi) (inputs : List OrtValue)
    (st : CallState) :
    (marshalInputs api inputs st).1 ≠
      some (Outcome.threw "iree_hal_element_is_byte_aligned(element_type)") := by
  induction inputs generalizing st with
  | nil => simp [marshalInputs]
  | cons t rest ih =>
    simp only [marshalInputs]
    split_ifs with h1 h2 h3 h4
    · simp
    · simp
    · intro h
      have hs : "Unsupported element type " ++ toString t.ElementType.code =
          "iree_hal_element_is_byte_aligned(element_type)" := by
        injection h with h
        injection h
      have hhead := congrArg (fun s : String => s.data.head?) hs
      simp only [String.data_append, List.cons_append, List.head?_cons] at hhead
      exact absurd hhead (by decide)
    · exact absurd (element_byte_aligned _) (by simpa using h4)
    · split
      · simp [HandleIREEStatus]
      · split
        · simp [HandleIREEStatus]
        · exact ih _

/-- C19: for a host element type that `ConvertOrtElementType` does not send to
NONE, the runtime type is byte-aligned, its dense byte count is the host size
of one element, which is 1, 2, 4, 8 or 16; hence for a densely packed host
tensor of that type `element_count * element_size_bytes` is the length of its
raw data, and the byte-alignment assertion of the input loop is never the one
that ends a call. -/
theorem supported_types_byte_sized (t : ONNXTensorElementDataType)
    (hsupported : ConvertOrtElementType t ≠ iree_hal_element_type_t.NONE) :
    iree_hal_element_is_byte_aligned (ConvertOrtElementType t) = true ∧
      iree_hal_element_dense_byte_count (ConvertOrtElementType t) = hostElementSize t ∧
      hostElementSize t ∈ [1, 2, 4, 8, 16] ∧
      (∀ v : OrtValue, v.ElementType = t →
        v.RawData.length = v.ElementCount * hostElementSize t →
        v.ElementCount * iree_hal_element_dense_byte_count (ConvertOrtElementType v.ElementType) =
          v.RawData.length) ∧
      (∀ (api : RuntimeApi) (inputs : List OrtValue) (st : CallState),
        (marshalInputs api inputs st).1 ≠
          some (Outcome.threw "iree_hal_element_is_byte_aligned(element_type)")) := by
  refine ⟨element_byte_aligned t, element_dense_byte_count t, ?_, ?_,
    marshalInputs_alignment_holds⟩
  · cases t <;> first | decide | exact absurd rfl hsupported
  · intro v hv hlen
    rw [hv, element_dense_byte_count t, hlen]

/-- C19 at a concrete type: complex128 is byte-aligned and sixteen bytes wide
on both sides. -/
theorem supported_types_byte_sized_witness :
    iree_hal_element_is_byte_aligned
        (ConvertOrtElementType ONNXTensorElementDataType.COMPLEX128) = true ∧
      iree_hal_element_dense_byte_count
        (ConvertOrtElementType ONNXTensorElementDataType.COMPLEX128) = 16 :=
  ⟨(supported_types_byte_sized ONNXTensorElementDataType.COMPLEX128 (by decide)).1,
    (supported_types_byte_sized ONNXTensorElementDataType.COMPLEX128 (by decide)).2.1⟩

end iree_ep_rt

/-! ### Round trip of a host tensor through a buffer view (C14) -/

namespace iree_ep_rt

theorem toSizeT_of_nonneg (d : Int) (h0 : 0 ≤ d) (h1 : d < 2 ^ 63) : toSizeT d = d.toNat := by
  unfold toSizeT
  rw [Int.emod_eq_of_lt h0 (by omega)]

theorem dims_prod_of_nonneg (shape : List Int) (hdims : ∀ d ∈ shape, 0 ≤ d ∧ d < 2 ^ 63) :
    (shape.map toSizeT).prod = (shape.map Int.toNat).prod := by
  induction shape with
  | nil => rfl
  | cons d rest ih =>
    have hd := hdims d (List.mem_cons_self d rest)
    simp only [List.map_cons, List.prod_cons]
    rw [toSizeT_of_nonneg d hd.1 hd.2, ih (fun e he => hdims e (List.mem_cons_of_mem d he))]

theorem inputBufferView_keeps_bytes (t : OrtValue)
    (hdims : ∀ d ∈ t.Shape, 0 ≤ d ∧ d < 2 ^ 63)
    (hcount : t.ElementCount = (t.Shape.map Int.toNat).prod)
    (hdense : t.RawData.length = t.ElementCount * hostElementSize t.ElementType)
    (hfits : t.RawData.length < 2 ^ 64) :
    (inputBufferView t).buffer = t.RawData ∧
      iree_hal_buffer_view_byte_length (inputBufferView t) = t.RawData.length := by
  constructor
  · simp only [inputBufferView, element_dense_byte_count]
    rw [← hdense, Nat.mod_eq_of_lt hfits, List.take_length]
  · simp only [iree_hal_buffer_view_byte_length, inputBufferView, element_dense_byte_count]
    rw [dims_prod_of_nonneg t.Shape hdims, ← hcount, hdense]

/-- C14: take a host tensor on the CPU of a supported element type, with
non-negative dimensions, whose element count is the product of its dimensions
and whose raw data is densely packed (element count times element size bytes,
a length that fits `size_t`).  The buffer view built for it as an input holds
exactly its bytes; the mapped read done for an output of that view, of the
view's byte length from offset 0, yields exactly these bytes; and on a device
other than `hip`, a call that hands the view back as its one output returns OK
with host output 0 filled with the tensor's original bytes. -/
theorem host_bytes_roundtrip (t : OrtValue) (device_id : String) (self : Session)
    (entrypoint_name : String)
    (htensor : t.IsTensor = true)
    (hcpu : t.DeviceType = OrtMemoryInfoDeviceType.CPU)
    (hsupported : ConvertOrtElementType t.ElementType ≠ iree_hal_element_type_t.NONE)
    (hdims : ∀ d ∈ t.Shape, 0 ≤ d ∧ d < 2 ^ 63)
    (hcount : t.ElementCount = (t.Shape.map Int.toNat).prod)
    (hdense : t.RawData.length = t.ElementCount * hostElementSize t.ElementType)
    (hfits : t.RawData.length < 2 ^ 64)
    (hdevice : device_id ≠ "hip") :
    (inputBufferView t).buffer = t.RawData ∧
      (inputBufferView t).buffer.take (iree_hal_buffer_view_byte_length (inputBufferView t)) =
        t.RawData ∧
      (Session.Call (echoRuntime device_id) self entrypoint_name ⟨[t], 1⟩).1 =
        Outcome.returned Status.OK ∧
      (Session.Call (echoRuntime device_id) self entrypoint_name ⟨[t], 1⟩).2.popped =
        [inputBufferView t] ∧
      (Session.Call (echoRuntime device_id) self entrypoint_name ⟨[t], 1⟩).2.written =
        [(0, t.RawData)] := by
  obtain ⟨hbuf, hlen⟩ := inputBufferView_keeps_bytes t hdims hcount hdense hfits
  have hread : (inputBufferView t).buffer.take
      (iree_hal_buffer_view_byte_length (inputBufferView t)) = t.RawData := by
    rw [hlen, hbuf, List.take_length]
  have haligned := element_byte_aligned t.ElementType
  have hcall : Session.Call (echoRuntime device_id) self entrypoint_name ⟨[t], 1⟩ =
      (Outcome.returned Status.OK,
        { allocated := [inputBufferView t], inputs := [inputBufferView t], invoked := true,
          outputs := [], popped := [inputBufferView t],
          created := [(0, (inputBufferView t).shape.map toInt64)],
          written := [(0, t.RawData)] }) := by
    simp only [Session.Call, echoRuntime, marshalInputs, marshalOutputs, CallState.initial,
      htensor, hcpu, hsupported, haligned, hdevice, hread, Bool.not_true, Bool.false_eq_true,
      if_false, ne_eq, not_true_eq_false, List.nil_append]
  refine ⟨hbuf, hread, ?_, ?_, ?_⟩ <;> rw [hcall]

/-- C14 at a concrete tensor: one float32 element with bytes 1 2 3 4 comes
back as bytes 1 2 3 4. -/
theorem host_bytes_roundtrip_witness :
    (Session.Call (echoRuntime "local-task") liveSession "ort.f"
        ⟨[floatTensor 1 2 3 4], 1⟩).2.written = [(0, [1, 2, 3, 4])] :=
  (host_bytes_roundtrip (floatTensor 1 2 3 4) "local-task" liveSession "ort.f"
    (by decide) (by decide) (by decide) (by decide) (by decide) (by decide) (by decide)
    (by decide)).2.2.2.2

end iree_ep_rt

/-! ### Shapes of the host outputs (C15) -/

namespace iree_ep_rt

theorem toInt64_of_small (d : Nat) (h : d < 2 ^ 63) : toInt64 d = (d : Int) := by
  unfold toInt64
  have hmod : d % 2 ^ 64 = d := Nat.mod_eq_of_lt (by omega)
  rw [hmod, if_pos h]

theorem marshalOutputs_requests (api : RuntimeApi) (device_str : String) :
    ∀ (count i : Nat) (st : CallState),
      ∃ views : List BufferView, views.length ≤ count ∧
        st.outputs = views ++ (marshalOutputs api device_str count i st).2.outputs ∧
        (marshalOutputs api device_str count i st).2.popped = st.popped ++ views ∧
        (marshalOutputs api device_str count i st).2.created =
          st.created ++ (views.enumFrom i).map (fun p => (p.1, p.2.shape.map toInt64)) := by
  intro count
  induction count with
  | zero =>
    intro i st
    exact ⟨[], by simp, by simp [marshalOutputs], by simp [marshalOutputs],
      by simp [marshalOutputs]⟩
  | succ count ih =>
    intro i st
    unfold marshalOutputs
    cases hout : st.outputs with
    | nil => exact ⟨[], by simp, by simp [hout], by simp, by simp⟩
    | cons ret remaining =>
      simp only []
      split_ifs
      · exact ⟨[ret], by simp, by simp, by simp, by simp [List.enumFrom_cons]⟩
      · split
        · exact ⟨[ret], by simp, by simp, by simp, by simp [List.enumFrom_cons]⟩
        · exact ⟨[ret], by simp, by simp, by simp, by simp [List.enumFrom_cons]⟩
      · split
        · exact ⟨[ret], by simp, by simp, by simp, by simp [List.enumFrom_cons]⟩
        · obtain ⟨views, hlen, houts, hpop, hcre⟩ := ih (i + 1)
            { st with outputs := remaining, popped := st.popped ++ [ret],
                      created := st.created ++ [(i, ret.shape.map toInt64)],
                      written := st.written ++
                        [(i, ret.buffer.take (iree_hal_buffer_view_byte_length ret))] }
          refine ⟨ret :: views, by simp [hlen], ?_, ?_, ?_⟩
          · simpa using houts
          · rw [hpop]; simp
          · rw [hcre]; simp [List.enumFrom_cons]

theorem call_requests (api : RuntimeApi) (self : Session) (entrypoint_name : String)
    (context : KernelContext) :
    (Session.Call api self entrypoint_name context).2.created =
        (Session.Call api self entrypoint_name context).2.popped.enum.map
          (fun p => (p.1, p.2.shape.map toInt64)) ∧
      (Session.Call api self entrypoint_name context).2.popped <+:
        Session.produced api entrypoint_name context ∧
      (Session.Call api self entrypoint_name context).2.popped.length ≤ context.OutputCount := by
  unfold Session.Call Session.produced
  cases hlook : api.call_initialize_by_name self.session entrypoint_name with
  | some err => simp [CallState.initial]
  | none =>
    simp only
    have keep := marshalInputs_keeps_outputs api context.inputs CallState.initial
    cases hmi : marshalInputs api context.inputs CallState.initial with
    | mk stopped st =>
      rw [hmi] at keep
      simp only [CallState.initial] at keep
      cases stopped with
      | some o => simp [keep.1, keep.2.2]
      | none =>
        simp only
        cases hinv : api.call_invoke entrypoint_name st.inputs with
        | mk status produced =>
          cases status with
          | some err => simp [keep.1, keep.2.2]
          | none =>
            simp only
            obtain ⟨views, hlen, houts, hpop, hcre⟩ :=
              marshalOutputs_requests api api.hal_device_id context.OutputCount 0
                { st with invoked := true, outputs := produced }
            simp only [keep.1, keep.2.2, List.nil_append] at houts hpop hcre ⊢
            rw [hpop, hcre]
            refine ⟨rfl, ?_, hlen⟩
            rw [houts]
            exact List.prefix_append _ _

/-- The host outputs a successful call requests: when a host output is
requested for an index `i` with shape `shape`, `i` is below the declared output
count, and the `i`-th produced buffer view exists and gives that shape: same
rank, and each axis the view's dimension converted to int64, which is the
dimension itself when it is below 2^63.  On a device other than `hip`, a host
output is requested for every index below the declared output count. -/
theorem host_output_shapes (api : RuntimeApi) (self : Session) (entrypoint_name : String)
    (context : KernelContext)
    (hok : (Session.Call api self entrypoint_name context).1 = Outcome.returned Status.OK) :
    (∀ (i : Nat) (shape : List Int),
        (i, shape) ∈ (Session.Call api self entrypoint_name context).2.created →
        i < context.OutputCount ∧
        ∃ bv : BufferView, (Session.produced api entrypoint_name context)[i]? = some bv ∧
          shape.length = bv.shape.length ∧
          shape = bv.shape.map toInt64 ∧
          (∀ (axis : Nat) (d : Nat), bv.shape[axis]? = some d →
            shape[axis]? = some (toInt64 d) ∧ (d < 2 ^ 63 → shape[axis]? = some (d : Int)))) ∧
      (api.hal_device_id ≠ "hip" → ∀ i, i < context.OutputCount →
        ∃ shape, (i, shape) ∈ (Session.Call api self entrypoint_name context).2.created) := by
  obtain ⟨hcre, hpre, hlen⟩ := call_requests api self entrypoint_name context
  constructor
  · intro i shape hmem
    rw [hcre, List.mem_map] at hmem
    obtain ⟨⟨j, bv⟩, hjb, heq⟩ := hmem
    simp only [Prod.mk.injEq] at heq
    obtain ⟨hji, hshape⟩ := heq
    subst hji
    have hget : (Session.Call api self entrypoint_name context).2.popped[j]? = some bv :=
      List.mk_mem_enum_iff_getElem?.mp hjb
    have hj : j < (Session.Call api self entrypoint_name context).2.popped.length :=
      (List.getElem?_eq_some_iff.mp hget).1
    obtain ⟨rest, hrest⟩ := hpre
    refine ⟨by omega, bv, ?_, ?_, hshape.symm, ?_⟩
    · rw [← hrest, List.getElem?_append_left hj]
      exact hget
    · rw [← hshape]
      simp
    · intro axis d hd
      have : shape[axis]? = some (toInt64 d) := by
        rw [← hshape, List.getElem?_map, hd]
        rfl
      refine ⟨this, ?_⟩
      intro hsmall
      rw [this, toInt64_of_small d hsmall]
  · intro hdev i hi
    obtain ⟨hcount, hcreated, _⟩ :=
      call_processes_all_outputs api self entrypoint_name context hdev hok
    have hi' : i < (Session.Call api self entrypoint_name context).2.popped.length := by
      omega
    refine ⟨((Session.Call api self entrypoint_name context).2.popped[i]).shape.map toInt64, ?_⟩
    rw [hcreated, List.mem_map]
    refine ⟨(i, (Session.Call api self entrypoint_name context).2.popped[i]), ?_, rfl⟩
    exact List.mk_mem_enum_iff_getElem?.mpr (List.getElem?_eq_getElem hi')

/-- The host outputs of a successful call at a concrete call off `hip`: two
views of shape [1] are produced and host outputs 0 and 1 are requested. -/
theorem host_output_shapes_off_hip :
    ∃ shape, (1, shape) ∈ (Session.Call (echoRuntime "local-task") liveSession "ort.f"
      ⟨[floatTensor 1 2 3 4, floatTensor 5 6 7 8], 2⟩).2.created :=
  (host_output_shapes (echoRuntime "local-task") liveSession "ort.f"
    ⟨[floatTensor 1 2 3 4, floatTensor 5 6 7 8], 2⟩ (by decide)).2 (by decide) 1 (by decide)

/-- On the device `hip` a call requests at most one host output, whatever the
number of outputs its context declares and its entry point produces. -/
theorem call_on_hip_requests_at_most_one (api : RuntimeApi) (self : Session)
    (entrypoint_name : String) (context : KernelContext) (hdev : api.hal_device_id = "hip") :
    (Session.Call api self entrypoint_name context).2.created.length ≤ 1 := by
  unfold Session.Call
  cases hlook : api.call_initialize_by_name self.session entrypoint_name with
  | some err => simp [CallState.initial]
  | none =>
    simp only
    have keep := marshalInputs_keeps_outputs api context.inputs CallState.initial
    cases hmi : marshalInputs api context.inputs CallState.initial with
    | mk stopped st =>
      rw [hmi] at keep
      simp only [CallState.initial] at keep
      cases stopped with
      | some o => simp [keep.1]
      | none =>
        simp only
        cases hinv : api.call_invoke entrypoint_name st.inputs with
        | mk status produced =>
          cases status with
          | some err => simp [keep.1]
          | none =>
            simp only
            obtain ⟨views, hlen, houts, hpop, hcre⟩ :=
              marshalOutputs_requests api api.hal_device_id context.OutputCount 0
                { st with invoked := true, outputs := produced }
            have hsingle := marshalOutputs_hip_single api context.OutputCount 0
              { st with invoked := true, outputs := produced }
            rw [hdev] at hcre hpop
            rw [hdev, hcre]
            rw [hpop] at hsingle
            simp only [keep.1, keep.2.2, List.nil_append, List.length_map,
              List.enumFrom_length, List.length_append, List.length_nil, Nat.zero_add]
              at hsingle ⊢
            exact hsingle

/-- C15: on the device `hip`, a successful call whose context declares two
outputs and whose entry point produces two buffer views, of shapes [1] and
[2], requests one host output only, index 0 with shape [1]: no host output
tensor is requested for index 1, so output 1 gets no host tensor of the rank
and the dimensions of the second produced view.  On any other device the same
call requests host outputs 0 and 1, with the shapes [1] and [2]. -/
theorem call_on_hip_requests_no_second_host_output :
    (Session.Call (echoRuntime "hip") liveSession "ort.f"
        ⟨[floatTensor 1 2 3 4, floatPair], 2⟩).1 = Outcome.returned Status.OK ∧
      (Session.produced (echoRuntime "hip") "ort.f"
        ⟨[floatTensor 1 2 3 4, floatPair], 2⟩).map (fun bv => bv.shape) = [[1], [2]] ∧
      (Session.Call (echoRuntime "hip") liveSession "ort.f"
        ⟨[floatTensor 1 2 3 4, floatPair], 2⟩).2.created = [(0, [1])] ∧
      List.lookup 1 (Session.Call (echoRuntime "hip") liveSession "ort.f"
        ⟨[floatTensor 1 2 3 4, floatPair], 2⟩).2.created = none ∧
      (Session.Call (echoRuntime "local-task") liveSession "ort.f"
        ⟨[floatTensor 1 2 3 4, floatPair], 2⟩).1 = Outcome.returned Status.OK ∧
      (Session.Call (echoRuntime "local-task") liveSession "ort.f"
        ⟨[floatTensor 1 2 3 4, floatPair], 2⟩).2.created = [(0, [1]), (1, [2])] := by
  decide

end iree_ep_rt

/-! ### ImportSubgraph: what a failure reports (C16) -/

namespace iree_ep_jit

theorem join_two (a b : String) : String.join [a, b] = a ++ b := by
  simp [String.join]

theorem join_three (a b c : String) : String.join [a, b, c] = a ++ b ++ c := by
  simp [String.join]

theorem join_four (a b c d : String) : String.join [a, b, c, d] = a ++ b ++ c ++ d := by
  simp [String.join]

theorem consume_text_of_log (inv : CompilerInvocation) :
    (inv.ConsumeDiagnostics).1 = diagnosticsText inv.diagnostics := by
  unfold diagnosticsText CompilerInvocation.ConsumeDiagnostics
  simp only []
  split <;> rfl

/-- The three failing paths after graph-info initialization: when the
initialization succeeds and a later step fails, the INVALID_GRAPH message is
the path's own text followed by the `ConsumeDiagnostics` text of the log at
that moment (what the log held before, then what the steps so far emitted),
followed on a verifier failure by the generic-form dump; and the log is empty
afterwards. -/
theorem importSubgraph_reports_diagnostics (inv : CompilerInvocation) (g : GraphViewer)
    (func_name : String) (trace : List Effect) (hinit : g.Initialize.failed = false) :
    (g.DefineFunction.failed = true →
        (inv.ImportSubgraph g func_name trace).1 =
          ⟨StatusCode.INVALID_GRAPH,
            "Failed to define entry function for graph: " ++ g.DefineFunction.error_message ++
              diagnosticsText (inv.diagnostics ++ g.Initialize.emitted ++
                g.DefineFunction.emitted)⟩ ∧
        (inv.ImportSubgraph g func_name trace).2.1.diagnostics = []) ∧
      (g.DefineFunction.failed = false → g.ImportAll.failed = true →
        (inv.ImportSubgraph g func_name trace).1 =
          ⟨StatusCode.INVALID_GRAPH,
            "Failed to import nodes" ++ ": " ++ g.ImportAll.error_message ++
              diagnosticsText (inv.diagnostics ++ g.Initialize.emitted ++
                g.DefineFunction.emitted ++ g.ImportAll.emitted)⟩ ∧
        (inv.ImportSubgraph g func_name trace).2.1.diagnostics = []) ∧
      (g.DefineFunction.failed = false → g.ImportAll.failed = false →
        g.Verify.failed = true →
        (inv.ImportSubgraph g func_name trace).1 =
          ⟨StatusCode.INVALID_GRAPH,
            "Imported ONNX IR failed to verify." ++
              diagnosticsText (inv.diagnostics ++ g.Initialize.emitted ++
                g.DefineFunction.emitted ++ g.ImportAll.emitted ++ g.Verify.emitted) ++
              "\nUnverified MLIR module:\n" ++ g.generic_form⟩ ∧
        (inv.ImportSubgraph g func_name trace).2.1.diagnostics = []) := by
  refine ⟨?_, ?_, ?_⟩
  · intro h2
    unfold CompilerInvocation.ImportSubgraph
    simp only [hinit, h2, Bool.false_eq_true, if_false, if_true]
    refine ⟨?_, consume_log_empty _⟩
    rw [consume_text_of_log, emit_diagnostics, emit_diagnostics]
    simp only [ORT_MAKE_STATUS, join_three]
  · intro h2 h3
    unfold CompilerInvocation.ImportSubgraph
    simp only [hinit, h2, h3, Bool.false_eq_true, if_false, if_true]
    refine ⟨?_, consume_log_empty _⟩
    rw [consume_text_of_log, emit_diagnostics]
    simp only [emit_diagnostics, ORT_MAKE_STATUS, join_four]
  · intro h2 h3 h4
    unfold CompilerInvocation.ImportSubgraph
    simp only [hinit, h2, h3, h4, Bool.false_eq_true, if_false, if_true]
    refine ⟨?_, consume_log_empty _⟩
    rw [consume_text_of_log, emit_diagnostics, emit_diagnostics]
    simp only [emit_diagnostics, ORT_MAKE_STATUS, join_four]

/-- C16: on one invocation a first subgraph imports while the verifier emits a
warning, which stays in the log; the graph-info initialization of a second
subgraph then fails.  The status returned is INVALID_GRAPH with the importer's
message alone, without the `ConsumeDiagnostics` text of the log at that
moment, and the log still holds the warning afterwards.  A node-import failure
at the same point carries that text and leaves the log empty. -/
theorem importSubgraph_init_failure_skips_diagnostics :
    ((CompilerInvocation.create "ort").ImportSubgraph warnedGraph "a" []).1 = Status.OK ∧
      ((CompilerInvocation.create "ort").ImportSubgraph warnedGraph "a" []).2.1.diagnostics =
        [⟨IREE_COMPILER_DIAGNOSTIC_SEVERITY_WARNING, "unused value"⟩] ∧
      (((CompilerInvocation.create "ort").ImportSubgraph warnedGraph "a"
        []).2.1.ConsumeDiagnostics).1 = "\nDiagnostics:\n  warning: unused value" ∧
      (((CompilerInvocation.create "ort").ImportSubgraph warnedGraph "a" []).2.1.ImportSubgraph
        (unreadableGraph "bad graph") "b" []).1 = ⟨StatusCode.INVALID_GRAPH, "bad graph"⟩ ∧
      (((CompilerInvocation.create "ort").ImportSubgraph warnedGraph "a" []).2.1.ImportSubgraph
        (unreadableGraph "bad graph") "b" []).2.1.diagnostics =
        [⟨IREE_COMPILER_DIAGNOSTIC_SEVERITY_WARNING, "unused value"⟩] ∧
      (((CompilerInvocation.create "ort").ImportSubgraph warnedGraph "a" []).2.1.ImportSubgraph
        (brokenGraph "bad node") "b" []).1 =
        ⟨StatusCode.INVALID_GRAPH,
          "Failed to import nodes: bad node\nDiagnostics:\n  warning: unused value"⟩ ∧
      (((CompilerInvocation.create "ort").ImportSubgraph warnedGraph "a" []).2.1.ImportSubgraph
        (brokenGraph "bad node") "b" []).2.1.diagnostics = [] := by
  decide

end iree_ep_jit

/-! ### Compile: the target-backend flag comes first (C17) -/

theorem prefix_step {t u : List Effect} (v : List Effect) (h : t <+: u) : t <+: u ++ v :=
  h.trans (List.prefix_append _ _)

theorem prefix_run {t u : List Effect} (cb : DisposeCallback) (h : t <+: u) :
    t <+: cb.run u := by
  cases cb with
  | destroyOutput local_output =>
    cases local_output with
    | none => exact h
    | some o => exact h.trans (List.prefix_append _ _)
  | action tag => exact h

namespace iree_ep_rt

theorem prefix_runDisposeCallbacks {t : List Effect} (cbs : List DisposeCallback) :
    ∀ {u : List Effect}, t <+: u → t <+: Session.runDisposeCallbacks cbs u := by
  induction cbs with
  | nil => intro u h; exact h
  | cons cb rest ih =>
    intro u h
    exact ih (prefix_run cb (h.trans (List.prefix_append _ _)))

theorem prefix_session_destructor {t u : List Effect} (s : Session) (h : t <+: u) :
    t <+: s.destructor u := by
  unfold Session.destructor
  cases s.session with
  | none => exact prefix_runDisposeCallbacks _ h
  | some o => exact prefix_runDisposeCallbacks _ (h.trans (List.prefix_append _ _))

end iree_ep_rt

namespace iree_ep_jit

theorem setFlag_trace (api : CompilerApi) (flag : String) (t : List Effect) :
    (CompilerSession.SetFlag api flag t).2 = t ++ [Effect.SessionSetFlags flag] := by
  unfold CompilerSession.SetFlag
  cases api.SessionSetFlags flag <;> rfl

theorem prefix_setFlag {t u : List Effect} (api : CompilerApi) (flag : String) (h : t <+: u) :
    t <+: (CompilerSession.SetFlag api flag u).2 := by
  rw [setFlag_trace]
  exact h.trans (List.prefix_append _ _)

theorem prefix_initialize {t u : List Effect} (api : CompilerApi) (h : t <+: u) :
    t <+: (CompilerSession.Initialize api u).2 := by
  unfold CompilerSession.Initialize
  simp only []
  split_ifs
  · exact h.trans (List.prefix_append _ _)
  · exact (h.trans (List.prefix_append _ _)).trans (List.prefix_append _ _)
  · exact ((h.trans (List.prefix_append _ _)).trans (List.prefix_append _ _)).trans
      (List.prefix_append _ _)
  · exact prefix_setFlag api _
      (((h.trans (List.prefix_append _ _)).trans (List.prefix_append _ _)).trans
        (List.prefix_append _ _))

theorem prefix_compileAndOutput {t u : List Effect} (api : CompilerApi)
    (self : CompilerInvocation) (output : Option Handle) (vmfb_path : String) (h : t <+: u) :
    t <+: (self.CompileAndOutputVMFB api output vmfb_path u).2.2 := by
  unfold CompilerInvocation.CompileAndOutputVMFB
  simp only []
  split_ifs
  · exact h.trans (List.prefix_append _ _)
  · split <;>
      exact ((h.trans (List.prefix_append _ _)).trans (List.prefix_append _ _)).trans
        (List.prefix_append _ _)

theorem prefix_output_destructor {t u : List Effect} (o : CompilerOutput) (h : t <+: u) :
    t <+: o.destructor u := by
  unfold CompilerOutput.destructor
  cases o.output with
  | none => exact h
  | some x => exact h.trans (List.prefix_append _ _)

end iree_ep_jit

namespace IREEExecutionProvider

open iree_ep_jit

theorem prefix_importSubgraphs {t u : List Effect} (m : String)
    (fused : List FusedNodeAndGraph) (inv : CompilerInvocation) (names : List String)
    (h : t <+: u) : t <+: (importSubgraphs m fused inv names u).2.2.2 := by
  obtain ⟨fs, hfs⟩ := importSubgraphs_trace m fused inv names u
  rw [hfs]
  exact h.trans (List.prefix_append _ _)

theorem prefix_scopeExit {t u : List Effect} (rt_session : Option iree_ep_rt.Session)
    (captured : Bool) (vmfb_output : Option CompilerOutput) (inv_constructed : Bool)
    (h : t <+: u) : t <+: scopeExit rt_session captured vmfb_output inv_constructed u := by
  unfold scopeExit
  cases rt_session <;> cases captured <;> cases vmfb_output <;> cases inv_constructed <;>
    simp only [Bool.false_eq_true, if_false, if_true] <;>
    repeat (first
      | exact h
      | apply prefix_step
      | apply prefix_output_destructor
      | apply iree_ep_rt.prefix_session_destructor)

theorem targetBackendFlag_eq (info_ : ProviderOptions) :
    targetBackendFlag info_ =
      ("--iree-hal-target-backends=" ++
        (match info_.find "hal_target_device" with
          | some value => value
          | none => "llvm-cpu"), info_) := by
  unfold targetBackendFlag ProviderOptions.index ProviderOptions.find
  cases h : List.lookup "hal_target_device" info_ with
  | none => rfl
  | some value => simp

theorem compile_trace_starts (capi : CompilerApi) (rapi : iree_ep_rt.RuntimeApi)
    (info_ : ProviderOptions) (vmfb_path : String) (fused : List FusedNodeAndGraph)
    (node_compute_funcs : List NodeComputeInfo) :
    [Effect.SessionSetFlags (c_str (targetBackendFlag info_).1)] <+:
        (Compile capi rapi info_ vmfb_path fused node_compute_funcs).trace ∧
      (Compile capi rapi info_ vmfb_path fused node_compute_funcs).info_ =
        (targetBackendFlag info_).2 := by
  have h0 : [Effect.SessionSetFlags (c_str (targetBackendFlag info_).1)] <+:
      (CompilerSession.SetFlag capi (c_str (targetBackendFlag info_).1) []).2 := by
    rw [setFlag_trace]
    exact List.prefix_rfl
  have h1 := prefix_initialize capi h0
  have h2 := prefix_importSubgraphs "ort" fused (CompilerInvocation.create "ort") []
    (h1.trans (List.prefix_append _ [Effect.InvocationCreate "ort"]))
  have h3 := h2.trans (List.prefix_append _ [Effect.OutputOpenMembuffer capi.OutputOpenMembuffer.2])
  have h4 := prefix_compileAndOutput capi
    (importSubgraphs "ort" fused (CompilerInvocation.create "ort") []
      ((CompilerSession.Initialize capi
        (CompilerSession.SetFlag capi (c_str (targetBackendFlag info_).1) []).2).2 ++
        [Effect.InvocationCreate "ort"])).2.1
    capi.OutputOpenMembuffer.2 vmfb_path h3
  unfold Compile
  simp only [c_str_ort]
  split
  · refine ⟨?_, rfl⟩
    dsimp only
    exact prefix_scopeExit _ _ _ _ h0
  · split
    · refine ⟨?_, rfl⟩
      dsimp only
      exact prefix_scopeExit _ _ _ _ h1
    · split
      · refine ⟨?_, rfl⟩
        dsimp only
        exact prefix_scopeExit _ _ _ _ h2
      · split
        · refine ⟨?_, rfl⟩
          dsimp only
          exact prefix_scopeExit _ _ _ _ h3
        · split
          · refine ⟨?_, rfl⟩
            dsimp only
            exact prefix_scopeExit _ _ _ _ h4
          · split
            · refine ⟨?_, rfl⟩
              dsimp only
              exact prefix_scopeExit _ _ _ _ (prefix_step _ h4)
            · split
              · refine ⟨?_, rfl⟩
                dsimp only
                exact prefix_scopeExit _ _ _ _ (prefix_step _ (prefix_step _ h4))
              · split
                · refine ⟨?_, rfl⟩
                  dsimp only
                  exact prefix_scopeExit _ _ _ _ (prefix_step _ (prefix_step _ (prefix_step _ h4)))
                · refine ⟨?_, rfl⟩
                  dsimp only
                  exact prefix_scopeExit _ _ _ _ (prefix_step _ (prefix_step _ (prefix_step _ h4)))

end IREEExecutionProvider

namespace IREEExecutionProvider

theorem lookup_absent (key : String) (info_ : ProviderOptions)
    (habsent : ∀ p ∈ info_, p.1 ≠ key) : List.lookup key info_ = none := by
  induction info_ with
  | nil => rfl
  | cons p rest ih =>
    obtain ⟨k, v⟩ := p
    have hk : k ≠ key := habsent (k, v) (List.mem_cons_self _ _)
    have hbeq : (key == k) = false := by
      simp only [beq_eq_false_iff_ne, ne_eq]
      exact fun h => hk h.symm
    rw [List.lookup_cons, hbeq]
    exact ih (fun q hq => habsent q (List.mem_cons_of_mem _ hq))

theorem lookup_present (key value : String) (info_ : ProviderOptions)
    (hkeys : (info_.map Prod.fst).Nodup) (hmem : (key, value) ∈ info_) :
    List.lookup key info_ = some value := by
  induction info_ with
  | nil => simp at hmem
  | cons p rest ih =>
    obtain ⟨k, v⟩ := p
    simp only [List.map_cons, List.nodup_cons] at hkeys
    rcases List.mem_cons.mp hmem with h | h
    · simp only [Prod.mk.injEq] at h
      obtain ⟨hk, hv⟩ := h
      subst hk
      subst hv
      simp [List.lookup_cons]
    · have hk : key ≠ k := by
        intro heq
        subst heq
        exact hkeys.1 (List.mem_map.mpr ⟨(key, value), h, rfl⟩)
      have hbeq : (key == k) = false := by
        simp only [beq_eq_false_iff_ne, ne_eq]
        exact hk
      rw [List.lookup_cons, hbeq]
      exact ih hkeys.2 h

/-- C17, as stated, fails: with the value "ro\x00cm" (`ro`, a NUL character,
`cm`) stored under "hal_target_device", the first flag `Compile` sets is
"--iree-hal-target-backends=ro", which is not "--iree-hal-target-backends="
followed by the stored value. -/
theorem nul_in_target_device_cuts_flag :
    (Compile iree_ep_jit.agreeableCompiler (iree_ep_rt.echoRuntime "local-task")
        [("hal_target_device", "ro\x00cm")] "/tmp/ort.vmfb" [] []).trace[0]? =
        some (Effect.SessionSetFlags "--iree-hal-target-backends=ro") ∧
      "--iree-hal-target-backends=ro" ≠ "--iree-hal-target-backends=" ++ "ro\x00cm" ∧
      (Compile iree_ep_jit.agreeableCompiler (iree_ep_rt.echoRuntime "local-task")
        [("hal_target_device", "ro\x00cm")] "/tmp/ort.vmfb" [] []).info_ =
        [("hal_target_device", "ro\x00cm")] := by
  decide

/-- C17, amended: whatever the provider options are, the first request
`Compile` makes is to set one flag, the C string of
"--iree-hal-target-backends=" followed by the value stored under
"hal_target_device", or by "llvm-cpu" when no entry has that key: the flag is
"--iree-hal-target-backends=" followed by the stored value up to its first
NUL character, so by the whole value when it holds none.  The option map is
returned as it was; and every dialect load of the session initialization,
every creation of an invocation and every creation of a runtime session comes
later in the trace. -/
theorem compile_sets_target_flag_first (capi : iree_ep_jit.CompilerApi)
    (rapi : iree_ep_rt.RuntimeApi) (info_ : ProviderOptions) (vmfb_path : String)
    (fused : List FusedNodeAndGraph) (node_compute_funcs : List NodeComputeInfo) :
    ((∀ p ∈ info_, p.1 ≠ "hal_target_device") →
        (Compile capi rapi info_ vmfb_path fused node_compute_funcs).trace[0]? =
          some (Effect.SessionSetFlags "--iree-hal-target-backends=llvm-cpu")) ∧
      (∀ value : String, (info_.map Prod.fst).Nodup → ("hal_target_device", value) ∈ info_ →
        (Compile capi rapi info_ vmfb_path fused node_compute_funcs).trace[0]? =
            some (Effect.SessionSetFlags ("--iree-hal-target-backends=" ++
              String.mk (value.data.takeWhile (fun c => c != Char.ofNat 0)))) ∧
          (Char.ofNat 0 ∉ value.data →
            (Compile capi rapi info_ vmfb_path fused node_compute_funcs).trace[0]? =
              some (Effect.SessionSetFlags ("--iree-hal-target-backends=" ++ value)))) ∧
      (Compile capi rapi info_ vmfb_path fused node_compute_funcs).info_ = info_ ∧
      (∀ (i : Nat) (name : String),
        (Compile capi rapi info_ vmfb_path fused node_compute_funcs).trace[i]? =
          some (Effect.LoadDialect name) → 0 < i) ∧
      (∀ (i : Nat) (module_name : String),
        (Compile capi rapi info_ vmfb_path fused node_compute_funcs).trace[i]? =
          some (Effect.InvocationCreate module_name) → 0 < i) ∧
      (∀ (i : Nat) (h : Option Handle),
        (Compile capi rapi info_ vmfb_path fused node_compute_funcs).trace[i]? =
          some (Effect.RuntimeSessionCreate h) → 0 < i) := by
  obtain ⟨⟨rest, hrest⟩, hinfo⟩ :=
    compile_trace_starts capi rapi info_ vmfb_path fused node_compute_funcs
  rw [targetBackendFlag_eq] at hrest hinfo
  simp only [List.singleton_append] at hrest
  have hfirst : (Compile capi rapi info_ vmfb_path fused node_compute_funcs).trace[0]? =
      some (Effect.SessionSetFlags (c_str ("--iree-hal-target-backends=" ++
        (match info_.find "hal_target_device" with
          | some value => value
          | none => "llvm-cpu")))) := by
    rw [← hrest]
    simp
  have hflag : Char.ofNat 0 ∉ ("--iree-hal-target-backends=" : String).data := by decide
  refine ⟨?_, ?_, hinfo, ?_, ?_, ?_⟩
  · intro habsent
    rw [hfirst]
    unfold ProviderOptions.find
    rw [lookup_absent _ _ habsent]
    have : c_str ("--iree-hal-target-backends=" ++ "llvm-cpu") =
        "--iree-hal-target-backends=llvm-cpu" := by decide
    simp only [this]
  · intro value hkeys hmem
    have hcut : (Compile capi rapi info_ vmfb_path fused node_compute_funcs).trace[0]? =
        some (Effect.SessionSetFlags ("--iree-hal-target-backends=" ++ c_str value)) := by
      rw [hfirst]
      unfold ProviderOptions.find
      rw [lookup_present _ _ _ hkeys hmem]
      simp only [c_str_append _ _ hflag]
    refine ⟨hcut, ?_⟩
    intro hvalue
    rw [hcut, c_str_of_nul_free value hvalue]
  · intro i name hi
    rw [← hrest] at hi
    cases i with
    | zero => simp at hi
    | succ i => exact Nat.succ_pos i
  · intro i module_name hi
    rw [← hrest] at hi
    cases i with
    | zero => simp at hi
    | succ i => exact Nat.succ_pos i
  · intro i h hi
    rw [← hrest] at hi
    cases i with
    | zero => simp at hi
    | succ i => exact Nat.succ_pos i

/-- C17, amended, at two concrete option maps: with "rocm" stored under the key
the first flag is "--iree-hal-target-backends=rocm"; with no such key it is
"--iree-hal-target-backends=llvm-cpu". -/
theorem compile_sets_target_flag_first_witness :
    (Compile iree_ep_jit.agreeableCompiler (iree_ep_rt.echoRuntime "local-task")
        [("other", "x"), ("hal_target_device", "rocm")] "/tmp/ort.vmfb" [] []).trace[0]? =
        some (Effect.SessionSetFlags ("--iree-hal-target-backends=" ++ "rocm")) ∧
      (Compile iree_ep_jit.agreeableCompiler (iree_ep_rt.echoRuntime "local-task")
        [("other", "x")] "/tmp/ort.vmfb" [] []).trace[0]? =
        some (Effect.SessionSetFlags "--iree-hal-target-backends=llvm-cpu") :=
  ⟨((compile_sets_target_flag_first iree_ep_jit.agreeableCompiler
      (iree_ep_rt.echoRuntime "local-task") [("other", "x"), ("hal_target_device", "rocm")]
      "/tmp/ort.vmfb" [] []).2.1 "rocm" (by decide) (by decide)).2 (by decide),
    (compile_sets_target_flag_first iree_ep_jit.agreeableCompiler
      (iree_ep_rt.echoRuntime "local-task") [("other", "x")] "/tmp/ort.vmfb" [] []).1
      (by decide)⟩

end IREEExecutionProvider

/-! ### The compiler output is destroyed exactly once (C18) -/

theorem outputDestroys_nil : outputDestroys [] = [] := rfl

theorem outputDestroys_append (t u : List Effect) :
    outputDestroys (t ++ u) = outputDestroys t ++ outputDestroys u := by
  simp [outputDestroys, List.filterMap_append]

theorem outputDestroys_cons (e : Effect) (t : List Effect) :
    outputDestroys (e :: t) =
      (match e with
        | Effect.OutputDestroy output => [output]
        | _ => []) ++ outputDestroys t := by
  cases e <;> simp [outputDestroys, List.filterMap_cons]

theorem outputDestroys_run (cb : DisposeCallback) (t : List Effect) :
    outputDestroys (cb.run t) =
      outputDestroys t ++
        (match cb with
          | DisposeCallback.destroyOutput local_output => local_output.toList
          | DisposeCallback.action _ => []) := by
  cases cb with
  | destroyOutput local_output =>
    cases local_output <;>
      simp [DisposeCallback.run, outputDestroys_append, outputDestroys_cons, outputDestroys_nil]
  | action tag => simp [DisposeCallback.run]

namespace iree_ep_rt

theorem outputDestroys_fresh_session (p : Option Handle) (t : List Effect) :
    outputDestroys (Session.destructor ⟨p, []⟩ t) = outputDestroys t := by
  cases p <;>
    simp [Session.destructor, Session.runDisposeCallbacks, outputDestroys_append,
      outputDestroys_cons, outputDestroys_nil]

theorem outputDestroys_loaded_session (p : Option Handle) (o : Option Handle)
    (t : List Effect) :
    outputDestroys (Session.destructor ⟨p, [DisposeCallback.destroyOutput o]⟩ t) =
      outputDestroys t ++ o.toList := by
  cases p <;>
    simp [Session.destructor, Session.runDisposeCallbacks, outputDestroys_run,
      outputDestroys_append, outputDestroys_cons, outputDestroys_nil]

theorem invokedCallbacks_cons (e : Effect) (t : List Effect) :
    invokedCallbacks (e :: t) =
      (match e with
        | Effect.CallbackInvoked cb => [cb]
        | _ => []) ++ invokedCallbacks t := by
  cases e <;> simp [invokedCallbacks, List.filterMap_cons]

end iree_ep_rt

namespace iree_ep_jit

theorem outputDestroys_setFlag (api : CompilerApi) (flag : String) (t : List Effect) :
    outputDestroys (CompilerSession.SetFlag api flag t).2 = outputDestroys t := by
  rw [setFlag_trace]
  simp [outputDestroys_append, outputDestroys_cons, outputDestroys_nil]

theorem outputDestroys_initialize (api : CompilerApi) (t : List Effect) :
    outputDestroys (CompilerSession.Initialize api t).2 = outputDestroys t := by
  unfold CompilerSession.Initialize
  simp only []
  split_ifs <;>
    simp [outputDestroys_setFlag, outputDestroys_append, outputDestroys_cons,
      outputDestroys_nil]

theorem outputDestroys_compileAndOutput (api : CompilerApi) (self : CompilerInvocation)
    (output : Option Handle) (vmfb_path : String) (t : List Effect) :
    outputDestroys (self.CompileAndOutputVMFB api output vmfb_path t).2.2 =
      outputDestroys t := by
  unfold CompilerInvocation.CompileAndOutputVMFB
  simp only []
  split_ifs
  · simp [outputDestroys_append, outputDestroys_cons, outputDestroys_nil]
  · split <;> simp [outputDestroys_append, outputDestroys_cons, outputDestroys_nil]

theorem outputDestroys_output_destructor (o : Option Handle) (t : List Effect) :
    outputDestroys (CompilerOutput.destructor ⟨o⟩ t) = outputDestroys t ++ o.toList := by
  cases o <;>
    simp [CompilerOutput.destructor, outputDestroys_append, outputDestroys_cons,
      outputDestroys_nil]

end iree_ep_jit

namespace IREEExecutionProvider

open iree_ep_jit

theorem outputDestroys_defines (fs : List String) :
    outputDestroys (fs.map Effect.DefineFunction) = [] := by
  induction fs with
  | nil => rfl
  | cons f rest ih => simp [outputDestroys_cons, ih]

theorem outputDestroys_importSubgraphs (m : String) (fused : List FusedNodeAndGraph)
    (inv : CompilerInvocation) (names : List String) (t : List Effect) :
    outputDestroys (importSubgraphs m fused inv names t).2.2.2 = outputDestroys t := by
  obtain ⟨fs, hfs⟩ := importSubgraphs_trace m fused inv names t
  rw [hfs, outputDestroys_append, outputDestroys_defines, List.append_nil]

end IREEExecutionProvider
namespace IREEExecutionProvider

open iree_ep_jit

theorem outputDestroys_lifetime (capi : CompilerApi) (rapi : iree_ep_rt.RuntimeApi)
    (info_ : ProviderOptions) (vmfb_path : String) (fused : List FusedNodeAndGraph)
    (node_compute_funcs : List NodeComputeInfo)
    (hflag : (CompilerSession.SetFlag capi (c_str (targetBackendFlag info_).1) []).1.IsOK = true)
    (hinit : (CompilerSession.Initialize capi
      (CompilerSession.SetFlag capi (c_str (targetBackendFlag info_).1) []).2).1.IsOK = true)
    (himport : (importSubgraphs "ort" fused (CompilerInvocation.create "ort") [] []).1.IsOK =
      true) :
    outputDestroys (compileThenTeardown capi rapi info_ vmfb_path fused node_compute_funcs) =
      capi.OutputOpenMembuffer.2.toList := by
  have himport' : (importSubgraphs "ort" fused (CompilerInvocation.create "ort") []
      ((CompilerSession.Initialize capi
        (CompilerSession.SetFlag capi (c_str (targetBackendFlag info_).1) []).2).2 ++
        [Effect.InvocationCreate "ort"])).1.IsOK = true := by
    rw [(importSubgraphs_trace_free "ort" fused _ _ _).1]
    exact himport
  have hbase : outputDestroys ((importSubgraphs "ort" fused (CompilerInvocation.create "ort") []
      ((CompilerSession.Initialize capi
        (CompilerSession.SetFlag capi (c_str (targetBackendFlag info_).1) []).2).2 ++
        [Effect.InvocationCreate "ort"])).2.2.2 ++
      [Effect.OutputOpenMembuffer capi.OutputOpenMembuffer.2]) = [] := by
    simp [outputDestroys_append, outputDestroys_importSubgraphs, outputDestroys_initialize,
      outputDestroys_setFlag, outputDestroys_cons, outputDestroys_nil]
  unfold compileThenTeardown Compile
  simp only [c_str_ort, hflag, hinit, himport', Bool.not_true, Bool.false_eq_true, if_false]
  split
  · simp [dropComputeFuncs, scopeExit, outputDestroys_append, outputDestroys_output_destructor,
      outputDestroys_cons, outputDestroys_nil, hbase]
  · split
    · simp [dropComputeFuncs, scopeExit, outputDestroys_append,
        outputDestroys_output_destructor, outputDestroys_compileAndOutput,
        outputDestroys_cons, outputDestroys_nil, hbase]
    · split
      · simp [dropComputeFuncs, scopeExit, outputDestroys_append, CompilerOutput.MapMemory,
          outputDestroys_output_destructor, outputDestroys_compileAndOutput,
          outputDestroys_cons, outputDestroys_nil, hbase]
      · split
        · simp [dropComputeFuncs, scopeExit, outputDestroys_append, CompilerOutput.MapMemory,
            iree_ep_rt.Session.Initialize, iree_ep_rt.Session.create,
            iree_ep_rt.outputDestroys_fresh_session,
            outputDestroys_output_destructor, outputDestroys_compileAndOutput,
            outputDestroys_cons, outputDestroys_nil, hbase]
        · split
          · simp [dropComputeFuncs, scopeExit, outputDestroys_append, CompilerOutput.MapMemory,
              iree_ep_rt.Session.Initialize, iree_ep_rt.Session.create,
              iree_ep_rt.Session.AppendBytecodeModule, CompilerOutput.Release,
              iree_ep_rt.outputDestroys_loaded_session,
              outputDestroys_output_destructor, outputDestroys_compileAndOutput,
              outputDestroys_cons, outputDestroys_nil, hbase]
          · rw [pushComputeFuncs_eq]
            simp only [List.drop_left]
            cases hnames : (importSubgraphs "ort" fused (CompilerInvocation.create "ort") []
                ((CompilerSession.Initialize capi
                  (CompilerSession.SetFlag capi (c_str (targetBackendFlag info_).1) []).2).2 ++
                  [Effect.InvocationCreate "ort"])).2.2.1 with
            | nil =>
              simp [dropComputeFuncs, scopeExit, outputDestroys_append,
                CompilerOutput.MapMemory,
                iree_ep_rt.Session.Initialize, iree_ep_rt.Session.create,
                iree_ep_rt.Session.AppendBytecodeModule, CompilerOutput.Release,
                iree_ep_rt.outputDestroys_loaded_session,
                outputDestroys_output_destructor, outputDestroys_compileAndOutput,
                outputDestroys_cons, outputDestroys_nil, hbase]
            | cons name rest =>
              simp [dropComputeFuncs, scopeExit, outputDestroys_append,
                CompilerOutput.MapMemory, CreateNodeComputeFunc,
                iree_ep_rt.Session.Initialize, iree_ep_rt.Session.create,
                iree_ep_rt.Session.AppendBytecodeModule, CompilerOutput.Release,
                iree_ep_rt.outputDestroys_loaded_session,
                outputDestroys_output_destructor, outputDestroys_compileAndOutput,
                outputDestroys_cons, outputDestroys_nil, hbase]

end IREEExecutionProvider
theorem moduleLoads_nil : moduleLoads [] = [] := rfl

theorem moduleLoads_append (t u : List Effect) :
    moduleLoads (t ++ u) = moduleLoads t ++ moduleLoads u := by
  simp [moduleLoads, List.filterMap_append]

theorem moduleLoads_cons (e : Effect) (t : List Effect) :
    moduleLoads (e :: t) =
      (match e with
        | Effect.AppendBytecodeModuleFromFile session path => [(session, path)]
        | _ => []) ++ moduleLoads t := by
  cases e <;> simp [moduleLoads, List.filterMap_cons]

theorem moduleLoads_run (cb : DisposeCallback) (t : List Effect) :
    moduleLoads (cb.run t) = moduleLoads t := by
  cases cb with
  | destroyOutput local_output =>
    cases local_output <;>
      simp [DisposeCallback.run, moduleLoads_append, moduleLoads_cons, moduleLoads_nil]
  | action tag => rfl

theorem invokedCallbacks_nil : invokedCallbacks [] = [] := rfl

namespace iree_ep_rt

theorem moduleLoads_runDisposeCallbacks (cbs : List DisposeCallback) (t : List Effect) :
    moduleLoads (Session.runDisposeCallbacks cbs t) = moduleLoads t := by
  induction cbs generalizing t with
  | nil => rfl
  | cons cb rest ih =>
    simp only [Session.runDisposeCallbacks]
    rw [ih, moduleLoads_run, moduleLoads_append]
    simp [moduleLoads_cons, moduleLoads_nil]

theorem moduleLoads_destructor (s : Session) (t : List Effect) :
    moduleLoads (s.destructor t) = moduleLoads t := by
  unfold Session.destructor
  rw [moduleLoads_runDisposeCallbacks]
  cases s.session <;> simp [moduleLoads_append, moduleLoads_cons, moduleLoads_nil]

theorem invokedCallbacks_destructor (s : Session) (t : List Effect) :
    invokedCallbacks (s.destructor t) = invokedCallbacks t ++ s.dispose_callbacks := by
  unfold Session.destructor
  rw [runDisposeCallbacks_invoked]
  cases s.session <;> simp [invokedCallbacks_append, invokedCallbacks_cons, invokedCallbacks_nil]

end iree_ep_rt

namespace iree_ep_jit

theorem moduleLoads_setFlag (api : CompilerApi) (flag : String) (t : List Effect) :
    moduleLoads (CompilerSession.SetFlag api flag t).2 = moduleLoads t := by
  rw [setFlag_trace]
  simp [moduleLoads_append, moduleLoads_cons, moduleLoads_nil]

theorem invokedCallbacks_setFlag (api : CompilerApi) (flag : String) (t : List Effect) :
    invokedCallbacks (CompilerSession.SetFlag api flag t).2 = invokedCallbacks t := by
  rw [setFlag_trace]
  simp [invokedCallbacks_append, iree_ep_rt.invokedCallbacks_cons, invokedCallbacks_nil]

theorem moduleLoads_initialize (api : CompilerApi) (t : List Effect) :
    moduleLoads (CompilerSession.Initialize api t).2 = moduleLoads t := by
  unfold CompilerSession.Initialize
  simp only []
  split_ifs <;>
    simp [moduleLoads_setFlag, moduleLoads_append, moduleLoads_cons, moduleLoads_nil]

theorem invokedCallbacks_initialize (api : CompilerApi) (t : List Effect) :
    invokedCallbacks (CompilerSession.Initialize api t).2 = invokedCallbacks t := by
  unfold CompilerSession.Initialize
  simp only []
  split_ifs <;>
    simp [invokedCallbacks_setFlag, invokedCallbacks_append, iree_ep_rt.invokedCallbacks_cons,
      invokedCallbacks_nil]

theorem moduleLoads_compileAndOutput (api : CompilerApi) (self : CompilerInvocation)
    (output : Option Handle) (vmfb_path : String) (t : List Effect) :
    moduleLoads (self.CompileAndOutputVMFB api output vmfb_path t).2.2 = moduleLoads t := by
  unfold CompilerInvocation.CompileAndOutputVMFB
  simp only []
  split_ifs
  · simp [moduleLoads_append, moduleLoads_cons, moduleLoads_nil]
  · split <;> simp [moduleLoads_append, moduleLoads_cons, moduleLoads_nil]

theorem invokedCallbacks_compileAndOutput (api : CompilerApi) (self : CompilerInvocation)
    (output : Option Handle) (vmfb_path : String) (t : List Effect) :
    invokedCallbacks (self.CompileAndOutputVMFB api output vmfb_path t).2.2 =
      invokedCallbacks t := by
  unfold CompilerInvocation.CompileAndOutputVMFB
  simp only []
  split_ifs
  · simp [invokedCallbacks_append, iree_ep_rt.invokedCallbacks_cons, invokedCallbacks_nil]
  · split <;>
      simp [invokedCallbacks_append, iree_ep_rt.invokedCallbacks_cons, invokedCallbacks_nil]

theorem moduleLoads_output_destructor (o : CompilerOutput) (t : List Effect) :
    moduleLoads (o.destructor t) = moduleLoads t := by
  unfold CompilerOutput.destructor
  cases o.output <;> simp [moduleLoads_append, moduleLoads_cons, moduleLoads_nil]

theorem invokedCallbacks_output_destructor (o : CompilerOutput) (t : List Effect) :
    invokedCallbacks (o.destructor t) = invokedCallbacks t := by
  unfold CompilerOutput.destructor
  cases o.output <;>
    simp [invokedCallbacks_append, iree_ep_rt.invokedCallbacks_cons, invokedCallbacks_nil]

end iree_ep_jit

namespace IREEExecutionProvider

open iree_ep_jit

theorem moduleLoads_defines (fs : List String) :
    moduleLoads (fs.map Effect.DefineFunction) = [] := by
  induction fs with
  | nil => rfl
  | cons f rest ih => simp [moduleLoads_cons, ih]

theorem invokedCallbacks_defines (fs : List String) :
    invokedCallbacks (fs.map Effect.DefineFunction) = [] := by
  induction fs with
  | nil => rfl
  | cons f rest ih => simp [iree_ep_rt.invokedCallbacks_cons, ih]

theorem moduleLoads_importSubgraphs (m : String) (fused : List FusedNodeAndGraph)
    (inv : CompilerInvocation) (names : List String) (t : List Effect) :
    moduleLoads (importSubgraphs m fused inv names t).2.2.2 = moduleLoads t := by
  obtain ⟨fs, hfs⟩ := importSubgraphs_trace m fused inv names t
  rw [hfs, moduleLoads_append, moduleLoads_defines, List.append_nil]

theorem invokedCallbacks_importSubgraphs (m : String) (fused : List FusedNodeAndGraph)
    (inv : CompilerInvocation) (names : List String) (t : List Effect) :
    invokedCallbacks (importSubgraphs m fused inv names t).2.2.2 = invokedCallbacks t := by
  obtain ⟨fs, hfs⟩ := importSubgraphs_trace m fused inv names t
  rw [hfs, invokedCallbacks_append, invokedCallbacks_defines, List.append_nil]

end IREEExecutionProvider

namespace IREEExecutionProvider

open iree_ep_jit

theorem callbacks_lifetime (capi : CompilerApi) (rapi : iree_ep_rt.RuntimeApi)
    (info_ : ProviderOptions) (vmfb_path : String) (fused : List FusedNodeAndGraph)
    (node_compute_funcs : List NodeComputeInfo)
    (hflag : (CompilerSession.SetFlag capi (c_str (targetBackendFlag info_).1) []).1.IsOK = true)
    (hinit : (CompilerSession.Initialize capi
      (CompilerSession.SetFlag capi (c_str (targetBackendFlag info_).1) []).2).1.IsOK = true)
    (himport : (importSubgraphs "ort" fused (CompilerInvocation.create "ort") [] []).1.IsOK =
      true) :
    (moduleLoads (Compile capi rapi info_ vmfb_path fused node_compute_funcs).trace = [] →
        invokedCallbacks
          (compileThenTeardown capi rapi info_ vmfb_path fused node_compute_funcs) = [] ∧
        outputDestroys (Compile capi rapi info_ vmfb_path fused node_compute_funcs).trace =
          capi.OutputOpenMembuffer.2.toList) ∧
      (moduleLoads (Compile capi rapi info_ vmfb_path fused node_compute_funcs).trace ≠ [] →
        invokedCallbacks
          (compileThenTeardown capi rapi info_ vmfb_path fused node_compute_funcs) =
          [DisposeCallback.destroyOutput capi.OutputOpenMembuffer.2]) ∧
      ((Compile capi rapi info_ vmfb_path fused node_compute_funcs).status.IsOK = false →
        compileThenTeardown capi rapi info_ vmfb_path fused node_compute_funcs =
          (Compile capi rapi info_ vmfb_path fused node_compute_funcs).trace) ∧
      ((Compile capi rapi info_ vmfb_path fused node_compute_funcs).status.IsOK = true →
        fused ≠ [] →
        outputDestroys (Compile capi rapi info_ vmfb_path fused node_compute_funcs).trace = [] ∧
        invokedCallbacks (Compile capi rapi info_ vmfb_path fused node_compute_funcs).trace =
          [] ∧
        (∀ c ∈ (Compile capi rapi info_ vmfb_path fused
            node_compute_funcs).node_compute_funcs.drop node_compute_funcs.length,
          c.session = ⟨rapi.session_create_with_device.2,
            [DisposeCallback.destroyOutput capi.OutputOpenMembuffer.2]⟩) ∧
        compileThenTeardown capi rapi info_ vmfb_path fused node_compute_funcs =
          iree_ep_rt.Session.destructor
            ⟨rapi.session_create_with_device.2,
              [DisposeCallback.destroyOutput capi.OutputOpenMembuffer.2]⟩
            (Compile capi rapi info_ vmfb_path fused node_compute_funcs).trace) ∧
      ((Compile capi rapi info_ vmfb_path fused node_compute_funcs).status.IsOK = true →
        moduleLoads (Compile capi rapi info_ vmfb_path fused node_compute_funcs).trace =
          [(rapi.session_create_with_device.2, c_str vmfb_path)]) := by
  have himport' : (importSubgraphs "ort" fused (CompilerInvocation.create "ort") []
      ((CompilerSession.Initialize capi
        (CompilerSession.SetFlag capi (c_str (targetBackendFlag info_).1) []).2).2 ++
        [Effect.InvocationCreate "ort"])).1.IsOK = true := by
    rw [(importSubgraphs_trace_free "ort" fused _ _ _).1]
    exact himport
  have hnames := (importSubgraphs_ok "ort" fused (CompilerInvocation.create "ort") []
      ((CompilerSession.Initialize capi
        (CompilerSession.SetFlag capi (c_str (targetBackendFlag info_).1) []).2).2 ++
        [Effect.InvocationCreate "ort"]) himport').1
  have hbaseD : outputDestroys ((importSubgraphs "ort" fused (CompilerInvocation.create "ort") []
      ((CompilerSession.Initialize capi
        (CompilerSession.SetFlag capi (c_str (targetBackendFlag info_).1) []).2).2 ++
        [Effect.InvocationCreate "ort"])).2.2.2 ++
      [Effect.OutputOpenMembuffer capi.OutputOpenMembuffer.2]) = [] := by
    simp [outputDestroys_append, outputDestroys_importSubgraphs, outputDestroys_initialize,
      outputDestroys_setFlag, outputDestroys_cons, outputDestroys_nil]
  have hbaseC : invokedCallbacks ((importSubgraphs "ort" fused (CompilerInvocation.create "ort") []
      ((CompilerSession.Initialize capi
        (CompilerSession.SetFlag capi (c_str (targetBackendFlag info_).1) []).2).2 ++
        [Effect.InvocationCreate "ort"])).2.2.2 ++
      [Effect.OutputOpenMembuffer capi.OutputOpenMembuffer.2]) = [] := by
    simp [invokedCallbacks_append, invokedCallbacks_importSubgraphs, invokedCallbacks_initialize,
      invokedCallbacks_setFlag, iree_ep_rt.invokedCallbacks_cons, invokedCallbacks_nil]
  have hbaseL : moduleLoads ((importSubgraphs "ort" fused (CompilerInvocation.create "ort") []
      ((CompilerSession.Initialize capi
        (CompilerSession.SetFlag capi (c_str (targetBackendFlag info_).1) []).2).2 ++
        [Effect.InvocationCreate "ort"])).2.2.2 ++
      [Effect.OutputOpenMembuffer capi.OutputOpenMembuffer.2]) = [] := by
    simp [moduleLoads_append, moduleLoads_importSubgraphs, moduleLoads_initialize,
      moduleLoads_setFlag, moduleLoads_cons, moduleLoads_nil]
  unfold compileThenTeardown Compile
  simp only [c_str_ort, hflag, hinit, himport', Bool.not_true, Bool.false_eq_true, if_false]
  split
  · refine ⟨?_, ?_, ?_, ?_, ?_⟩
    · simp [dropComputeFuncs, scopeExit,
        CompilerOutput.MapMemory, CreateNodeComputeFunc,
        iree_ep_rt.Session.Initialize, iree_ep_rt.Session.create,
        iree_ep_rt.Session.AppendBytecodeModule, CompilerOutput.Release,
        iree_ep_rt.outputDestroys_fresh_session, iree_ep_rt.outputDestroys_loaded_session,
        outputDestroys_append, outputDestroys_output_destructor,
        outputDestroys_compileAndOutput, outputDestroys_cons, outputDestroys_nil, hbaseD,
        invokedCallbacks_append, invokedCallbacks_output_destructor,
        invokedCallbacks_compileAndOutput, iree_ep_rt.invokedCallbacks_destructor,
        iree_ep_rt.invokedCallbacks_cons, invokedCallbacks_nil, hbaseC,
        moduleLoads_append, moduleLoads_output_destructor, moduleLoads_compileAndOutput,
        iree_ep_rt.moduleLoads_destructor, moduleLoads_cons, moduleLoads_nil, hbaseL]
    · simp [dropComputeFuncs, scopeExit,
        CompilerOutput.MapMemory, CreateNodeComputeFunc,
        iree_ep_rt.Session.Initialize, iree_ep_rt.Session.create,
        iree_ep_rt.Session.AppendBytecodeModule, CompilerOutput.Release,
        iree_ep_rt.outputDestroys_fresh_session, iree_ep_rt.outputDestroys_loaded_session,
        outputDestroys_append, outputDestroys_output_destructor,
        outputDestroys_compileAndOutput, outputDestroys_cons, outputDestroys_nil, hbaseD,
        invokedCallbacks_append, invokedCallbacks_output_destructor,
        invokedCallbacks_compileAndOutput, iree_ep_rt.invokedCallbacks_destructor,
        iree_ep_rt.invokedCallbacks_cons, invokedCallbacks_nil, hbaseC,
        moduleLoads_append, moduleLoads_output_destructor, moduleLoads_compileAndOutput,
        iree_ep_rt.moduleLoads_destructor, moduleLoads_cons, moduleLoads_nil, hbaseL]
    · intro _
      simp [dropComputeFuncs]
    · intro hok
      simp [ErrorToStatus, ORT_MAKE_STATUS, Status.IsOK] at hok
    · intro hok
      simp [ErrorToStatus, ORT_MAKE_STATUS, Status.IsOK] at hok
  · split
    · rename_i hc
      simp only [Bool.not_eq_true'] at hc
      refine ⟨?_, ?_, ?_, ?_, ?_⟩
      · simp [dropComputeFuncs, scopeExit,
          CompilerOutput.MapMemory, CreateNodeComputeFunc,
          iree_ep_rt.Session.Initialize, iree_ep_rt.Session.create,
          iree_ep_rt.Session.AppendBytecodeModule, CompilerOutput.Release,
          iree_ep_rt.outputDestroys_fresh_session, iree_ep_rt.outputDestroys_loaded_session,
          outputDestroys_append, outputDestroys_output_destructor,
          outputDestroys_compileAndOutput, outputDestroys_cons, outputDestroys_nil, hbaseD,
          invokedCallbacks_append, invokedCallbacks_output_destructor,
          invokedCallbacks_compileAndOutput, iree_ep_rt.invokedCallbacks_destructor,
          iree_ep_rt.invokedCallbacks_cons, invokedCallbacks_nil, hbaseC,
          moduleLoads_append, moduleLoads_output_destructor, moduleLoads_compileAndOutput,
          iree_ep_rt.moduleLoads_destructor, moduleLoads_cons, moduleLoads_nil, hbaseL]
      · simp [dropComputeFuncs, scopeExit,
          CompilerOutput.MapMemory, CreateNodeComputeFunc,
          iree_ep_rt.Session.Initialize, iree_ep_rt.Session.create,
          iree_ep_rt.Session.AppendBytecodeModule, CompilerOutput.Release,
          iree_ep_rt.outputDestroys_fresh_session, iree_ep_rt.outputDestroys_loaded_session,
          outputDestroys_append, outputDestroys_output_destructor,
          outputDestroys_compileAndOutput, outputDestroys_cons, outputDestroys_nil, hbaseD,
          invokedCallbacks_append, invokedCallbacks_output_destructor,
          invokedCallbacks_compileAndOutput, iree_ep_rt.invokedCallbacks_destructor,
          iree_ep_rt.invokedCallbacks_cons, invokedCallbacks_nil, hbaseC,
          moduleLoads_append, moduleLoads_output_destructor, moduleLoads_compileAndOutput,
          iree_ep_rt.moduleLoads_destructor, moduleLoads_cons, moduleLoads_nil, hbaseL]
      · intro _
        simp [dropComputeFuncs]
      · intro hok
        simp [hc] at hok
      · intro hok
        simp [hc] at hok
    · split
      · rename_i hc hm
        simp only [Bool.not_eq_true'] at hm
        refine ⟨?_, ?_, ?_, ?_, ?_⟩
        · simp [dropComputeFuncs, scopeExit,
            CompilerOutput.MapMemory, CreateNodeComputeFunc,
            iree_ep_rt.Session.Initialize, iree_ep_rt.Session.create,
            iree_ep_rt.Session.AppendBytecodeModule, CompilerOutput.Release,
            iree_ep_rt.outputDestroys_fresh_session, iree_ep_rt.outputDestroys_loaded_session,
            outputDestroys_append, outputDestroys_output_destructor,
            outputDestroys_compileAndOutput, outputDestroys_cons, outputDestroys_nil, hbaseD,
            invokedCallbacks_append, invokedCallbacks_output_destructor,
            invokedCallbacks_compileAndOutput, iree_ep_rt.invokedCallbacks_destructor,
            iree_ep_rt.invokedCallbacks_cons, invokedCallbacks_nil, hbaseC,
            moduleLoads_append, moduleLoads_output_destructor, moduleLoads_compileAndOutput,
            iree_ep_rt.moduleLoads_destructor, moduleLoads_cons, moduleLoads_nil, hbaseL]
        · simp [dropComputeFuncs, scopeExit,
            CompilerOutput.MapMemory, CreateNodeComputeFunc,
            iree_ep_rt.Session.Initialize, iree_ep_rt.Session.create,
            iree_ep_rt.Session.AppendBytecodeModule, CompilerOutput.Release,
            iree_ep_rt.outputDestroys_fresh_session, iree_ep_rt.outputDestroys_loaded_session,
            outputDestroys_append, outputDestroys_output_destructor,
            outputDestroys_compileAndOutput, outputDestroys_cons, outputDestroys_nil, hbaseD,
            invokedCallbacks_append, invokedCallbacks_output_destructor,
            invokedCallbacks_compileAndOutput, iree_ep_rt.invokedCallbacks_destructor,
            iree_ep_rt.invokedCallbacks_cons, invokedCallbacks_nil, hbaseC,
            moduleLoads_append, moduleLoads_output_destructor, moduleLoads_compileAndOutput,
            iree_ep_rt.moduleLoads_destructor, moduleLoads_cons, moduleLoads_nil, hbaseL]
        · intro _
          simp [dropComputeFuncs]
        · intro hok
          simp [hm] at hok
        · intro hok
          simp [hm] at hok
      · split
        · rename_i hc hm hs
          simp only [Bool.not_eq_true'] at hs
          refine ⟨?_, ?_, ?_, ?_, ?_⟩
          · simp [dropComputeFuncs, scopeExit,
              CompilerOutput.MapMemory, CreateNodeComputeFunc,
              iree_ep_rt.Session.Initialize, iree_ep_rt.Session.create,
              iree_ep_rt.Session.AppendBytecodeModule, CompilerOutput.Release,
              iree_ep_rt.outputDestroys_fresh_session, iree_ep_rt.outputDestroys_loaded_session,
              outputDestroys_append, outputDestroys_output_destructor,
              outputDestroys_compileAndOutput, outputDestroys_cons, outputDestroys_nil, hbaseD,
              invokedCallbacks_append, invokedCallbacks_output_destructor,
              invokedCallbacks_compileAndOutput, iree_ep_rt.invokedCallbacks_destructor,
              iree_ep_rt.invokedCallbacks_cons, invokedCallbacks_nil, hbaseC,
              moduleLoads_append, moduleLoads_output_destructor, moduleLoads_compileAndOutput,
              iree_ep_rt.moduleLoads_destructor, moduleLoads_cons, moduleLoads_nil, hbaseL]
          · simp [dropComputeFuncs, scopeExit,
              CompilerOutput.MapMemory, CreateNodeComputeFunc,
              iree_ep_rt.Session.Initialize, iree_ep_rt.Session.create,
              iree_ep_rt.Session.AppendBytecodeModule, CompilerOutput.Release,
              iree_ep_rt.outputDestroys_fresh_session, iree_ep_rt.outputDestroys_loaded_session,
              outputDestroys_append, outputDestroys_output_destructor,
              outputDestroys_compileAndOutput, outputDestroys_cons, outputDestroys_nil, hbaseD,
              invokedCallbacks_append, invokedCallbacks_output_destructor,
              invokedCallbacks_compileAndOutput, iree_ep_rt.invokedCallbacks_destructor,
              iree_ep_rt.invokedCallbacks_cons, invokedCallbacks_nil, hbaseC,
              moduleLoads_append, moduleLoads_output_destructor, moduleLoads_compileAndOutput,
              iree_ep_rt.moduleLoads_destructor, moduleLoads_cons, moduleLoads_nil, hbaseL]
          · intro _
            simp [dropComputeFuncs]
          · intro hok
            simp [hs] at hok
          · intro hok
            simp [hs] at hok
        · split
          · rename_i hc hm hs ha
            simp only [Bool.not_eq_true'] at ha
            refine ⟨?_, ?_, ?_, ?_, ?_⟩
            · simp [dropComputeFuncs, scopeExit,
                CompilerOutput.MapMemory, CreateNodeComputeFunc,
                iree_ep_rt.Session.Initialize, iree_ep_rt.Session.create,
                iree_ep_rt.Session.AppendBytecodeModule, CompilerOutput.Release,
                iree_ep_rt.outputDestroys_fresh_session, iree_ep_rt.outputDestroys_loaded_session,
                outputDestroys_append, outputDestroys_output_destructor,
                outputDestroys_compileAndOutput, outputDestroys_cons, outputDestroys_nil, hbaseD,
                invokedCallbacks_append, invokedCallbacks_output_destructor,
                invokedCallbacks_compileAndOutput, iree_ep_rt.invokedCallbacks_destructor,
                iree_ep_rt.invokedCallbacks_cons, invokedCallbacks_nil, hbaseC,
                moduleLoads_append, moduleLoads_output_destructor, moduleLoads_compileAndOutput,
                iree_ep_rt.moduleLoads_destructor, moduleLoads_cons, moduleLoads_nil, hbaseL]
            · simp [dropComputeFuncs, scopeExit,
                CompilerOutput.MapMemory, CreateNodeComputeFunc,
                iree_ep_rt.Session.Initialize, iree_ep_rt.Session.create,
                iree_ep_rt.Session.AppendBytecodeModule, CompilerOutput.Release,
                iree_ep_rt.outputDestroys_fresh_session, iree_ep_rt.outputDestroys_loaded_session,
                outputDestroys_append, outputDestroys_output_destructor,
                outputDestroys_compileAndOutput, outputDestroys_cons, outputDestroys_nil, hbaseD,
                invokedCallbacks_append, invokedCallbacks_output_destructor,
                invokedCallbacks_compileAndOutput, iree_ep_rt.invokedCallbacks_destructor,
                iree_ep_rt.invokedCallbacks_cons, invokedCallbacks_nil, hbaseC,
                moduleLoads_append, moduleLoads_output_destructor, moduleLoads_compileAndOutput,
                iree_ep_rt.moduleLoads_destructor, moduleLoads_cons, moduleLoads_nil, hbaseL]
            · intro _
              simp [dropComputeFuncs]
            · intro hok
              simp [ha] at hok
            · intro hok
              simp [ha] at hok
          · rw [pushComputeFuncs_eq, hnames]
            simp only [List.drop_left, List.nil_append]
            cases fused with
            | nil =>
              refine ⟨?_, ?_, ?_, ?_, ?_⟩
              · simp [dropComputeFuncs, scopeExit,
                  CompilerOutput.MapMemory, CreateNodeComputeFunc,
                  iree_ep_rt.Session.Initialize, iree_ep_rt.Session.create,
                  iree_ep_rt.Session.AppendBytecodeModule, CompilerOutput.Release,
                  iree_ep_rt.outputDestroys_fresh_session, iree_ep_rt.outputDestroys_loaded_session,
                  outputDestroys_append, outputDestroys_output_destructor,
                  outputDestroys_compileAndOutput, outputDestroys_cons, outputDestroys_nil, hbaseD,
                  invokedCallbacks_append, invokedCallbacks_output_destructor,
                  invokedCallbacks_compileAndOutput, iree_ep_rt.invokedCallbacks_destructor,
                  iree_ep_rt.invokedCallbacks_cons, invokedCallbacks_nil, hbaseC,
                  moduleLoads_append, moduleLoads_output_destructor, moduleLoads_compileAndOutput,
                  iree_ep_rt.moduleLoads_destructor, moduleLoads_cons, moduleLoads_nil, hbaseL]
              · intro _
                simp [dropComputeFuncs, scopeExit,
                  CompilerOutput.MapMemory, CreateNodeComputeFunc,
                  iree_ep_rt.Session.Initialize, iree_ep_rt.Session.create,
                  iree_ep_rt.Session.AppendBytecodeModule, CompilerOutput.Release,
                  iree_ep_rt.outputDestroys_fresh_session, iree_ep_rt.outputDestroys_loaded_session,
                  outputDestroys_append, outputDestroys_output_destructor,
                  outputDestroys_compileAndOutput, outputDestroys_cons, outputDestroys_nil, hbaseD,
                  invokedCallbacks_append, invokedCallbacks_output_destructor,
                  invokedCallbacks_compileAndOutput, iree_ep_rt.invokedCallbacks_destructor,
                  iree_ep_rt.invokedCallbacks_cons, invokedCallbacks_nil, hbaseC,
                  moduleLoads_append, moduleLoads_output_destructor, moduleLoads_compileAndOutput,
                  iree_ep_rt.moduleLoads_destructor, moduleLoads_cons, moduleLoads_nil, hbaseL]
              · intro hok
                simp [Status.OK, Status.IsOK] at hok
              · intro _ hne
                exact absurd rfl hne
              · intro _
                simp [dropComputeFuncs, scopeExit,
                  CompilerOutput.MapMemory, CreateNodeComputeFunc,
                  iree_ep_rt.Session.Initialize, iree_ep_rt.Session.create,
                  iree_ep_rt.Session.AppendBytecodeModule, CompilerOutput.Release,
                  iree_ep_rt.outputDestroys_fresh_session, iree_ep_rt.outputDestroys_loaded_session,
                  outputDestroys_append, outputDestroys_output_destructor,
                  outputDestroys_compileAndOutput, outputDestroys_cons, outputDestroys_nil, hbaseD,
                  invokedCallbacks_append, invokedCallbacks_output_destructor,
                  invokedCallbacks_compileAndOutput, iree_ep_rt.invokedCallbacks_destructor,
                  iree_ep_rt.invokedCallbacks_cons, invokedCallbacks_nil, hbaseC,
                  moduleLoads_append, moduleLoads_output_destructor, moduleLoads_compileAndOutput,
                  iree_ep_rt.moduleLoads_destructor, moduleLoads_cons, moduleLoads_nil, hbaseL]
            | cons f rest =>
              refine ⟨?_, ?_, ?_, ?_, ?_⟩
              · simp [dropComputeFuncs, scopeExit,
                  CompilerOutput.MapMemory, CreateNodeComputeFunc,
                  iree_ep_rt.Session.Initialize, iree_ep_rt.Session.create,
                  iree_ep_rt.Session.AppendBytecodeModule, CompilerOutput.Release,
                  iree_ep_rt.outputDestroys_fresh_session, iree_ep_rt.outputDestroys_loaded_session,
                  outputDestroys_append, outputDestroys_output_destructor,
                  outputDestroys_compileAndOutput, outputDestroys_cons, outputDestroys_nil, hbaseD,
                  invokedCallbacks_append, invokedCallbacks_output_destructor,
                  invokedCallbacks_compileAndOutput, iree_ep_rt.invokedCallbacks_destructor,
                  iree_ep_rt.invokedCallbacks_cons, invokedCallbacks_nil, hbaseC,
                  moduleLoads_append, moduleLoads_output_destructor, moduleLoads_compileAndOutput,
                  iree_ep_rt.moduleLoads_destructor, moduleLoads_cons, moduleLoads_nil, hbaseL]
              · intro _
                simp [dropComputeFuncs, scopeExit,
                  CompilerOutput.MapMemory, CreateNodeComputeFunc,
                  iree_ep_rt.Session.Initialize, iree_ep_rt.Session.create,
                  iree_ep_rt.Session.AppendBytecodeModule, CompilerOutput.Release,
                  iree_ep_rt.outputDestroys_fresh_session, iree_ep_rt.outputDestroys_loaded_session,
                  outputDestroys_append, outputDestroys_output_destructor,
                  outputDestroys_compileAndOutput, outputDestroys_cons, outputDestroys_nil, hbaseD,
                  invokedCallbacks_append, invokedCallbacks_output_destructor,
                  invokedCallbacks_compileAndOutput, iree_ep_rt.invokedCallbacks_destructor,
                  iree_ep_rt.invokedCallbacks_cons, invokedCallbacks_nil, hbaseC,
                  moduleLoads_append, moduleLoads_output_destructor, moduleLoads_compileAndOutput,
                  iree_ep_rt.moduleLoads_destructor, moduleLoads_cons, moduleLoads_nil, hbaseL]
              · intro hok
                simp [Status.OK, Status.IsOK] at hok
              · intro _ _
                refine ⟨?_, ?_, ?_, ?_⟩
                · simp [dropComputeFuncs, scopeExit,
                    CompilerOutput.MapMemory, CreateNodeComputeFunc,
                    iree_ep_rt.Session.Initialize, iree_ep_rt.Session.create,
                    iree_ep_rt.Session.AppendBytecodeModule, CompilerOutput.Release,
                    iree_ep_rt.outputDestroys_fresh_session, iree_ep_rt.outputDestroys_loaded_session,
                    outputDestroys_append, outputDestroys_output_destructor,
                    outputDestroys_compileAndOutput, outputDestroys_cons, outputDestroys_nil, hbaseD,
                    invokedCallbacks_append, invokedCallbacks_output_destructor,
                    invokedCallbacks_compileAndOutput, iree_ep_rt.invokedCallbacks_destructor,
                    iree_ep_rt.invokedCallbacks_cons, invokedCallbacks_nil, hbaseC,
                    moduleLoads_append, moduleLoads_output_destructor, moduleLoads_compileAndOutput,
                    iree_ep_rt.moduleLoads_destructor, moduleLoads_cons, moduleLoads_nil, hbaseL]
                · simp [dropComputeFuncs, scopeExit,
                    CompilerOutput.MapMemory, CreateNodeComputeFunc,
                    iree_ep_rt.Session.Initialize, iree_ep_rt.Session.create,
                    iree_ep_rt.Session.AppendBytecodeModule, CompilerOutput.Release,
                    iree_ep_rt.outputDestroys_fresh_session, iree_ep_rt.outputDestroys_loaded_session,
                    outputDestroys_append, outputDestroys_output_destructor,
                    outputDestroys_compileAndOutput, outputDestroys_cons, outputDestroys_nil, hbaseD,
                    invokedCallbacks_append, invokedCallbacks_output_destructor,
                    invokedCallbacks_compileAndOutput, iree_ep_rt.invokedCallbacks_destructor,
                    iree_ep_rt.invokedCallbacks_cons, invokedCallbacks_nil, hbaseC,
                    moduleLoads_append, moduleLoads_output_destructor, moduleLoads_compileAndOutput,
                    iree_ep_rt.moduleLoads_destructor, moduleLoads_cons, moduleLoads_nil, hbaseL]
                · intro c hc
                  simp [dropComputeFuncs, scopeExit,
                    CompilerOutput.MapMemory, CreateNodeComputeFunc,
                    iree_ep_rt.Session.Initialize, iree_ep_rt.Session.create,
                    iree_ep_rt.Session.AppendBytecodeModule, CompilerOutput.Release,
                    iree_ep_rt.outputDestroys_fresh_session, iree_ep_rt.outputDestroys_loaded_session,
                    outputDestroys_append, outputDestroys_output_destructor,
                    outputDestroys_compileAndOutput, outputDestroys_cons, outputDestroys_nil, hbaseD,
                    invokedCallbacks_append, invokedCallbacks_output_destructor,
                    invokedCallbacks_compileAndOutput, iree_ep_rt.invokedCallbacks_destructor,
                    iree_ep_rt.invokedCallbacks_cons, invokedCallbacks_nil, hbaseC,
                    moduleLoads_append, moduleLoads_output_destructor, moduleLoads_compileAndOutput,
                    iree_ep_rt.moduleLoads_destructor, moduleLoads_cons, moduleLoads_nil, hbaseL] at hc
                  rcases hc with h | ⟨g, _, h⟩
                  · rw [h]
                  · rw [← h]
                · simp [dropComputeFuncs, scopeExit,
                    CompilerOutput.MapMemory, CreateNodeComputeFunc,
                    iree_ep_rt.Session.Initialize, iree_ep_rt.Session.create,
                    iree_ep_rt.Session.AppendBytecodeModule, CompilerOutput.Release,
                    iree_ep_rt.outputDestroys_fresh_session, iree_ep_rt.outputDestroys_loaded_session,
                    outputDestroys_append, outputDestroys_output_destructor,
                    outputDestroys_compileAndOutput, outputDestroys_cons, outputDestroys_nil, hbaseD,
                    invokedCallbacks_append, invokedCallbacks_output_destructor,
                    invokedCallbacks_compileAndOutput, iree_ep_rt.invokedCallbacks_destructor,
                    iree_ep_rt.invokedCallbacks_cons, invokedCallbacks_nil, hbaseC,
                    moduleLoads_append, moduleLoads_output_destructor, moduleLoads_compileAndOutput,
                    iree_ep_rt.moduleLoads_destructor, moduleLoads_cons, moduleLoads_nil, hbaseL]
              · intro _
                simp [dropComputeFuncs, scopeExit,
                  CompilerOutput.MapMemory, CreateNodeComputeFunc,
                  iree_ep_rt.Session.Initialize, iree_ep_rt.Session.create,
                  iree_ep_rt.Session.AppendBytecodeModule, CompilerOutput.Release,
                  iree_ep_rt.outputDestroys_fresh_session, iree_ep_rt.outputDestroys_loaded_session,
                  outputDestroys_append, outputDestroys_output_destructor,
                  outputDestroys_compileAndOutput, outputDestroys_cons, outputDestroys_nil, hbaseD,
                  invokedCallbacks_append, invokedCallbacks_output_destructor,
                  invokedCallbacks_compileAndOutput, iree_ep_rt.invokedCallbacks_destructor,
                  iree_ep_rt.invokedCallbacks_cons, invokedCallbacks_nil, hbaseC,
                  moduleLoads_append, moduleLoads_output_destructor, moduleLoads_compileAndOutput,
                  iree_ep_rt.moduleLoads_destructor, moduleLoads_cons, moduleLoads_nil, hbaseL]

end IREEExecutionProvider

namespace IREEExecutionProvider

open iree_ep_jit

/-- C18: take a compile request that gets as far as opening its compiler
output (flags, session initialization and all imports succeed), and follow it
through `Compile` and the later drop of the compute functions it produced.
The output handle is destroyed exactly once when it is not null and never when
it is null.  While `Compile` has not reached the module load, whose argument
is `Release()`, no callback is ever run and the destroy is made inside
`Compile`, by the wrapper's destructor.  Once it has, the one callback run
over the whole life is the one `Release` returned, run once, at the teardown
of the session.  A request that fails has done all of this by the time it
returns.  A request that succeeds has reached the module load; when it has
compute functions, the trace of `Compile` itself shows no destroy and no
callback, every compute function produced holds the session on which that
callback alone is registered, and the rest of the life is the destructor of
that session.  `Release` leaves null in the wrapper, whose destructor then
destroys nothing, and the callback destroys the old handle once when run; for
a null handle neither the destructor nor the callback destroys anything. -/
theorem compiler_output_destroyed_once (capi : CompilerApi) (rapi : iree_ep_rt.RuntimeApi)
    (info_ : ProviderOptions) (vmfb_path : String) (fused : List FusedNodeAndGraph)
    (node_compute_funcs : List NodeComputeInfo)
    (hflag : (CompilerSession.SetFlag capi (c_str (targetBackendFlag info_).1) []).1.IsOK = true)
    (hinit : (CompilerSession.Initialize capi
      (CompilerSession.SetFlag capi (c_str (targetBackendFlag info_).1) []).2).1.IsOK = true)
    (himport : (importSubgraphs "ort" fused (CompilerInvocation.create "ort") [] []).1.IsOK =
      true) :
    (∀ h : Handle, capi.OutputOpenMembuffer.2 = some h →
        outputDestroys
          (compileThenTeardown capi rapi info_ vmfb_path fused node_compute_funcs) = [h]) ∧
      (capi.OutputOpenMembuffer.2 = none →
        outputDestroys
          (compileThenTeardown capi rapi info_ vmfb_path fused node_compute_funcs) = []) ∧
      (moduleLoads (Compile capi rapi info_ vmfb_path fused node_compute_funcs).trace = [] →
        invokedCallbacks
          (compileThenTeardown capi rapi info_ vmfb_path fused node_compute_funcs) = [] ∧
        outputDestroys (Compile capi rapi info_ vmfb_path fused node_compute_funcs).trace =
          capi.OutputOpenMembuffer.2.toList) ∧
      (moduleLoads (Compile capi rapi info_ vmfb_path fused node_compute_funcs).trace ≠ [] →
        invokedCallbacks
          (compileThenTeardown capi rapi info_ vmfb_path fused node_compute_funcs) =
          [(CompilerOutput.Release ⟨capi.OutputOpenMembuffer.2⟩).1]) ∧
      ((Compile capi rapi info_ vmfb_path fused node_compute_funcs).status.IsOK = false →
        compileThenTeardown capi rapi info_ vmfb_path fused node_compute_funcs =
          (Compile capi rapi info_ vmfb_path fused node_compute_funcs).trace) ∧
      ((Compile capi rapi info_ vmfb_path fused node_compute_funcs).status.IsOK = true →
        moduleLoads (Compile capi rapi info_ vmfb_path fused node_compute_funcs).trace =
          [(rapi.session_create_with_device.2, c_str vmfb_path)]) ∧
      ((Compile capi rapi info_ vmfb_path fused node_compute_funcs).status.IsOK = true →
        fused ≠ [] →
        outputDestroys (Compile capi rapi info_ vmfb_path fused node_compute_funcs).trace = [] ∧
        invokedCallbacks (Compile capi rapi info_ vmfb_path fused node_compute_funcs).trace =
          [] ∧
        (∀ c ∈ (Compile capi rapi info_ vmfb_path fused
            node_compute_funcs).node_compute_funcs.drop node_compute_funcs.length,
          c.session = ⟨rapi.session_create_with_device.2,
            [(CompilerOutput.Release ⟨capi.OutputOpenMembuffer.2⟩).1]⟩) ∧
        compileThenTeardown capi rapi info_ vmfb_path fused node_compute_funcs =
          iree_ep_rt.Session.destructor
            ⟨rapi.session_create_with_device.2,
              [(CompilerOutput.Release ⟨capi.OutputOpenMembuffer.2⟩).1]⟩
            (Compile capi rapi info_ vmfb_path fused node_compute_funcs).trace) ∧
      (∀ o : CompilerOutput, o.Release.2.output = none ∧
        o.Release.1 = DisposeCallback.destroyOutput o.output ∧
        ∀ t, o.Release.2.destructor t = t) ∧
      (∀ (h : Handle) (t : List Effect),
        outputDestroys ((CompilerOutput.Release ⟨some h⟩).1.run t) = outputDestroys t ++ [h]) ∧
      (∀ t : List Effect, CompilerOutput.destructor ⟨none⟩ t = t) ∧
      (∀ t : List Effect, (CompilerOutput.Release ⟨none⟩).1.run t = t) := by
  have hlife := outputDestroys_lifetime capi rapi info_ vmfb_path fused node_compute_funcs
    hflag hinit himport
  obtain ⟨hbefore, hafter, hfailed, hdeferred, hreached⟩ :=
    callbacks_lifetime capi rapi info_ vmfb_path fused node_compute_funcs hflag hinit himport
  refine ⟨?_, ?_, hbefore, hafter, hfailed, hreached, hdeferred, ?_, ?_, ?_, ?_⟩
  · intro h hopen
    rw [hlife, hopen]
    rfl
  · intro hopen
    rw [hlife, hopen]
    rfl
  · intro o
    exact ⟨rfl, rfl, fun t => rfl⟩
  · intro h t
    simp [CompilerOutput.Release, outputDestroys_run]
  · intro t
    rfl
  · intro t
    rfl

/-- C18 at three concrete requests, output handle 1.  The pipeline fails
before `Release`: handle 1 is destroyed once, inside `Compile`, and no callback
runs.  The module load fails after `Release`: handle 1 is destroyed once and
the callback of `Release` is the one callback run.  The request succeeds with
two compute functions: `Compile` itself destroys nothing, and over the later
drop of the compute functions handle 1 is destroyed once, the callback of
`Release` being the one callback run. -/
theorem compiler_output_destroyed_once_witness :
    (outputDestroys (compileThenTeardown rejectingCompiler (iree_ep_rt.echoRuntime "local-task")
        [] "/tmp/ort.vmfb" [⟨soundGraph, "a"⟩] []) = [1] ∧
      invokedCallbacks (compileThenTeardown rejectingCompiler
        (iree_ep_rt.echoRuntime "local-task") [] "/tmp/ort.vmfb" [⟨soundGraph, "a"⟩] []) = [] ∧
      outputDestroys (Compile rejectingCompiler (iree_ep_rt.echoRuntime "local-task")
        [] "/tmp/ort.vmfb" [⟨soundGraph, "a"⟩] []).trace =
        rejectingCompiler.OutputOpenMembuffer.2.toList) ∧
      (outputDestroys (compileThenTeardown agreeableCompiler
        (iree_ep_rt.unloadableRuntime "local-task") [] "/tmp/ort.vmfb"
        [⟨soundGraph, "a"⟩] []) = [1] ∧
      invokedCallbacks (compileThenTeardown agreeableCompiler
        (iree_ep_rt.unloadableRuntime "local-task") [] "/tmp/ort.vmfb"
        [⟨soundGraph, "a"⟩] []) =
        [(CompilerOutput.Release ⟨agreeableCompiler.OutputOpenMembuffer.2⟩).1]) ∧
      (outputDestroys (compileThenTeardown agreeableCompiler
        (iree_ep_rt.echoRuntime "local-task") [] "/tmp/ort.vmfb"
        [⟨soundGraph, "a"⟩, ⟨soundGraph, "b"⟩] []) = [1] ∧
      invokedCallbacks (compileThenTeardown agreeableCompiler
        (iree_ep_rt.echoRuntime "local-task") [] "/tmp/ort.vmfb"
        [⟨soundGraph, "a"⟩, ⟨soundGraph, "b"⟩] []) =
        [(CompilerOutput.Release ⟨agreeableCompiler.OutputOpenMembuffer.2⟩).1] ∧
      outputDestroys (Compile agreeableCompiler (iree_ep_rt.echoRuntime "local-task")
        [] "/tmp/ort.vmfb" [⟨soundGraph, "a"⟩, ⟨soundGraph, "b"⟩] []).trace = []) :=
  ⟨⟨(compiler_output_destroyed_once rejectingCompiler (iree_ep_rt.echoRuntime "local-task")
        [] "/tmp/ort.vmfb" [⟨soundGraph, "a"⟩] [] (by decide) (by decide) (by decide)).1 1
        (by decide),
      ((compiler_output_destroyed_once rejectingCompiler (iree_ep_rt.echoRuntime "local-task")
        [] "/tmp/ort.vmfb" [⟨soundGraph, "a"⟩] [] (by decide) (by decide)
        (by decide)).2.2.1 (by decide)).1,
      ((compiler_output_destroyed_once rejectingCompiler (iree_ep_rt.echoRuntime "local-task")
        [] "/tmp/ort.vmfb" [⟨soundGraph, "a"⟩] [] (by decide) (by decide)
        (by decide)).2.2.1 (by decide)).2⟩,
    ⟨(compiler_output_destroyed_once agreeableCompiler
        (iree_ep_rt.unloadableRuntime "local-task") [] "/tmp/ort.vmfb"
        [⟨soundGraph, "a"⟩] [] (by decide) (by decide) (by decide)).1 1 (by decide),
      (compiler_output_destroyed_once agreeableCompiler
        (iree_ep_rt.unloadableRuntime "local-task") [] "/tmp/ort.vmfb"
        [⟨soundGraph, "a"⟩] [] (by decide) (by decide) (by decide)).2.2.2.1 (by decide)⟩,
    ⟨(compiler_output_destroyed_once agreeableCompiler
        (iree_ep_rt.echoRuntime "local-task") [] "/tmp/ort.vmfb"
        [⟨soundGraph, "a"⟩, ⟨soundGraph, "b"⟩] [] (by decide) (by decide) (by decide)).1 1
        (by decide),
      (compiler_output_destroyed_once agreeableCompiler
        (iree_ep_rt.echoRuntime "local-task") [] "/tmp/ort.vmfb"
        [⟨soundGraph, "a"⟩, ⟨soundGraph, "b"⟩] [] (by decide) (by decide)
        (by decide)).2.2.2.1 (by decide),
      ((compiler_output_destroyed_once agreeableCompiler
        (iree_ep_rt.echoRuntime "local-task") [] "/tmp/ort.vmfb"
        [⟨soundGraph, "a"⟩, ⟨soundGraph, "b"⟩] [] (by decide) (by decide)
        (by decide)).2.2.2.2.2.2.1 (by decide) (by decide)).1⟩⟩

end IREEExecutionProvider

end onnxruntime
